import Mathlib

/-!
Verification of the healer daemon's session-graph manager
(`src/healer_daemon.py`) against its specification.

The daemon is embedded shallowly: the relational store (`src/database.py`)
becomes a record of lists of rows, the daemon's in-memory caches and the
supervisor's handle map become association lists, and every command handler
becomes a pure function from a daemon state (plus the command's `data`
fields) to a new state and a JSON-reply value.  `datetime.datetime.utcnow()`
is modelled by a strictly increasing tick counter read off the state: each
call returns the current tick and advances it, reflecting that successive
wall-clock reads are distinct and increasing.  OS pids are modelled by a
fresh-pid counter.  SQLAlchemy commits are modelled as immediate updates of
the store.  The `last_updated` column is omitted: it is set automatically on
every write and no property here concerns it.
-/

namespace Healer

/-- Session kinds, mirroring `SessionType` in `src/database.py`. -/
inductive SessionType where
  | IC_SESSION
  | REQUEST_SESSION
  | AVATAR_LINK
  | GROUP_IC_SESSION
deriving DecidableEq, Repr

/-- Session lifecycle statuses, mirroring `SessionStatus` in `src/database.py`. -/
inductive SessionStatus where
  | SCHEDULED
  | RUNNING
  | COMPLETED
  | STOPPED
  | FAILED
  | RESTARTED
deriving DecidableEq, Repr

/-- The terminal statuses of §3 of the spec. -/
def SessionStatus.isTerminal : SessionStatus → Bool
  | .COMPLETED => true
  | .STOPPED => true
  | .FAILED => true
  | .RESTARTED => true
  | _ => false

/-- An `avatars` row (the spec's Profile): binary photo plus text info. -/
structure Avatar where
  id : Nat
  name : String
  photo_data : List Nat
  info_data : String
deriving DecidableEq, Repr

/-- An `information_copies` row: the binary payload. -/
structure InformationCopy where
  id : Nat
  name : String
  wav_data : List Nat
deriving DecidableEq, Repr

/-- A `requests` row: the text payload. -/
structure Request where
  id : Nat
  name : String
  request_data : String
deriving DecidableEq, Repr

/-- An `avatar_groups` row. -/
structure AvatarGroup where
  id : Nat
  name : String
deriving DecidableEq, Repr

/-- An `avatar_group_members` row. -/
structure AvatarGroupMember where
  group_id : Nat
  avatar_id : Nat
deriving DecidableEq, Repr

/-- An `ic_groups` row. -/
structure ICGroup where
  id : Nat
  name : String
deriving DecidableEq, Repr

/-- An `ic_group_members` row. -/
structure ICGroupMember where
  group_id : Nat
  ic_id : Nat
deriving DecidableEq, Repr

/-- A `request_groups` row. -/
structure RequestGroup where
  id : Nat
  name : String
deriving DecidableEq, Repr

/-- A `request_group_members` row. -/
structure RequestGroupMember where
  group_id : Nat
  request_id : Nat
deriving DecidableEq, Repr

/-- A `sessions` row.  Field defaults mirror the column defaults and the
keyword arguments the handlers leave unset when they construct a
`Session(...)`: `status` defaults to SCHEDULED, `is_group_session` to false,
and every nullable reference to NULL.  `id` is assigned by the store when
the row is inserted (`pushSession`). -/
structure SessionRec where
  id : Nat := 0
  parent_session_id : Option Nat := none
  is_group_session : Bool := false
  description : String := ""
  avatar_id : Option Nat := none
  ic_id : Option Nat := none
  request_id : Option Nat := none
  destination_avatar_id : Option Nat := none
  avatar_group_id : Option Nat := none
  ic_group_id : Option Nat := none
  request_group_id : Option Nat := none
  session_type : SessionType
  start_time : Nat
  end_time : Option Nat := none
  status : SessionStatus := .SCHEDULED
  worker_pid : Option Nat := none
deriving DecidableEq, Repr

/-- The relational store.  `next_session_id` is the serial counter behind the
`sessions.id` primary key (Postgres serials start at 1). -/
structure DB where
  avatars : List Avatar
  ics : List InformationCopy
  requests : List Request
  avatar_groups : List AvatarGroup
  avatar_group_members : List AvatarGroupMember
  ic_groups : List ICGroup
  ic_group_members : List ICGroupMember
  request_groups : List RequestGroup
  request_group_members : List RequestGroupMember
  sessions : List SessionRec
  next_session_id : Nat
deriving DecidableEq, Repr

/-- The daemon's whole state: the store plus the process-local caches
(`ic_cache`, `avatar_cache`, `request_cache`), the supervisor's handle map
`active_workers` (session id to pid), the wall clock, and the next OS pid. -/
structure St where
  db : DB
  avatar_cache : List (Nat × List Nat)
  ic_cache : List (Nat × List Nat)
  request_cache : List (Nat × List Nat)
  active_workers : List (Nat × Nat)
  clock : Nat
  next_pid : Nat
deriving DecidableEq, Repr

/-- One row of `view_running_on`'s reply data. -/
structure RunningRow where
  session_id : Nat
  type : SessionType
  target : String
  duration_minutes : Option Int
deriving DecidableEq, Repr

/-- A handler's JSON reply.  `nullResp` models the Python handler paths that
fall off the end of the function and return `None`. -/
inductive Resp where
  | success (message : String)
  | error (message : String)
  | viewData (avatar_name : String) (avatar_id : Nat) (data : List RunningRow)
  | nullResp
deriving DecidableEq, Repr

/-- Python truthiness of an optional integer field: `if avatar_id:` is false
both for a missing key and for the integer 0. -/
def truthyNat : Option Nat → Option Nat
  | some 0 => none
  | some (n + 1) => some (n + 1)
  | none => none

/-- Python truthiness of an optional string field: missing key or empty
string are both falsy. -/
def truthyStr (s : Option String) : Option String :=
  match s with
  | none => none
  | some t => if t = "" then none else some t

/-- `datetime.datetime.utcnow()`: read the clock and advance it. -/
def utcnow (st : St) : Nat × St :=
  (st.clock, { st with clock := st.clock + 1 })

/-- The pair `(start_time, end_time)` each session constructor builds:
`start_time = utcnow()` and
`end_time = (utcnow() + timedelta(minutes=duration)) if data.get('duration') else None`,
in that evaluation order. -/
def mkStartEndTimes (st : St) (duration : Option Nat) : Nat × Option Nat × St :=
  let r0 := utcnow st
  match truthyNat duration with
  | some d =>
    let r1 := utcnow r0.2
    (r0.1, some (r1.1 + d * 60), r1.2)
  | none => (r0.1, none, r0.2)

/-- `db_session.query(Session).get(sid)` / `filter_by(id=sid).first()`. -/
def getSession (st : St) (sid : Nat) : Option SessionRec :=
  st.db.sessions.find? (fun s => s.id == sid)

/-- Mutating the ORM object for row `sid` and committing. -/
def updateSession (st : St) (sid : Nat) (f : SessionRec → SessionRec) : St :=
  { st with db := { st.db with
      sessions := st.db.sessions.map (fun s => if s.id == sid then f s else s) } }

/-- `db_session.add(session); db_session.commit()`: the insert assigns the
next serial id.  Returns the new state and the assigned id. -/
def pushSession (st : St) (r : SessionRec) : St × Nat :=
  let sid := st.db.next_session_id
  ({ st with db := { st.db with
      sessions := st.db.sessions ++ [{ r with id := sid }],
      next_session_id := sid + 1 } }, sid)

/-- UTF-8 bytes of a string (`str.encode('utf-8')`). -/
def utf8Bytes (s : String) : List Nat :=
  s.toUTF8.toList.map (fun b => b.toNat)

/-- `_load_avatar_to_cache`: memoized photo bytes concatenated with the
UTF-8 info text.  A missing id (including a NULL foreign key, for which the
query finds nothing) raises `ValueError`. -/
def loadAvatarToCache (st : St) (aid : Option Nat) : Except String (St × List Nat) :=
  match aid with
  | none => .error "Avatar ID None not found."
  | some a =>
    match st.avatar_cache.find? (fun e => e.1 == a) with
    | some e => .ok (st, e.2)
    | none =>
      match st.db.avatars.find? (fun av => av.id == a) with
      | none => .error ("Avatar ID " ++ Nat.repr a ++ " not found.")
      | some av =>
        let payload := av.photo_data ++ utf8Bytes av.info_data
        .ok ({ st with avatar_cache := (a, payload) :: st.avatar_cache }, payload)

/-- `_load_ic_to_cache`: memoized raw payload. -/
def loadICToCache (st : St) (icId : Option Nat) : Except String (St × List Nat) :=
  match icId with
  | none => .error "IC ID None not found."
  | some i =>
    match st.ic_cache.find? (fun e => e.1 == i) with
    | some e => .ok (st, e.2)
    | none =>
      match st.db.ics.find? (fun ic => ic.id == i) with
      | none => .error ("IC ID " ++ Nat.repr i ++ " not found.")
      | some ic => .ok ({ st with ic_cache := (i, ic.wav_data) :: st.ic_cache }, ic.wav_data)

/-- `_load_request_to_cache`: memoized UTF-8 text payload. -/
def loadRequestToCache (st : St) (rid : Option Nat) : Except String (St × List Nat) :=
  match rid with
  | none => .error "Request ID None not found."
  | some r =>
    match st.request_cache.find? (fun e => e.1 == r) with
    | some e => .ok (st, e.2)
    | none =>
      match st.db.requests.find? (fun rq => rq.id == r) with
      | none => .error ("Request ID " ++ Nat.repr r ++ " not found.")
      | some rq =>
        let payload := utf8Bytes rq.request_data
        .ok ({ st with request_cache := (r, payload) :: st.request_cache }, payload)

/-- The payload pair `_spawn_worker_for_session` fetches, per session kind. -/
def loadSessionPayloads (st : St) (s : SessionRec) : Except String (St × List Nat × List Nat) :=
  match s.session_type with
  | .IC_SESSION | .GROUP_IC_SESSION =>
    match loadAvatarToCache st s.avatar_id with
    | .error e => .error e
    | .ok (st1, b1) =>
      match loadICToCache st1 s.ic_id with
      | .error e => .error e
      | .ok (st2, b2) => .ok (st2, b1, b2)
  | .REQUEST_SESSION =>
    match loadAvatarToCache st s.avatar_id with
    | .error e => .error e
    | .ok (st1, b1) =>
      match loadRequestToCache st1 s.request_id with
      | .error e => .error e
      | .ok (st2, b2) => .ok (st2, b1, b2)
  | .AVATAR_LINK =>
    match loadAvatarToCache st s.avatar_id with
    | .error e => .error e
    | .ok (st1, b1) =>
      match loadAvatarToCache st1 s.destination_avatar_id with
      | .error e => .error e
      | .ok (st2, b2) => .ok (st2, b1, b2)

/-- `_spawn_worker_for_session`, keyed by session id.  Guards mirror the
source: a missing row or a falsy id returns silently, as does an existing
handle for the id.  On a payload failure the session is set FAILED; on
success it is set RUNNING with the fresh pid and the handle is recorded. -/
def spawnWorkerForSession (st : St) (sid : Nat) : St :=
  match getSession st sid with
  | none => st
  | some s =>
    if s.id == 0 then st
    else if st.active_workers.any (fun w => w.1 == sid) then st
    else
      match loadSessionPayloads st s with
      | .ok (st1, _, _) =>
        let pid := st1.next_pid
        let st2 := updateSession st1 sid
          (fun x => { x with status := .RUNNING, worker_pid := some pid })
        { st2 with
            active_workers := (sid, pid) :: st2.active_workers,
            next_pid := st2.next_pid + 1 }
      | .error _ => updateSession st sid (fun x => { x with status := .FAILED })

/-- `_stop_single_session`: only a RUNNING row is affected; its handle is
popped, the worker terminated, the status set STOPPED and the pid cleared. -/
def stopSingleSession (st : St) (sid : Nat) : St × Bool :=
  match getSession st sid with
  | none => (st, false)
  | some s =>
    if s.status = SessionStatus.RUNNING then
      let st1 := { st with active_workers := st.active_workers.filter (fun w => w.1 != sid) }
      (updateSession st1 sid (fun x => { x with status := .STOPPED, worker_pid := none }), true)
    else (st, false)

/-- `_fail_single_session`: like stop, with terminal status FAILED. -/
def failSingleSession (st : St) (sid : Nat) : St × Bool :=
  match getSession st sid with
  | none => (st, false)
  | some s =>
    if s.status = SessionStatus.RUNNING then
      let st1 := { st with active_workers := st.active_workers.filter (fun w => w.1 != sid) }
      (updateSession st1 sid (fun x => { x with status := .FAILED, worker_pid := none }), true)
    else (st, false)

/-- A name between single quotes, as the handlers interpolate it. -/
def squote (s : String) : String := "'" ++ s ++ "'"

/-- `_get_target_avatar_ids`: a truthy id wins over a group name; a group is
expanded by current membership and must be non-empty. -/
def getTargetAvatarIds (db : DB) (avatar_id : Option Nat) (avatar_group : Option String) :
    Except String (List Nat) :=
  match truthyNat avatar_id with
  | some a =>
    match db.avatars.find? (fun av => av.id == a) with
    | none => .error ("Avatar ID " ++ Nat.repr a ++ " not found.")
    | some _ => .ok [a]
  | none =>
    match truthyStr avatar_group with
    | some gname =>
      match db.avatar_groups.find? (fun g => g.name == gname) with
      | none => .error ("Avatar group " ++ squote gname ++ " not found.")
      | some g =>
        let ids := (db.avatar_group_members.filter (fun m => m.group_id == g.id)).map
          (fun m => m.avatar_id)
        if ids.isEmpty then .error ("Avatar group " ++ squote gname ++ " is empty.")
        else .ok ids
    | none => .error "No target avatar or avatar group specified."

/-- `_get_target_request_ids`, symmetric to the avatar resolver. -/
def getTargetRequestIds (db : DB) (request_id : Option Nat) (request_group : Option String) :
    Except String (List Nat) :=
  match truthyNat request_id with
  | some r =>
    match db.requests.find? (fun rq => rq.id == r) with
    | none => .error ("Request ID " ++ Nat.repr r ++ " not found.")
    | some _ => .ok [r]
  | none =>
    match truthyStr request_group with
    | some gname =>
      match db.request_groups.find? (fun g => g.name == gname) with
      | none => .error ("Request group " ++ squote gname ++ " not found.")
      | some g =>
        let ids := (db.request_group_members.filter (fun m => m.group_id == g.id)).map
          (fun m => m.request_id)
        if ids.isEmpty then .error ("Request group " ++ squote gname ++ " is empty.")
        else .ok ids
    | none => .error "No target request or request group specified."

/-- The create-then-spawn loop shared by the start handlers and
`add_member_to_group`: for each item, `mk` either skips it (`ok none`, the
`continue` in `start_link`), builds the child row (ticking the clock), or
raises (a failed joined-object access); a raised error aborts the loop with
the state accumulated so far, matching rollback of an empty pending
transaction after per-child commits.  Returns the state and the number of
children created. -/
def spawnChildrenLoop (mk : St → α → Except String (Option (SessionRec × St))) :
    St → List α → Nat → Except (St × String) (St × Nat)
  | st, [], n => .ok (st, n)
  | st, x :: xs, n =>
    match mk st x with
    | .error e => .error (st, e)
    | .ok none => spawnChildrenLoop mk st xs n
    | .ok (some (r, st1)) =>
      let p := pushSession st1 r
      spawnChildrenLoop mk (spawnWorkerForSession p.1 p.2) xs (n + 1)

/-- The child row built in `handle_start_ic`'s loop. -/
def startICChildMk (ic : InformationCopy) (parentId : Option Nat) (duration : Option Nat)
    (st : St) (aid : Nat) : Except String (Option (SessionRec × St)) :=
  match st.db.avatars.find? (fun av => av.id == aid) with
  | none => .error "NoneType object has no attribute name"
  | some av =>
    let child_desc := squote av.name ++ " <=> " ++ squote ic.name ++
      (match parentId with
       | some p => " (from Group Op #" ++ Nat.repr p ++ ")"
       | none => "")
    let t := mkStartEndTimes st duration
    .ok (some ({ parent_session_id := parentId,
                 avatar_id := some aid, ic_id := some ic.id,
                 description := child_desc,
                 session_type := .IC_SESSION,
                 start_time := t.1, end_time := t.2.1 }, t.2.2))

/-- `handle_start_ic`: resolve targets, create a parent row only when more
than one avatar id resolved, then create and spawn one leaf per avatar. -/
def handle_start_ic (st : St) (avatar_id : Option Nat) (avatar_group : Option String)
    (ic_id : Nat) (duration : Option Nat) : St × Resp :=
  match getTargetAvatarIds st.db avatar_id avatar_group with
  | .error e => (st, .error e)
  | .ok target_avatar_ids =>
    match st.db.ics.find? (fun ic => ic.id == ic_id) with
    | none => (st, .error ("IC " ++ Nat.repr ic_id ++ " not found."))
    | some ic =>
      let parentRes : Except String (Option Nat × St) :=
        if 1 < target_avatar_ids.length then
          match avatar_group with
          | none => .error "avatar_group"
          | some gname =>
            match st.db.avatar_groups.find? (fun g => g.name == gname) with
            | none => .error "NoneType object has no attribute name"
            | some g =>
              let desc := "IC " ++ squote ic.name ++ " on Avatar Group " ++ squote g.name
              let t := mkStartEndTimes st duration
              let p := pushSession t.2.2
                { is_group_session := true, description := desc,
                  avatar_group_id := some g.id, ic_id := some ic.id,
                  session_type := .IC_SESSION,
                  start_time := t.1, end_time := t.2.1,
                  status := .RUNNING }
              .ok (some p.2, p.1)
        else .ok (none, st)
      match parentRes with
      | .error e => (st, .error e)
      | .ok (parentId, st1) =>
        match spawnChildrenLoop (startICChildMk ic parentId duration) st1 target_avatar_ids 0 with
        | .error (stE, e) => (stE, .error e)
        | .ok (st2, created) =>
          (st2, .success ("Started " ++ Nat.repr created ++ " session(s)."))

/-- The child row built in `handle_start_request`'s nested loop, for one
(avatar id, request id) pair. -/
def startRequestChildMk (parentId : Option Nat) (duration : Option Nat)
    (st : St) (p : Nat × Nat) : Except String (Option (SessionRec × St)) :=
  match st.db.avatars.find? (fun av => av.id == p.1),
        st.db.requests.find? (fun rq => rq.id == p.2) with
  | some av, some rq =>
    let child_desc := squote av.name ++ " <=> " ++ squote rq.name ++
      (match parentId with
       | some pid => " (from Group Op #" ++ Nat.repr pid ++ ")"
       | none => "")
    let t := mkStartEndTimes st duration
    .ok (some ({ parent_session_id := parentId,
                 avatar_id := some p.1, request_id := some p.2,
                 description := child_desc,
                 session_type := .REQUEST_SESSION,
                 start_time := t.1, end_time := t.2.1 }, t.2.2))
  | _, _ => .error "NoneType object has no attribute name"

/-- `handle_start_request`: a parent is created when both sides are
multi-valued, or when exactly one side is; leaves are the cartesian product
of the resolved sides, avatar-major as the nested loops iterate. -/
def handle_start_request (st : St) (avatar_id : Option Nat) (avatar_group : Option String)
    (request_id : Option Nat) (request_group : Option String) (duration : Option Nat) :
    St × Resp :=
  match getTargetAvatarIds st.db avatar_id avatar_group with
  | .error e => (st, .error e)
  | .ok target_avatar_ids =>
    match getTargetRequestIds st.db request_id request_group with
    | .error e => (st, .error e)
    | .ok target_request_ids =>
      let parentRes : Except String (Option Nat × St) :=
        if 1 < target_avatar_ids.length ∧ 1 < target_request_ids.length then
          match avatar_group, request_group with
          | some agname, some rgname =>
            match st.db.avatar_groups.find? (fun g => g.name == agname),
                  st.db.request_groups.find? (fun g => g.name == rgname) with
            | some ag, some rg =>
              let desc := "Request Group " ++ squote rg.name ++ " on Avatar Group " ++
                squote ag.name
              let t := mkStartEndTimes st duration
              let p := pushSession t.2.2
                { is_group_session := true, description := desc,
                  avatar_group_id := some ag.id, request_group_id := some rg.id,
                  session_type := .REQUEST_SESSION,
                  start_time := t.1, end_time := t.2.1,
                  status := .RUNNING }
              .ok (some p.2, p.1)
            | _, _ => .error "NoneType object has no attribute name"
          | _, _ => .error "avatar_group or request_group"
        else if 1 < target_avatar_ids.length then
          match avatar_group with
          | none => .error "avatar_group"
          | some agname =>
            match st.db.avatar_groups.find? (fun g => g.name == agname),
                  st.db.requests.find? (fun rq =>
                    rq.id == target_request_ids.headD 0) with
            | some ag, some rq =>
              let desc := "Request " ++ squote rq.name ++ " on Avatar Group " ++ squote ag.name
              let t := mkStartEndTimes st duration
              let p := pushSession t.2.2
                { is_group_session := true, description := desc,
                  avatar_group_id := some ag.id, request_id := some rq.id,
                  session_type := .REQUEST_SESSION,
                  start_time := t.1, end_time := t.2.1,
                  status := .RUNNING }
              .ok (some p.2, p.1)
            | _, _ => .error "NoneType object has no attribute name"
        else if 1 < target_request_ids.length then
          match request_group with
          | none => .error "request_group"
          | some rgname =>
            match st.db.request_groups.find? (fun g => g.name == rgname),
                  st.db.avatars.find? (fun av => av.id == target_avatar_ids.headD 0) with
            | some rg, some av =>
              let desc := "Request Group " ++ squote rg.name ++ " on Avatar " ++ squote av.name
              let t := mkStartEndTimes st duration
              let p := pushSession t.2.2
                { is_group_session := true, description := desc,
                  request_group_id := some rg.id, avatar_id := some av.id,
                  session_type := .REQUEST_SESSION,
                  start_time := t.1, end_time := t.2.1,
                  status := .RUNNING }
              .ok (some p.2, p.1)
            | _, _ => .error "NoneType object has no attribute name"
        else .ok (none, st)
      match parentRes with
      | .error e => (st, .error e)
      | .ok (parentId, st1) =>
        let pairs := target_avatar_ids.flatMap
          (fun a => target_request_ids.map (fun r => (a, r)))
        match spawnChildrenLoop (startRequestChildMk parentId duration) st1 pairs 0 with
        | .error (stE, e) => (stE, .error e)
        | .ok (st2, created) =>
          (st2, .success ("Started " ++ Nat.repr created ++ " request session(s)."))

/-- The child row built in `handle_start_link`'s loop: a destination equal
to the source is skipped silently (`continue`). -/
def startLinkChildMk (source_avatar : Avatar) (parentId : Option Nat) (duration : Option Nat)
    (st : St) (dest_id : Nat) : Except String (Option (SessionRec × St)) :=
  if source_avatar.id == dest_id then .ok none
  else
    match st.db.avatars.find? (fun av => av.id == dest_id) with
    | none => .error "NoneType object has no attribute name"
    | some dest_avatar =>
      let child_desc := "Link: " ++ squote source_avatar.name ++ " -> " ++
        squote dest_avatar.name ++
        (match parentId with
         | some pid => " (from Group Op #" ++ Nat.repr pid ++ ")"
         | none => "")
      let t := mkStartEndTimes st duration
      .ok (some ({ parent_session_id := parentId,
                   avatar_id := some source_avatar.id,
                   destination_avatar_id := some dest_id,
                   description := child_desc,
                   session_type := .AVATAR_LINK,
                   start_time := t.1, end_time := t.2.1 }, t.2.2))

/-- `handle_start_link`: destinations resolve first, then the source avatar
is fetched; a parent is created only for a multi-valued destination side. -/
def handle_start_link (st : St) (source_id : Nat) (dest_id : Option Nat)
    (dest_group : Option String) (duration : Option Nat) : St × Resp :=
  match getTargetAvatarIds st.db dest_id dest_group with
  | .error e => (st, .error e)
  | .ok dest_avatar_ids =>
    match st.db.avatars.find? (fun av => av.id == source_id) with
    | none => (st, .error ("Source Avatar " ++ Nat.repr source_id ++ " not found."))
    | some source_avatar =>
      let parentRes : Except String (Option Nat × St) :=
        if 1 < dest_avatar_ids.length then
          match dest_group with
          | none => .error "dest_group"
          | some gname =>
            match st.db.avatar_groups.find? (fun g => g.name == gname) with
            | none => .error "NoneType object has no attribute name"
            | some g =>
              let desc := "Link from " ++ squote source_avatar.name ++ " to Avatar Group " ++
                squote g.name
              let t := mkStartEndTimes st duration
              let p := pushSession t.2.2
                { is_group_session := true, description := desc,
                  avatar_id := some source_id, avatar_group_id := some g.id,
                  session_type := .AVATAR_LINK,
                  start_time := t.1, end_time := t.2.1,
                  status := .RUNNING }
              .ok (some p.2, p.1)
        else .ok (none, st)
      match parentRes with
      | .error e => (st, .error e)
      | .ok (parentId, st1) =>
        match spawnChildrenLoop (startLinkChildMk source_avatar parentId duration)
            st1 dest_avatar_ids 0 with
        | .error (stE, e) => (stE, .error e)
        | .ok (st2, created) =>
          (st2, .success ("Started " ++ Nat.repr created ++ " link session(s)."))

/-- The child row built in `handle_start_group`'s nested loop for one pair of
membership rows; the joined `avatar` / `ic` objects give the names, and the
child inherits the parent's timing. -/
def startGroupChildMk (parent : SessionRec)
    (st : St) (p : AvatarGroupMember × ICGroupMember) :
    Except String (Option (SessionRec × St)) :=
  match st.db.avatars.find? (fun av => av.id == p.1.avatar_id),
        st.db.ics.find? (fun ic => ic.id == p.2.ic_id) with
  | some av, some ic =>
    let child_desc := squote av.name ++ " <=> " ++ squote ic.name ++
      " (from Group Session #" ++ Nat.repr parent.id ++ ")"
    .ok (some ({ parent_session_id := some parent.id,
                 avatar_id := some p.1.avatar_id, ic_id := some p.2.ic_id,
                 description := child_desc,
                 session_type := .IC_SESSION,
                 start_time := parent.start_time, end_time := parent.end_time }, st))
  | _, _ => .error "NoneType object has no attribute name"

/-- `handle_start_group`: both groups must exist and be non-empty; one
parent of kind GROUP_IC_SESSION is created RUNNING, then one leaf per
(avatar member, ic member) pair is created and spawned. -/
def handle_start_group (st : St) (avatar_group : Option String) (ic_group : Option String)
    (duration : Option Nat) : St × Resp :=
  match st.db.avatar_groups.find? (fun g => some g.name == avatar_group) with
  | none =>
    (st, .error ("Avatar group " ++ squote ((avatar_group).getD "None") ++ " not found."))
  | some ag =>
    match st.db.ic_groups.find? (fun g => some g.name == ic_group) with
    | none =>
      (st, .error ("IC group " ++ squote ((ic_group).getD "None") ++ " not found."))
    | some ig =>
      let amembers := st.db.avatar_group_members.filter (fun m => m.group_id == ag.id)
      let imembers := st.db.ic_group_members.filter (fun m => m.group_id == ig.id)
      if amembers.isEmpty ∨ imembers.isEmpty then
        (st, .error "Both avatar and IC groups must be non-empty.")
      else
        let desc := "IC Group " ++ squote ig.name ++ " on Avatar Group " ++ squote ag.name
        let t := mkStartEndTimes st duration
        let parentRec : SessionRec :=
          { is_group_session := true, description := desc,
            avatar_group_id := some ag.id, ic_group_id := some ig.id,
            session_type := .GROUP_IC_SESSION,
            start_time := t.1, end_time := t.2.1,
            status := .RUNNING }
        let p := pushSession t.2.2 parentRec
        let parent : SessionRec := { parentRec with id := p.2 }
        let pairs := amembers.flatMap (fun a => imembers.map (fun i => (a, i)))
        match spawnChildrenLoop (startGroupChildMk parent) p.1 pairs 0 with
        | .error (stE, e) => (stE, .error e)
        | .ok (st2, _) =>
          (st2, .success ("Started group session " ++ Nat.repr parent.id ++ " with " ++
            Nat.repr (amembers.length * imembers.length) ++ " workers."))

/-- The loop of `handle_stop_session`: for each collected session, stop it
if (and only if) it reads as RUNNING, counting the successful stops. -/
def stopSessionsLoop : St → List Nat → Nat → St × Nat
  | st, [], n => (st, n)
  | st, sid :: rest, n =>
    match getSession st sid with
    | none => stopSessionsLoop st rest n
    | some s =>
      if s.status = SessionStatus.RUNNING then
        let r := stopSingleSession st sid
        stopSessionsLoop r.1 rest (if r.2 then n + 1 else n)
      else stopSessionsLoop st rest n

/-- `handle_stop_session`: collect the session and (for a parent or an
unparented row) its children, stop the RUNNING ones, then unconditionally
overwrite the named session's status with STOPPED. -/
def handle_stop_session (st : St) (session_id : Nat) : St × Resp :=
  match getSession st session_id with
  | none => (st, .error ("Session " ++ Nat.repr session_id ++ " not found."))
  | some s =>
    let ids :=
      if s.is_group_session || s.parent_session_id.isNone then
        session_id :: (st.db.sessions.filter
          (fun c => c.parent_session_id == some session_id)).map (fun c => c.id)
      else [session_id]
    let r := stopSessionsLoop st ids 0
    let st2 := updateSession r.1 session_id (fun x => { x with status := .STOPPED })
    (st2, .success ("Stopped " ++ Nat.repr r.2 ++ " session(s)."))

/-- The restart loop of `handle_update_entity`: stop each affected RUNNING
session and respawn it, counting the restarts. -/
def restartSessionsLoop : St → List Nat → Nat → St × Nat
  | st, [], n => (st, n)
  | st, sid :: rest, n =>
    let r := stopSingleSession st sid
    if r.2 then restartSessionsLoop (spawnWorkerForSession r.1 sid) rest (n + 1)
    else restartSessionsLoop r.1 rest n

/-- `handle_update_entity`: only avatars are supported; the row is patched,
the cache entry evicted, and every RUNNING session using the avatar as
source or destination is stopped and respawned. -/
def handle_update_entity (st : St) (entity_type : String) (entity_id : Nat)
    (photo_data : Option (List Nat)) (info_data : Option String) : St × Resp :=
  if entity_type = "avatar" then
    match st.db.avatars.find? (fun a => a.id == entity_id) with
    | none => (st, .error ("Avatar " ++ Nat.repr entity_id ++ " not found."))
    | some _ =>
      let st1 : St := { st with db := { st.db with
        avatars := st.db.avatars.map (fun a =>
          if a.id == entity_id then
            { a with photo_data := photo_data.getD a.photo_data,
                     info_data := info_data.getD a.info_data }
          else a) } }
      let st2 : St := { st1 with
        avatar_cache := st1.avatar_cache.filter (fun e => e.1 != entity_id) }
      let affected := (st2.db.sessions.filter (fun s =>
        s.status == SessionStatus.RUNNING &&
          (s.avatar_id == some entity_id || s.destination_avatar_id == some entity_id))).map
        (fun s => s.id)
      let r := restartSessionsLoop st2 affected 0
      (r.1, .success ("Entity updated. Restarted " ++ Nat.repr r.2 ++ " active session(s)."))
  else
    (st, .error ("Entity type " ++ squote entity_type ++ " not supported for updates."))

/-- The parent row joined through `parent_session`, when one exists. -/
def parentOf (st : St) (s : SessionRec) : Option SessionRec :=
  s.parent_session_id.bind (fun pid => getSession st pid)

/-- `handle_view_running_on`: resolve the avatar by numeric id or by name,
then list every RUNNING leaf where it is source, destination, or a member
of a group a parent session is bound to; the target string is promoted from
a group parent, and the duration is reported in whole minutes. -/
def handle_view_running_on (st : St) (avatar_identifier : String) : St × Resp :=
  let avatarOpt :=
    if avatar_identifier.length != 0 && avatar_identifier.all Char.isDigit then
      st.db.avatars.find? (fun a => a.id == (avatar_identifier.toNat?.getD 0))
    else
      st.db.avatars.find? (fun a => a.name == avatar_identifier)
  match avatarOpt with
  | none => (st, .error ("Avatar " ++ squote avatar_identifier ++ " not found."))
  | some a =>
    let avatar_group_ids := (st.db.avatar_group_members.filter
      (fun m => m.avatar_id == a.id)).map (fun m => m.group_id)
    let sessions := st.db.sessions.filter (fun s =>
      s.status == SessionStatus.RUNNING && s.is_group_session == false &&
        (s.avatar_id == some a.id || s.destination_avatar_id == some a.id ||
          (match parentOf st s with
           | some p => match p.avatar_group_id with
             | some gid => avatar_group_ids.contains gid
             | none => false
           | none => false)))
    let rows := sessions.map (fun s =>
      let target :=
        match parentOf st s with
        | some p =>
          if p.is_group_session then
            "Part of Group Session #" ++ Nat.repr p.id ++ ": " ++ p.description
          else s.description
        | none => s.description
      let duration : Option Int :=
        s.end_time.map (fun e => ((e : Int) - (s.start_time : Int)) / 60)
      { session_id := s.id, type := s.session_type,
        target := target, duration_minutes := duration })
    (st, .viewData a.name a.id rows)

/-- The child row `add_member_to_group` builds under a GROUP_IC_SESSION
parent for the new avatar and one ic-group member row. -/
def addMemberGroupICChildMk (new_av : Avatar) (parent : SessionRec)
    (st : St) (m : ICGroupMember) : Except String (Option (SessionRec × St)) :=
  match st.db.ics.find? (fun ic => ic.id == m.ic_id) with
  | none => .error "NoneType object has no attribute name"
  | some ic =>
    let child_desc := squote new_av.name ++ " <=> " ++ squote ic.name ++
      " (from Group Session #" ++ Nat.repr parent.id ++ ")"
    .ok (some ({ parent_session_id := some parent.id,
                 avatar_id := some new_av.id, ic_id := some m.ic_id,
                 description := child_desc,
                 session_type := .IC_SESSION,
                 start_time := parent.start_time, end_time := parent.end_time }, st))

/-- The per-parent body of `add_member_to_group`'s avatar branch: the
if/elif chain on the parent's kind, guarded by the joined objects, each
case creating and spawning the retroactive leaves. -/
def addMemberChildrenForParent (new_av : Avatar) (st : St) (parent : SessionRec) :
    Except (St × String) (St × Nat) :=
  if parent.session_type = SessionType.GROUP_IC_SESSION then
    match parent.ic_group_id.bind
        (fun gid => st.db.ic_groups.find? (fun g => g.id == gid)) with
    | none => .ok (st, 0)
    | some ig =>
      let members := st.db.ic_group_members.filter (fun m => m.group_id == ig.id)
      spawnChildrenLoop (addMemberGroupICChildMk new_av parent) st members 0
  else if parent.session_type = SessionType.IC_SESSION ∧
      (parent.ic_id.bind (fun i => st.db.ics.find? (fun ic => ic.id == i))).isSome then
    match parent.ic_id.bind (fun i => st.db.ics.find? (fun ic => ic.id == i)) with
    | none => .ok (st, 0)
    | some ic =>
      let child_desc := squote new_av.name ++ " <=> " ++ squote ic.name ++
        " (from Group Op #" ++ Nat.repr parent.id ++ ")"
      let p := pushSession st
        { parent_session_id := some parent.id,
          avatar_id := some new_av.id, ic_id := parent.ic_id,
          description := child_desc,
          session_type := .IC_SESSION,
          start_time := parent.start_time, end_time := parent.end_time }
      .ok (spawnWorkerForSession p.1 p.2, 1)
  else if parent.session_type = SessionType.REQUEST_SESSION ∧
      (parent.request_id.bind (fun i => st.db.requests.find? (fun rq => rq.id == i))).isSome then
    match parent.request_id.bind (fun i => st.db.requests.find? (fun rq => rq.id == i)) with
    | none => .ok (st, 0)
    | some rq =>
      let child_desc := squote new_av.name ++ " <=> " ++ squote rq.name ++
        " (from Group Op #" ++ Nat.repr parent.id ++ ")"
      let p := pushSession st
        { parent_session_id := some parent.id,
          avatar_id := some new_av.id, request_id := parent.request_id,
          description := child_desc,
          session_type := .REQUEST_SESSION,
          start_time := parent.start_time, end_time := parent.end_time }
      .ok (spawnWorkerForSession p.1 p.2, 1)
  else if parent.session_type = SessionType.AVATAR_LINK ∧
      (parent.avatar_id.bind (fun i => st.db.avatars.find? (fun av => av.id == i))).isSome then
    match parent.avatar_id.bind (fun i => st.db.avatars.find? (fun av => av.id == i)) with
    | none => .ok (st, 0)
    | some src =>
      let child_desc := "Link: " ++ squote src.name ++ " -> " ++ squote new_av.name ++
        " (from Group Op #" ++ Nat.repr parent.id ++ ")"
      let p := pushSession st
        { parent_session_id := some parent.id,
          avatar_id := parent.avatar_id, destination_avatar_id := some new_av.id,
          description := child_desc,
          session_type := .AVATAR_LINK,
          start_time := parent.start_time, end_time := parent.end_time }
      .ok (spawnWorkerForSession p.1 p.2, 1)
  else .ok (st, 0)

/-- The fold over the active matching parents in `add_member_to_group`'s
avatar branch, accumulating the count of new workers. -/
def addMemberOuterLoop (new_av : Avatar) :
    St → List SessionRec → Nat → Except (St × String) (St × Nat)
  | st, [], n => .ok (st, n)
  | st, p :: ps, n =>
    match addMemberChildrenForParent new_av st p with
    | .error e => .error e
    | .ok (st1, k) => addMemberOuterLoop new_av st1 ps (n + k)

/-- The counting loop of `add_member_to_group`'s ic branch: for each active
matching parent, iterate the parent's avatar-group members and increment
`new_workers` — no session is created or spawned in this branch. -/
def addMemberICCountLoop (st : St) :
    List SessionRec → Nat → Except (St × String) Nat
  | [], n => .ok n
  | p :: ps, n =>
    match p.avatar_group_id.bind
        (fun gid => st.db.avatar_groups.find? (fun g => g.id == gid)) with
    | none => .error (st, "NoneType object has no attribute members")
    | some ag =>
      let members := st.db.avatar_group_members.filter (fun m => m.group_id == ag.id)
      addMemberICCountLoop st ps (n + members.length)

/-- `handle_add_member_to_group`: dispatch on `group_type`.  The ic branch
inserts the membership and only counts the would-be sessions; the avatar
branch inserts the membership and retroactively creates leaves under every
RUNNING matching parent; the request branch only inserts the membership; an
unknown type falls off the function and returns Python `None`. -/
def handle_add_member_to_group (st : St) (group_type : String) (group_name : String)
    (member_id : Nat) : St × Resp :=
  if group_type = "ic" then
    match st.db.ic_groups.find? (fun g => g.name == group_name) with
    | none => (st, .error ("IC group " ++ squote group_name ++ " not found."))
    | some g =>
      match st.db.ics.find? (fun ic => ic.id == member_id) with
      | none => (st, .error ("IC " ++ Nat.repr member_id ++ " not found."))
      | some _ =>
        if (st.db.ic_group_members.find? (fun m =>
            m.group_id == g.id && m.ic_id == member_id)).isSome then
          (st, .success ("IC " ++ Nat.repr member_id ++ " is already in group " ++
            squote group_name ++ "."))
        else
          let st1 : St := { st with db := { st.db with
            ic_group_members := st.db.ic_group_members ++
              [{ group_id := g.id, ic_id := member_id }] } }
          let parents := st1.db.sessions.filter (fun s =>
            s.is_group_session == true && s.status == SessionStatus.RUNNING &&
              s.ic_group_id == some g.id)
          match addMemberICCountLoop st1 parents 0 with
          | .error (stE, e) => (stE, .error e)
          | .ok new_workers =>
            (st1, .success ("Added IC " ++ Nat.repr member_id ++ " to group " ++
              squote group_name ++ ". Started " ++ Nat.repr new_workers ++
              " new live session(s)."))
  else if group_type = "avatar" then
    match st.db.avatar_groups.find? (fun g => g.name == group_name) with
    | none => (st, .error ("Avatar group " ++ squote group_name ++ " not found."))
    | some g =>
      match st.db.avatars.find? (fun av => av.id == member_id) with
      | none => (st, .error ("Avatar " ++ Nat.repr member_id ++ " not found."))
      | some new_av =>
        if (st.db.avatar_group_members.find? (fun m =>
            m.group_id == g.id && m.avatar_id == member_id)).isSome then
          (st, .success ("Avatar " ++ Nat.repr member_id ++ " is already in group " ++
            squote group_name ++ "."))
        else
          let st1 : St := { st with db := { st.db with
            avatar_group_members := st.db.avatar_group_members ++
              [{ group_id := g.id, avatar_id := member_id }] } }
          let parents := st1.db.sessions.filter (fun s =>
            s.is_group_session == true && s.status == SessionStatus.RUNNING &&
              s.avatar_group_id == some g.id)
          match addMemberOuterLoop new_av st1 parents 0 with
          | .error (stE, e) => (stE, .error e)
          | .ok (st2, new_workers) =>
            (st2, .success ("Added Avatar " ++ Nat.repr member_id ++ " to group " ++
              squote group_name ++ ". Started " ++ Nat.repr new_workers ++
              " new live session(s)."))
  else if group_type = "request" then
    match st.db.request_groups.find? (fun g => g.name == group_name) with
    | none => (st, .error ("Request group " ++ squote group_name ++ " not found."))
    | some g =>
      match st.db.requests.find? (fun rq => rq.id == member_id) with
      | none => (st, .error ("Request " ++ Nat.repr member_id ++ " not found."))
      | some _ =>
        if (st.db.request_group_members.find? (fun m =>
            m.group_id == g.id && m.request_id == member_id)).isSome then
          (st, .success ("Request " ++ Nat.repr member_id ++ " is already in group " ++
            squote group_name ++ "."))
        else
          let st1 : St := { st with db := { st.db with
            request_group_members := st.db.request_group_members ++
              [{ group_id := g.id, request_id := member_id }] } }
          (st1, .success ("Added Request " ++ Nat.repr member_id ++ " to group " ++
            squote group_name ++ ". No new sessions started."))
  else (st, .nullResp)

/-- The stop-and-count fold shared by `remove_member_from_group`,
`remove_entity` and `fail_sessions_on_target`: `_stop_single_session` or
`_fail_single_session` applied to each id, counting the `True` returns. -/
def stopCountLoop (single : St → Nat → St × Bool) : St → List Nat → Nat → St × Nat
  | st, [], n => (st, n)
  | st, sid :: rest, n =>
    let r := single st sid
    stopCountLoop single r.1 rest (if r.2 then n + 1 else n)

/-- Does `s` have a parent row that is a RUNNING group session bound to the
given relation (`Session.parent_session.has(...)`)? -/
def parentHas (st : St) (s : SessionRec) (check : SessionRec → Bool) : Bool :=
  match parentOf st s with
  | some p => p.is_group_session == true && p.status == SessionStatus.RUNNING && check p
  | none => false

/-- `handle_remove_member_from_group`: per group type, a missing membership
is a no-op success; otherwise the children of RUNNING matching group parents
whose removed side matches are stopped, then the membership row deleted. -/
def handle_remove_member_from_group (st : St) (group_type : String) (group_name : String)
    (member_id : Nat) : St × Resp :=
  if group_type = "ic" then
    match st.db.ic_groups.find? (fun g => g.name == group_name) with
    | none => (st, .error ("IC group " ++ squote group_name ++ " not found."))
    | some g =>
      if (st.db.ic_group_members.find? (fun m =>
          m.group_id == g.id && m.ic_id == member_id)).isNone then
        (st, .success ("IC " ++ Nat.repr member_id ++ " was not in group " ++
          squote group_name ++ "."))
      else
        let ids := (st.db.sessions.filter (fun s =>
          parentHas st s (fun p => p.ic_group_id == some g.id) &&
            s.ic_id == some member_id)).map (fun s => s.id)
        let r := stopCountLoop stopSingleSession st ids 0
        let st2 : St := { r.1 with db := { r.1.db with
          ic_group_members := r.1.db.ic_group_members.filter (fun m =>
            !(m.group_id == g.id && m.ic_id == member_id)) } }
        (st2, .success ("Removed IC " ++ Nat.repr member_id ++ " from group " ++
          squote group_name ++ ". Stopped " ++ Nat.repr r.2 ++ " live session(s)."))
  else if group_type = "avatar" then
    match st.db.avatar_groups.find? (fun g => g.name == group_name) with
    | none => (st, .error ("Avatar group " ++ squote group_name ++ " not found."))
    | some g =>
      if (st.db.avatar_group_members.find? (fun m =>
          m.group_id == g.id && m.avatar_id == member_id)).isNone then
        (st, .success ("Avatar " ++ Nat.repr member_id ++ " was not in group " ++
          squote group_name ++ "."))
      else
        let ids := (st.db.sessions.filter (fun s =>
          parentHas st s (fun p => p.avatar_group_id == some g.id) &&
            s.avatar_id == some member_id)).map (fun s => s.id)
        let r := stopCountLoop stopSingleSession st ids 0
        let st2 : St := { r.1 with db := { r.1.db with
          avatar_group_members := r.1.db.avatar_group_members.filter (fun m =>
            !(m.group_id == g.id && m.avatar_id == member_id)) } }
        (st2, .success ("Removed Avatar " ++ Nat.repr member_id ++ " from group " ++
          squote group_name ++ ". Stopped " ++ Nat.repr r.2 ++ " live session(s)."))
  else if group_type = "request" then
    match st.db.request_groups.find? (fun g => g.name == group_name) with
    | none => (st, .error ("Request group " ++ squote group_name ++ " not found."))
    | some g =>
      if (st.db.request_group_members.find? (fun m =>
          m.group_id == g.id && m.request_id == member_id)).isNone then
        (st, .success ("Request " ++ Nat.repr member_id ++ " was not in group " ++
          squote group_name ++ "."))
      else
        let ids := (st.db.sessions.filter (fun s =>
          parentHas st s (fun p => p.request_group_id == some g.id) &&
            s.request_id == some member_id)).map (fun s => s.id)
        let r := stopCountLoop stopSingleSession st ids 0
        let st2 : St := { r.1 with db := { r.1.db with
          request_group_members := r.1.db.request_group_members.filter (fun m =>
            !(m.group_id == g.id && m.request_id == member_id)) } }
        (st2, .success ("Removed Request " ++ Nat.repr member_id ++ " from group " ++
          squote group_name ++ ". Stopped " ++ Nat.repr r.2 ++ " live session(s)."))
  else (st, .nullResp)

/-- Does session `s` reference avatar `aid` as source or destination? -/
def refsAvatar (aid : Nat) (s : SessionRec) : Bool :=
  s.avatar_id == some aid || s.destination_avatar_id == some aid

/-- `handle_remove_entity`.  For an avatar: the sessions listed by the
`source_sessions` and `dest_sessions` relationships are stopped (the RUNNING
ones), the row is deleted — the ORM cascade `all, delete-orphan` then
deletes those sessions, their own child sessions, and the avatar's
membership rows — and the avatar-cache entry is evicted.  For an ic or a
request the handler reads `entity.source_sessions`, an attribute only
`Avatar` defines, so it raises `AttributeError` before mutating anything
and the transaction is rolled back.  A missing entity is a no-op success;
an unknown type is an error. -/
def handle_remove_entity (st : St) (entity_type : String) (entity_id : Nat) : St × Resp :=
  if entity_type = "avatar" then
    match st.db.avatars.find? (fun a => a.id == entity_id) with
    | none =>
      (st, .success (entity_type ++ " " ++ Nat.repr entity_id ++ " already deleted."))
    | some _ =>
      let ids :=
        ((st.db.sessions.filter (fun s => s.avatar_id == some entity_id)).map (fun s => s.id)) ++
        ((st.db.sessions.filter (fun s => s.destination_avatar_id == some entity_id)).map
          (fun s => s.id))
      let r := stopCountLoop stopSingleSession st ids 0
      let st1 := r.1
      let removed_ids := (st1.db.sessions.filter (refsAvatar entity_id)).map (fun s => s.id)
      let st2 : St := { st1 with db := { st1.db with
        avatars := st1.db.avatars.filter (fun a => a.id != entity_id),
        avatar_group_members := st1.db.avatar_group_members.filter
          (fun m => m.avatar_id != entity_id),
        sessions := st1.db.sessions.filter (fun s =>
          !(refsAvatar entity_id s) &&
            !(match s.parent_session_id with
              | some pid => removed_ids.contains pid
              | none => false)) } }
      let st3 : St := { st2 with
        avatar_cache := st2.avatar_cache.filter (fun e => e.1 != entity_id) }
      (st3, .success ("Stopped " ++ Nat.repr r.2 ++ " session(s) and removed " ++
        entity_type ++ " " ++ Nat.repr entity_id ++ "."))
  else if entity_type = "ic" then
    match st.db.ics.find? (fun ic => ic.id == entity_id) with
    | none =>
      (st, .success (entity_type ++ " " ++ Nat.repr entity_id ++ " already deleted."))
    | some _ =>
      (st, .error "'InformationCopy' object has no attribute 'source_sessions'")
  else if entity_type = "request" then
    match st.db.requests.find? (fun rq => rq.id == entity_id) with
    | none =>
      (st, .success (entity_type ++ " " ++ Nat.repr entity_id ++ " already deleted."))
    | some _ =>
      (st, .error "'Request' object has no attribute 'source_sessions'")
  else (st, .error "Removal for this entity type not implemented.")

/-- `handle_remove_group`: a missing group is a no-op success; otherwise the
group row is deleted — the ORM cascade deletes its membership rows and nulls
the group reference on sessions bound to it — and nothing else happens: no
session is stopped. -/
def handle_remove_group (st : St) (group_type : String) (group_name : String) : St × Resp :=
  if group_type = "avatar" then
    match st.db.avatar_groups.find? (fun g => g.name == group_name) with
    | none =>
      (st, .success ("Group " ++ squote group_name ++ " not found or already deleted."))
    | some g =>
      let st1 : St := { st with db := { st.db with
        avatar_groups := st.db.avatar_groups.filter (fun h => h.id != g.id),
        avatar_group_members := st.db.avatar_group_members.filter
          (fun m => m.group_id != g.id),
        sessions := st.db.sessions.map (fun s =>
          if s.avatar_group_id == some g.id then { s with avatar_group_id := none } else s) } }
      (st1, .success ("Group " ++ squote group_name ++
        " and all its memberships have been deleted."))
  else if group_type = "ic" then
    match st.db.ic_groups.find? (fun g => g.name == group_name) with
    | none =>
      (st, .success ("Group " ++ squote group_name ++ " not found or already deleted."))
    | some g =>
      let st1 : St := { st with db := { st.db with
        ic_groups := st.db.ic_groups.filter (fun h => h.id != g.id),
        ic_group_members := st.db.ic_group_members.filter (fun m => m.group_id != g.id),
        sessions := st.db.sessions.map (fun s =>
          if s.ic_group_id == some g.id then { s with ic_group_id := none } else s) } }
      (st1, .success ("Group " ++ squote group_name ++
        " and all its memberships have been deleted."))
  else if group_type = "request" then
    match st.db.request_groups.find? (fun g => g.name == group_name) with
    | none =>
      (st, .success ("Group " ++ squote group_name ++ " not found or already deleted."))
    | some g =>
      let st1 : St := { st with db := { st.db with
        request_groups := st.db.request_groups.filter (fun h => h.id != g.id),
        request_group_members := st.db.request_group_members.filter
          (fun m => m.group_id != g.id),
        sessions := st.db.sessions.map (fun s =>
          if s.request_group_id == some g.id then { s with request_group_id := none } else s) } }
      (st1, .success ("Group " ++ squote group_name ++
        " and all its memberships have been deleted."))
  else (st, .error ("Unknown group type " ++ squote group_type))

/-- `handle_fail_sessions_on_target`: with a group name, every session bound
to the group by `avatar_group_id` is marked FAILED regardless of its prior
status, and the RUNNING children of those parents are collected; with a
truthy avatar id, the RUNNING sessions referencing it directly are
collected; the collected sessions are then failed one by one. -/
def handle_fail_sessions_on_target (st : St) (avatar_id : Option Nat)
    (avatar_group : Option String) : St × Resp :=
  let groupRes : Except Resp (St × List Nat × Option String) :=
    match truthyStr avatar_group with
    | some gname =>
      match st.db.avatar_groups.find? (fun g => g.name == gname) with
      | none => .error (.error ("Avatar group " ++ squote gname ++ " not found."))
      | some g =>
        let parent_ids := (st.db.sessions.filter
          (fun s => s.avatar_group_id == some g.id)).map (fun s => s.id)
        let child_ids := (st.db.sessions.filter (fun s =>
          (match s.parent_session_id with
           | some pid => parent_ids.contains pid
           | none => false) && s.status == SessionStatus.RUNNING)).map (fun s => s.id)
        let st1 : St := { st with db := { st.db with
          sessions := st.db.sessions.map (fun s =>
            if s.avatar_group_id == some g.id then { s with status := .FAILED } else s) } }
        .ok (st1, child_ids, some gname)
    | none => .ok (st, [], none)
  match groupRes with
  | .error r => (st, r)
  | .ok (st1, child_ids, gnameOpt) =>
    let direct_ids :=
      match truthyNat avatar_id with
      | some aid => (st1.db.sessions.filter (fun s =>
          s.status == SessionStatus.RUNNING && refsAvatar aid s)).map (fun s => s.id)
      | none => []
    let identifier :=
      match gnameOpt with
      | some gname => "group " ++ squote gname
      | none => "avatar ID " ++ Nat.repr ((truthyNat avatar_id).getD 0)
    let to_fail := child_ids ++ direct_ids
    if to_fail.isEmpty then
      (st1, .success ("No running sessions found for " ++ identifier ++ "."))
    else
      let r := stopCountLoop failSingleSession st1 to_fail 0
      (r.1, .success ("Set " ++ Nat.repr r.2 ++ " running session(s) for " ++
        identifier ++ " to FAILED."))

/-- `handle_fail_all_running_sessions`: fail every RUNNING session. -/
def handle_fail_all_running_sessions (st : St) : St × Resp :=
  let ids := (st.db.sessions.filter
    (fun s => s.status == SessionStatus.RUNNING)).map (fun s => s.id)
  if ids.isEmpty then (st, .success "No running sessions to fail.")
  else
    let r := stopCountLoop failSingleSession st ids 0
    (r.1, .success ("Successfully failed " ++ Nat.repr r.2 ++ " running session(s)."))

/-- The per-session body of `handle_redo_failed_sessions`: a FAILED group
parent is only marked RESTARTED; a FAILED leaf is copied into a new
SCHEDULED row (the copy lists every reference column except
`request_group_id`, takes a fresh `start_time` and the old `end_time`, and
prefixes the description), the copy is spawned, and the original is marked
RESTARTED. -/
def redoLoop : St → List Nat → Nat → St × Nat
  | st, [], n => (st, n)
  | st, sid :: rest, n =>
    match getSession st sid with
    | none => redoLoop st rest n
    | some old =>
      if old.is_group_session then
        redoLoop (updateSession st sid (fun x => { x with status := .RESTARTED })) rest n
      else
        let t := utcnow st
        let newRec : SessionRec :=
          { parent_session_id := old.parent_session_id,
            is_group_session := old.is_group_session,
            description := "[REDO] " ++ old.description,
            avatar_id := old.avatar_id,
            ic_id := old.ic_id,
            request_id := old.request_id,
            destination_avatar_id := old.destination_avatar_id,
            avatar_group_id := old.avatar_group_id,
            ic_group_id := old.ic_group_id,
            session_type := old.session_type,
            start_time := t.1, end_time := old.end_time }
        let p := pushSession t.2 newRec
        let st2 := spawnWorkerForSession p.1 p.2
        redoLoop (updateSession st2 sid (fun x => { x with status := .RESTARTED }))
          rest (n + 1)

/-- `handle_redo_failed_sessions`: run `redoLoop` over the sessions that
read FAILED when the handler starts. -/
def handle_redo_failed_sessions (st : St) : St × Resp :=
  let failed_ids := (st.db.sessions.filter
    (fun s => s.status == SessionStatus.FAILED)).map (fun s => s.id)
  if failed_ids.isEmpty then (st, .success "No failed sessions found to restart.")
  else
    let r := redoLoop st failed_ids 0
    (r.1, .success ("Successfully restarted " ++ Nat.repr r.2 ++ " failed session(s)."))

/-- One control command, mirroring `ACTION_HANDLERS` and each handler's
`data` fields. -/
inductive Command where
  | ping
  | start_ic (avatar_id : Option Nat) (avatar_group : Option String)
      (ic_id : Nat) (duration : Option Nat)
  | start_request (avatar_id : Option Nat) (avatar_group : Option String)
      (request_id : Option Nat) (request_group : Option String) (duration : Option Nat)
  | start_link (source_id : Nat) (dest_id : Option Nat) (dest_group : Option String)
      (duration : Option Nat)
  | start_group (avatar_group : Option String) (ic_group : Option String)
      (duration : Option Nat)
  | stop_session (session_id : Nat)
  | view_running_on (avatar_identifier : String)
  | add_member_to_group (group_type : String) (group_name : String) (member_id : Nat)
  | remove_member_from_group (group_type : String) (group_name : String) (member_id : Nat)
  | remove_entity (entity_type : String) (entity_id : Nat)
  | remove_group (group_type : String) (group_name : String)
  | redo_failed
  | update_entity (entity_type : String) (entity_id : Nat)
      (photo_data : Option (List Nat)) (info_data : Option String)
  | fail_sessions_on_target (avatar_id : Option Nat) (avatar_group : Option String)
  | fail_all_running
deriving DecidableEq, Repr

/-- The dispatch table of the daemon's main loop. -/
def step (st : St) : Command → St × Resp
  | .ping => (st, .success "pong")
  | .start_ic a g i d => handle_start_ic st a g i d
  | .start_request a ag r rg d => handle_start_request st a ag r rg d
  | .start_link s d dg du => handle_start_link st s d dg du
  | .start_group ag ig d => handle_start_group st ag ig d
  | .stop_session sid => handle_stop_session st sid
  | .view_running_on ident => handle_view_running_on st ident
  | .add_member_to_group t n m => handle_add_member_to_group st t n m
  | .remove_member_from_group t n m => handle_remove_member_from_group st t n m
  | .remove_entity t i => handle_remove_entity st t i
  | .remove_group t n => handle_remove_group st t n
  | .redo_failed => handle_redo_failed_sessions st
  | .update_entity t i p inf => handle_update_entity st t i p inf
  | .fail_sessions_on_target a g => handle_fail_sessions_on_target st a g
  | .fail_all_running => handle_fail_all_running_sessions st

/-- The id bookkeeping every reachable daemon state satisfies: the session
serial starts at 1, every stored session id and every supervisor handle key
is below the serial counter. -/
def IdsOk (st : St) : Prop :=
  1 ≤ st.db.next_session_id ∧
  (∀ s ∈ st.db.sessions, s.id < st.db.next_session_id) ∧
  (∀ w ∈ st.active_workers, w.1 < st.db.next_session_id)

/-- Well-formedness of a daemon state: id bookkeeping plus primary-key
uniqueness of session ids. -/
def Wf (st : St) : Prop :=
  IdsOk st ∧ (st.db.sessions.map (fun s => s.id)).Nodup

/-- Referential integrity of the membership tables used by the joined
loads: the foreign-key constraints guarantee each member row references an
existing entity row. -/
def RefsOk (st : St) : Prop :=
  (∀ m ∈ st.db.avatar_group_members, ∃ a ∈ st.db.avatars, a.id = m.avatar_id) ∧
  (∀ m ∈ st.db.ic_group_members, ∃ i ∈ st.db.ics, i.id = m.ic_id) ∧
  (∀ m ∈ st.db.request_group_members, ∃ r ∈ st.db.requests, r.id = m.request_id)

instance (st : St) : Decidable (IdsOk st) := by
  unfold IdsOk
  infer_instance

instance (st : St) : Decidable (Wf st) := by
  unfold Wf
  infer_instance

instance (st : St) : Decidable (RefsOk st) := by
  unfold RefsOk
  infer_instance

/-- The entity tables of the store bundled into one value, so that frame
conditions are a single equation. -/
def DB.ent (db : DB) :=
  (db.avatars, db.ics, db.requests, db.avatar_groups, db.avatar_group_members,
   db.ic_groups, db.ic_group_members, db.request_groups, db.request_group_members)

theorem ent_avatars {db db' : DB} (h : db.ent = db'.ent) : db.avatars = db'.avatars :=
  congrArg (fun t => t.1) h

theorem ent_ics {db db' : DB} (h : db.ent = db'.ent) : db.ics = db'.ics :=
  congrArg (fun t => t.2.1) h

theorem ent_requests {db db' : DB} (h : db.ent = db'.ent) : db.requests = db'.requests :=
  congrArg (fun t => t.2.2.1) h

theorem ent_avatar_groups {db db' : DB} (h : db.ent = db'.ent) :
    db.avatar_groups = db'.avatar_groups :=
  congrArg (fun t => t.2.2.2.1) h

theorem ent_avatar_group_members {db db' : DB} (h : db.ent = db'.ent) :
    db.avatar_group_members = db'.avatar_group_members :=
  congrArg (fun t => t.2.2.2.2.1) h

theorem ent_ic_groups {db db' : DB} (h : db.ent = db'.ent) : db.ic_groups = db'.ic_groups :=
  congrArg (fun t => t.2.2.2.2.2.1) h

theorem ent_ic_group_members {db db' : DB} (h : db.ent = db'.ent) :
    db.ic_group_members = db'.ic_group_members :=
  congrArg (fun t => t.2.2.2.2.2.2.1) h

theorem ent_request_groups {db db' : DB} (h : db.ent = db'.ent) :
    db.request_groups = db'.request_groups :=
  congrArg (fun t => t.2.2.2.2.2.2.2.1) h

theorem ent_request_group_members {db db' : DB} (h : db.ent = db'.ent) :
    db.request_group_members = db'.request_group_members :=
  congrArg (fun t => t.2.2.2.2.2.2.2.2) h

theorem find?_map_update (l : List SessionRec) (t sid : Nat) (f : SessionRec → SessionRec)
    (hf : ∀ s, (f s).id = s.id) :
    (l.map (fun s => if s.id == t then f s else s)).find? (fun s => s.id == sid)
      = if sid = t then (l.find? (fun s => s.id == sid)).map f
        else l.find? (fun s => s.id == sid) := by
  induction l with
  | nil => simp
  | cons a l ih =>
    simp only [List.map_cons]
    by_cases hat : a.id = t
    · have hatb : (a.id == t) = true := by simp [hat]
      by_cases has : a.id = sid
      · have hst : sid = t := by rw [← has, hat]
        have hasb : (a.id == sid) = true := by simp [has]
        have hfa : ((f a).id == sid) = true := by rw [hf a]; exact hasb
        simp only [hatb, if_true, List.find?_cons, hfa, hasb, if_pos hst, Option.map_some']
      · have hst : ¬ sid = t := fun h => has (by rw [hat, h])
        have hasb : (a.id == sid) = false := by simp [has]
        have hfa : ((f a).id == sid) = false := by rw [hf a]; exact hasb
        simp only [hatb, if_true, List.find?_cons, hfa, hasb, if_neg hst] at ih ⊢
        exact ih
    · have hatb : (a.id == t) = false := by simp [hat]
      have e1 : (if (a.id == t) = true then f a else a) = a := by rw [hatb]; simp
      by_cases has : a.id = sid
      · have hst : ¬ sid = t := fun h => hat (by rw [has, h])
        have hasb : (a.id == sid) = true := by simp [has]
        simp only [e1, List.find?_cons, hasb, if_neg hst]
      · have hasb : (a.id == sid) = false := by simp [has]
        simp only [e1, List.find?_cons, hasb, ih]

/-- Everything of the daemon state except the three payload caches. -/
def St.core (st : St) := (st.db, st.active_workers, st.clock, st.next_pid)

theorem core_db {st st' : St} (h : st.core = st'.core) : st.db = st'.db :=
  congrArg (fun t => t.1) h

theorem core_workers {st st' : St} (h : st.core = st'.core) :
    st.active_workers = st'.active_workers :=
  congrArg (fun t => t.2.1) h

theorem core_clock {st st' : St} (h : st.core = st'.core) : st.clock = st'.clock :=
  congrArg (fun t => t.2.2.1) h

theorem core_next_pid {st st' : St} (h : st.core = st'.core) : st.next_pid = st'.next_pid :=
  congrArg (fun t => t.2.2.2) h

theorem loadAvatarToCache_core {st : St} {a : Option Nat} {st1 : St} {b : List Nat}
    (h : loadAvatarToCache st a = .ok (st1, b)) : st1.core = st.core := by
  unfold loadAvatarToCache at h
  cases a with
  | none => simp at h
  | some a =>
    cases hfc : st.avatar_cache.find? (fun e => e.1 == a) with
    | some e => simp [hfc] at h; simp [h.1]
    | none =>
      cases hfa : st.db.avatars.find? (fun av => av.id == a) with
      | none => simp [hfc, hfa] at h
      | some av => simp [hfc, hfa] at h; simp [← h.1, St.core]

theorem loadICToCache_core {st : St} {a : Option Nat} {st1 : St} {b : List Nat}
    (h : loadICToCache st a = .ok (st1, b)) : st1.core = st.core := by
  unfold loadICToCache at h
  cases a with
  | none => simp at h
  | some a =>
    cases hfc : st.ic_cache.find? (fun e => e.1 == a) with
    | some e => simp [hfc] at h; simp [h.1]
    | none =>
      cases hfa : st.db.ics.find? (fun ic => ic.id == a) with
      | none => simp [hfc, hfa] at h
      | some ic => simp [hfc, hfa] at h; simp [← h.1, St.core]

theorem loadRequestToCache_core {st : St} {a : Option Nat} {st1 : St} {b : List Nat}
    (h : loadRequestToCache st a = .ok (st1, b)) : st1.core = st.core := by
  unfold loadRequestToCache at h
  cases a with
  | none => simp at h
  | some a =>
    cases hfc : st.request_cache.find? (fun e => e.1 == a) with
    | some e => simp [hfc] at h; simp [h.1]
    | none =>
      cases hfa : st.db.requests.find? (fun rq => rq.id == a) with
      | none => simp [hfc, hfa] at h
      | some rq => simp [hfc, hfa] at h; simp [← h.1, St.core]

theorem loadSessionPayloads_core {st : St} {s : SessionRec} {st2 : St}
    {b : List Nat × List Nat}
    (h : loadSessionPayloads st s = .ok (st2, b)) : st2.core = st.core := by
  unfold loadSessionPayloads at h
  cases hty : s.session_type <;> rw [hty] at h
  case IC_SESSION =>
    cases h1 : loadAvatarToCache st s.avatar_id with
    | error e => simp [h1] at h
    | ok p =>
      obtain ⟨sa, ba⟩ := p
      cases h2 : loadICToCache sa s.ic_id with
      | error e => simp [h1, h2] at h
      | ok q =>
        obtain ⟨sb, bb⟩ := q
        simp [h1, h2] at h
        have c1 := loadAvatarToCache_core h1
        have c2 := loadICToCache_core h2
        rw [h.1] at *
        exact c2.trans c1
  case GROUP_IC_SESSION =>
    cases h1 : loadAvatarToCache st s.avatar_id with
    | error e => simp [h1] at h
    | ok p =>
      obtain ⟨sa, ba⟩ := p
      cases h2 : loadICToCache sa s.ic_id with
      | error e => simp [h1, h2] at h
      | ok q =>
        obtain ⟨sb, bb⟩ := q
        simp [h1, h2] at h
        have c1 := loadAvatarToCache_core h1
        have c2 := loadICToCache_core h2
        rw [h.1] at *
        exact c2.trans c1
  case REQUEST_SESSION =>
    cases h1 : loadAvatarToCache st s.avatar_id with
    | error e => simp [h1] at h
    | ok p =>
      obtain ⟨sa, ba⟩ := p
      cases h2 : loadRequestToCache sa s.request_id with
      | error e => simp [h1, h2] at h
      | ok q =>
        obtain ⟨sb, bb⟩ := q
        simp [h1, h2] at h
        have c1 := loadAvatarToCache_core h1
        have c2 := loadRequestToCache_core h2
        rw [h.1] at *
        exact c2.trans c1
  case AVATAR_LINK =>
    cases h1 : loadAvatarToCache st s.avatar_id with
    | error e => simp [h1] at h
    | ok p =>
      obtain ⟨sa, ba⟩ := p
      cases h2 : loadAvatarToCache sa s.destination_avatar_id with
      | error e => simp [h1, h2] at h
      | ok q =>
        obtain ⟨sb, bb⟩ := q
        simp [h1, h2] at h
        have c1 := loadAvatarToCache_core h1
        have c2 := loadAvatarToCache_core h2
        rw [h.1] at *
        exact c2.trans c1

/-- An update of a session row that can only touch `status` and
`worker_pid`. -/
def StatusPidUpd (f : SessionRec → SessionRec) : Prop :=
  ∀ s, ∃ stt pid, f s = { s with status := stt, worker_pid := pid }

theorem StatusPidUpd.id_eq {f : SessionRec → SessionRec} (hf : StatusPidUpd f)
    (s : SessionRec) : (f s).id = s.id := by
  obtain ⟨stt, pid, h⟩ := hf s
  rw [h]

theorem statusPidUpd_id : StatusPidUpd (fun s => s) :=
  fun s => ⟨s.status, s.worker_pid, rfl⟩

theorem map_update_self (l : List SessionRec) (t : Nat) :
    l.map (fun s => if s.id == t then s else s) = l := by
  simp

theorem map_ids_update (l : List SessionRec) (t : Nat) (f : SessionRec → SessionRec)
    (hf : ∀ s, (f s).id = s.id) :
    (l.map (fun s => if s.id == t then f s else s)).map (fun s => s.id)
      = l.map (fun s => s.id) := by
  rw [List.map_map]
  apply List.map_congr_left
  intro s _
  by_cases h : s.id = t <;> simp [Function.comp, h, hf]

/-- The complete frame of `_spawn_worker_for_session`: the session list is a
status/pid-only update at the target id, the entity tables, the serial
counter and the clock are untouched, and the handle map either is unchanged
or gains the target id, which then names a stored session. -/
theorem spawnWorker_shape (st : St) (t : Nat) :
    ∃ f, StatusPidUpd f ∧
      (spawnWorkerForSession st t).db.sessions
        = st.db.sessions.map (fun s => if s.id == t then f s else s) ∧
      (spawnWorkerForSession st t).db.ent = st.db.ent ∧
      (spawnWorkerForSession st t).db.next_session_id = st.db.next_session_id ∧
      (spawnWorkerForSession st t).clock = st.clock ∧
      ((spawnWorkerForSession st t).active_workers = st.active_workers ∨
        ∃ pid, (spawnWorkerForSession st t).active_workers = (t, pid) :: st.active_workers ∧
          ∃ s ∈ st.db.sessions, s.id = t) := by
  cases hg : getSession st t with
  | none =>
    refine ⟨fun s => s, statusPidUpd_id, ?_, ?_, ?_, ?_, ?_⟩ <;>
      simp [spawnWorkerForSession, hg]
  | some s =>
    by_cases h0 : (s.id == 0) = true
    · refine ⟨fun s => s, statusPidUpd_id, ?_, ?_, ?_, ?_, ?_⟩ <;>
        simp [spawnWorkerForSession, hg, h0]
    · by_cases hw : (st.active_workers.any (fun w => w.1 == t)) = true
      · refine ⟨fun s => s, statusPidUpd_id, ?_, ?_, ?_, ?_, ?_⟩ <;>
          simp [spawnWorkerForSession, hg, h0, hw]
      · cases hl : loadSessionPayloads st s with
        | ok p =>
          obtain ⟨st1, b1, b2⟩ := p
          have hc := loadSessionPayloads_core hl
          have hdb : st1.db = st.db := core_db hc
          refine ⟨fun x => { x with status := .RUNNING, worker_pid := some st1.next_pid },
            fun x => ⟨.RUNNING, some st1.next_pid, rfl⟩, ?_, ?_, ?_, ?_, ?_⟩
          · simp [spawnWorkerForSession, hg, h0, hw, hl, updateSession, hdb]
          · simp [spawnWorkerForSession, hg, h0, hw, hl, updateSession, DB.ent, hdb]
          · simp [spawnWorkerForSession, hg, h0, hw, hl, updateSession, hdb]
          · have hck := core_clock hc
            simp [spawnWorkerForSession, hg, h0, hw, hl, updateSession, hck]
          · right
            refine ⟨st1.next_pid, ?_, ?_⟩
            · have hwk := core_workers hc
              simp [spawnWorkerForSession, hg, h0, hw, hl, updateSession, hwk]
            · have hps := List.find?_some hg
              have hmem := List.mem_of_find?_eq_some hg
              exact ⟨s, hmem, by simpa using hps⟩
        | error e =>
          refine ⟨fun x => { x with status := .FAILED, worker_pid := x.worker_pid },
            fun x => ⟨.FAILED, x.worker_pid, rfl⟩, ?_, ?_, ?_, ?_, ?_⟩
          · simp [spawnWorkerForSession, hg, h0, hw, hl, updateSession]
          · simp [spawnWorkerForSession, hg, h0, hw, hl, updateSession, DB.ent]
          · simp [spawnWorkerForSession, hg, h0, hw, hl, updateSession]
          · simp [spawnWorkerForSession, hg, h0, hw, hl, updateSession]
          · simp [spawnWorkerForSession, hg, h0, hw, hl, updateSession]

/-- `_stop_single_session` on a missing row is a no-op returning `false`. -/
theorem stopSingle_noop_none {st : St} {t : Nat} (hg : getSession st t = none) :
    stopSingleSession st t = (st, false) := by
  unfold stopSingleSession
  rw [hg]

/-- `_stop_single_session` on a row that is not RUNNING is a no-op. -/
theorem stopSingle_noop_not_running {st : St} {t : Nat} {s : SessionRec}
    (hg : getSession st t = some s) (h : ¬ s.status = SessionStatus.RUNNING) :
    stopSingleSession st t = (st, false) := by
  unfold stopSingleSession
  rw [hg]
  simp [h]

/-- `_fail_single_session` on a missing row is a no-op returning `false`. -/
theorem failSingle_noop_none {st : St} {t : Nat} (hg : getSession st t = none) :
    failSingleSession st t = (st, false) := by
  unfold failSingleSession
  rw [hg]

/-- `_fail_single_session` on a row that is not RUNNING is a no-op. -/
theorem failSingle_noop_not_running {st : St} {t : Nat} {s : SessionRec}
    (hg : getSession st t = some s) (h : ¬ s.status = SessionStatus.RUNNING) :
    failSingleSession st t = (st, false) := by
  unfold failSingleSession
  rw [hg]
  simp [h]

/-- The frame of `_stop_single_session`: a status/pid-only update at the
target id; entity tables, serial counter and clock unchanged; the handle
map only shrinks. -/
theorem stopSingle_shape (st : St) (t : Nat) :
    ∃ f, StatusPidUpd f ∧
      (stopSingleSession st t).1.db.sessions
        = st.db.sessions.map (fun s => if s.id == t then f s else s) ∧
      (stopSingleSession st t).1.db.ent = st.db.ent ∧
      (stopSingleSession st t).1.db.next_session_id = st.db.next_session_id ∧
      (stopSingleSession st t).1.clock = st.clock ∧
      (∀ w ∈ (stopSingleSession st t).1.active_workers, w ∈ st.active_workers) := by
  cases hg : getSession st t with
  | none =>
    refine ⟨fun s => s, statusPidUpd_id, ?_, ?_, ?_, ?_, ?_⟩ <;>
      simp [stopSingleSession, hg]
  | some s =>
    by_cases hr : s.status = SessionStatus.RUNNING
    · refine ⟨fun x => { x with status := .STOPPED, worker_pid := none },
        fun x => ⟨.STOPPED, none, rfl⟩, ?_, ?_, ?_, ?_, ?_⟩
      · simp [stopSingleSession, hg, hr, updateSession]
      · simp [stopSingleSession, hg, hr, updateSession, DB.ent]
      · simp [stopSingleSession, hg, hr, updateSession]
      · simp [stopSingleSession, hg, hr, updateSession]
      · intro w hw2
        simp [stopSingleSession, hg, hr, updateSession] at hw2
        exact hw2.1
    · refine ⟨fun s => s, statusPidUpd_id, ?_, ?_, ?_, ?_, ?_⟩ <;>
        simp [stopSingleSession, hg, hr]

/-- The frame of `_fail_single_session`, identical in shape to stop. -/
theorem failSingle_shape (st : St) (t : Nat) :
    ∃ f, StatusPidUpd f ∧
      (failSingleSession st t).1.db.sessions
        = st.db.sessions.map (fun s => if s.id == t then f s else s) ∧
      (failSingleSession st t).1.db.ent = st.db.ent ∧
      (failSingleSession st t).1.db.next_session_id = st.db.next_session_id ∧
      (failSingleSession st t).1.clock = st.clock ∧
      (∀ w ∈ (failSingleSession st t).1.active_workers, w ∈ st.active_workers) := by
  cases hg : getSession st t with
  | none =>
    refine ⟨fun s => s, statusPidUpd_id, ?_, ?_, ?_, ?_, ?_⟩ <;>
      simp [failSingleSession, hg]
  | some s =>
    by_cases hr : s.status = SessionStatus.RUNNING
    · refine ⟨fun x => { x with status := .FAILED, worker_pid := none },
        fun x => ⟨.FAILED, none, rfl⟩, ?_, ?_, ?_, ?_, ?_⟩
      · simp [failSingleSession, hg, hr, updateSession]
      · simp [failSingleSession, hg, hr, updateSession, DB.ent]
      · simp [failSingleSession, hg, hr, updateSession]
      · simp [failSingleSession, hg, hr, updateSession]
      · intro w hw2
        simp [failSingleSession, hg, hr, updateSession] at hw2
        exact hw2.1
    · refine ⟨fun s => s, statusPidUpd_id, ?_, ?_, ?_, ?_, ?_⟩ <;>
        simp [failSingleSession, hg, hr]

theorem getSession_eq_of_update {st st' : St} {t : Nat} {f : SessionRec → SessionRec}
    (hs : st'.db.sessions = st.db.sessions.map (fun s => if s.id == t then f s else s))
    (hf : ∀ s, (f s).id = s.id) {sid : Nat} (hne : sid ≠ t) :
    getSession st' sid = getSession st sid := by
  unfold getSession
  rw [hs, find?_map_update _ _ _ _ hf, if_neg hne]

theorem spawnWorker_getSession_ne (st : St) (t sid : Nat) (hne : sid ≠ t) :
    getSession (spawnWorkerForSession st t) sid = getSession st sid := by
  obtain ⟨f, hf, hs, -, -, -, -⟩ := spawnWorker_shape st t
  exact getSession_eq_of_update hs hf.id_eq hne

theorem stopSingle_stable {st : St} {t sid : Nat} {s : SessionRec}
    (hg : getSession st sid = some s) (hns : ¬ s.status = SessionStatus.RUNNING) :
    getSession (stopSingleSession st t).1 sid = some s := by
  by_cases ht : sid = t
  · subst ht
    rw [stopSingle_noop_not_running hg hns]
    exact hg
  · obtain ⟨f, hf, hs, -, -, -, -⟩ := stopSingle_shape st t
    rw [getSession_eq_of_update hs hf.id_eq ht]
    exact hg

theorem failSingle_stable {st : St} {t sid : Nat} {s : SessionRec}
    (hg : getSession st sid = some s) (hns : ¬ s.status = SessionStatus.RUNNING) :
    getSession (failSingleSession st t).1 sid = some s := by
  by_cases ht : sid = t
  · subst ht
    rw [failSingle_noop_not_running hg hns]
    exact hg
  · obtain ⟨f, hf, hs, -, -, -, -⟩ := failSingle_shape st t
    rw [getSession_eq_of_update hs hf.id_eq ht]
    exact hg

theorem idsOk_sessions_bound {st : St} (h : IdsOk st) {s : SessionRec}
    (hs : s ∈ st.db.sessions) : s.id < st.db.next_session_id :=
  h.2.1 s hs

theorem spawnWorker_idsOk {st : St} {t : Nat} (h : IdsOk st) :
    IdsOk (spawnWorkerForSession st t) := by
  obtain ⟨f, hf, hs, hent, hn, hcl, hwk⟩ := spawnWorker_shape st t
  obtain ⟨h1, h2, h3⟩ := h
  refine ⟨by rw [hn]; exact h1, ?_, ?_⟩
  · intro s hsm
    rw [hn]
    rw [hs] at hsm
    obtain ⟨s0, hs0, rfl⟩ := List.mem_map.mp hsm
    by_cases hb : s0.id == t
    · simpa [hb, hf.id_eq] using h2 s0 hs0
    · simpa [hb] using h2 s0 hs0
  · intro w hw2
    rw [hn]
    rcases hwk with heq | ⟨pid, heq, s0, hs0, hid⟩
    · rw [heq] at hw2
      exact h3 w hw2
    · rw [heq] at hw2
      rcases List.mem_cons.mp hw2 with h4 | h4
      · rw [h4]
        simpa [← hid] using h2 s0 hs0
      · exact h3 w h4

theorem stopSingle_idsOk {st : St} {t : Nat} (h : IdsOk st) :
    IdsOk (stopSingleSession st t).1 := by
  obtain ⟨f, hf, hs, hent, hn, hcl, hwk⟩ := stopSingle_shape st t
  obtain ⟨h1, h2, h3⟩ := h
  refine ⟨by rw [hn]; exact h1, ?_, ?_⟩
  · intro s hsm
    rw [hn]
    rw [hs] at hsm
    obtain ⟨s0, hs0, rfl⟩ := List.mem_map.mp hsm
    by_cases hb : s0.id == t
    · simpa [hb, hf.id_eq] using h2 s0 hs0
    · simpa [hb] using h2 s0 hs0
  · intro w hw2
    rw [hn]
    exact h3 w (hwk w hw2)

theorem failSingle_idsOk {st : St} {t : Nat} (h : IdsOk st) :
    IdsOk (failSingleSession st t).1 := by
  obtain ⟨f, hf, hs, hent, hn, hcl, hwk⟩ := failSingle_shape st t
  obtain ⟨h1, h2, h3⟩ := h
  refine ⟨by rw [hn]; exact h1, ?_, ?_⟩
  · intro s hsm
    rw [hn]
    rw [hs] at hsm
    obtain ⟨s0, hs0, rfl⟩ := List.mem_map.mp hsm
    by_cases hb : s0.id == t
    · simpa [hb, hf.id_eq] using h2 s0 hs0
    · simpa [hb] using h2 s0 hs0
  · intro w hw2
    rw [hn]
    exact h3 w (hwk w hw2)

theorem pushSession_idsOk {st : St} {r : SessionRec} (h : IdsOk st) :
    IdsOk (pushSession st r).1 := by
  obtain ⟨h1, h2, h3⟩ := h
  refine ⟨by simp [pushSession]; try omega, ?_, ?_⟩
  · intro s hsm
    simp only [pushSession, List.mem_append, List.mem_singleton] at hsm
    rcases hsm with hm | rfl
    · have := h2 s hm
      simp only [pushSession]
      omega
    · simp only [pushSession]
      omega
  · intro w hw2
    simp only [pushSession] at hw2 ⊢
    have := h3 w hw2
    omega

theorem updateSession_idsOk {st : St} {t : Nat} {f : SessionRec → SessionRec}
    (hf : ∀ s, (f s).id = s.id) (h : IdsOk st) : IdsOk (updateSession st t f) := by
  obtain ⟨h1, h2, h3⟩ := h
  refine ⟨h1, ?_, h3⟩
  intro s hsm
  simp only [updateSession] at hsm
  obtain ⟨s0, hs0, rfl⟩ := List.mem_map.mp hsm
  by_cases hb : s0.id == t
  · simpa [hb, hf] using h2 s0 hs0
  · simpa [hb] using h2 s0 hs0

theorem idsOk_congr {st st' : St} (hdb : st'.db = st.db)
    (hw : st'.active_workers = st.active_workers) (h : IdsOk st) : IdsOk st' := by
  simp only [IdsOk, hdb, hw]
  exact h

/-- Spawning a freshly appended session whose id collides with nothing:
exactly that row changes, to RUNNING (payloads loaded) or FAILED (load
error), and no other part of the store moves. -/
theorem spawnWorker_append_fresh {st : St} {l : List SessionRec} {c : SessionRec} {t : Nat}
    (hsess : st.db.sessions = l ++ [c]) (hcid : c.id = t) (h0 : t ≠ 0)
    (hl : ∀ s ∈ l, s.id ≠ t) (hw : ∀ w ∈ st.active_workers, w.1 ≠ t) :
    ∃ stt pid,
      (stt = SessionStatus.RUNNING ∨ stt = SessionStatus.FAILED) ∧
      (spawnWorkerForSession st t).db.sessions
        = l ++ [{ c with status := stt, worker_pid := pid }] ∧
      (spawnWorkerForSession st t).db.ent = st.db.ent ∧
      (spawnWorkerForSession st t).db.next_session_id = st.db.next_session_id ∧
      (spawnWorkerForSession st t).clock = st.clock ∧
      (∀ w ∈ (spawnWorkerForSession st t).active_workers,
        w ∈ st.active_workers ∨ w.1 = t) := by
  have hfl : l.find? (fun s => s.id == t) = none := by
    rw [List.find?_eq_none]
    intro s hs
    simpa using hl s hs
  have hg : getSession st t = some c := by
    unfold getSession
    rw [hsess, List.find?_append, hfl]
    simp [hcid]
  have h0c : ¬ ((c.id == 0) = true) := by simp [hcid, h0]
  have hwa : ¬ ((st.active_workers.any fun w => w.1 == t) = true) := by
    simp only [List.any_eq_true, not_exists]
    intro w
    intro hcon
    exact absurd (by simpa using hcon.2) (hw w hcon.1)
  have hmapl : ∀ f : SessionRec → SessionRec,
      l.map (fun s => if s.id == t then f s else s) = l := by
    intro f
    apply List.map_congr_left ?_ |>.trans (List.map_id _)
    intro s hs
    simp [hl s hs]
  cases hload : loadSessionPayloads st c with
  | ok p =>
    obtain ⟨st1, b1, b2⟩ := p
    have hc := loadSessionPayloads_core hload
    have hdb : st1.db = st.db := core_db hc
    refine ⟨.RUNNING, some st1.next_pid, Or.inl rfl, ?_, ?_, ?_, ?_, ?_⟩
    · simp only [spawnWorkerForSession, hg, h0c, hwa, hload, if_false, if_neg,
        updateSession, hdb, hsess]
      rw [List.map_append]
      rw [hmapl]
      simp [hcid]
    · simp [spawnWorkerForSession, hg, h0c, hwa, hload, updateSession, DB.ent, hdb]
    · simp [spawnWorkerForSession, hg, h0c, hwa, hload, updateSession, hdb]
    · have hck := core_clock hc
      simp [spawnWorkerForSession, hg, h0c, hwa, hload, updateSession, hck]
    · intro w hw2
      have hwk := core_workers hc
      simp only [spawnWorkerForSession, hg, h0c, hwa, hload, if_false, if_neg,
        updateSession, hwk] at hw2
      rcases List.mem_cons.mp hw2 with h4 | h4
      · right
        rw [h4]
      · left
        exact h4
  | error e =>
    refine ⟨.FAILED, c.worker_pid, Or.inr rfl, ?_, ?_, ?_, ?_, ?_⟩
    · simp only [spawnWorkerForSession, hg, h0c, hwa, hload, if_false, if_neg,
        updateSession, hsess]
      rw [List.map_append]
      rw [hmapl]
      simp [hcid]
    · simp [spawnWorkerForSession, hg, h0c, hwa, hload, updateSession, DB.ent]
    · simp [spawnWorkerForSession, hg, h0c, hwa, hload, updateSession]
    · simp [spawnWorkerForSession, hg, h0c, hwa, hload, updateSession]
    · intro w hw2
      simp only [spawnWorkerForSession, hg, h0c, hwa, hload, if_false, if_neg,
        updateSession] at hw2
      exact Or.inl hw2

/-- The create-then-spawn loop, specified: under id bookkeeping, it returns
success, appends one new session per non-skipped item — satisfying the
per-item predicate `P`, spawned to RUNNING or FAILED, with consecutive
fresh ids — leaves every pre-existing session untouched, and preserves the
entity tables and the bookkeeping. -/
theorem spawnChildrenLoop_spec {α : Type} (st0 : St)
    (mk : St → α → Except String (Option (SessionRec × St)))
    (skip : α → Bool) (P : α → SessionRec → Prop)
    (hP : ∀ x r, P x r →
      ∀ i stt pid, P x { r with id := i, status := stt, worker_pid := pid }) :
    ∀ (xs : List α) (st : St) (n : Nat),
      IdsOk st → st.db.ent = st0.db.ent →
      (∀ st' x, x ∈ xs → skip x = true → mk st' x = .ok none) →
      (∀ st' x, x ∈ xs → st'.db.ent = st0.db.ent → skip x = false →
        ∃ r st1, mk st' x = .ok (some (r, st1)) ∧ P x r ∧ st1.db = st'.db ∧
          st1.active_workers = st'.active_workers) →
      ∃ stf news,
        spawnChildrenLoop mk st xs n = .ok (stf, n + news.length) ∧
        stf.db.sessions = st.db.sessions ++ news ∧
        List.Forall₂ (fun x r => P x r ∧
            (r.status = SessionStatus.RUNNING ∨ r.status = SessionStatus.FAILED))
          (xs.filter (fun x => !(skip x))) news ∧
        news.map (fun s => s.id) = List.range' st.db.next_session_id news.length 1 ∧
        stf.db.ent = st.db.ent ∧
        stf.db.next_session_id = st.db.next_session_id + news.length ∧
        IdsOk stf := by
  intro xs
  induction xs with
  | nil =>
    intro st n hids hent _ _
    exact ⟨st, [], by simp [spawnChildrenLoop], by simp, by simp, by simp, rfl,
      by simp, hids⟩
  | cons x xs ih =>
    intro st n hids hent hskip hmk
    cases hsx : skip x with
    | true =>
      have hmx := hskip st x (List.mem_cons_self x xs) hsx
      obtain ⟨stf, news, h1, h2, h3, h4, h5, h6, h7⟩ :=
        ih st n hids hent (fun st' y hy => hskip st' y (List.mem_cons_of_mem x hy))
          (fun st' y hy => hmk st' y (List.mem_cons_of_mem x hy))
      refine ⟨stf, news, ?_, h2, ?_, h4, h5, h6, h7⟩
      · rw [spawnChildrenLoop, hmx]
        exact h1
      · simpa [List.filter_cons, hsx] using h3
    | false =>
      obtain ⟨r, st1, hmx, hPr, hdb1, hwk1⟩ :=
        hmk st x (List.mem_cons_self x xs) hent hsx
      have hids1 : IdsOk st1 := idsOk_congr hdb1 hwk1 hids
      set nid := st1.db.next_session_id with hniddef
      have hnid : nid = st.db.next_session_id := by rw [hniddef, hdb1]
      have hids2 : IdsOk (pushSession st1 r).1 := pushSession_idsOk hids1
      have hsess2 : (pushSession st1 r).1.db.sessions
          = st.db.sessions ++ [{ r with id := nid }] := by
        simp only [pushSession, hdb1, hnid]
      have hone : 1 ≤ st.db.next_session_id := hids.1
      have hfl : ∀ s ∈ st.db.sessions, s.id ≠ nid := by
        intro s hsm
        have := hids.2.1 s hsm
        omega
      have hfw : ∀ w ∈ (pushSession st1 r).1.active_workers, w.1 ≠ nid := by
        intro w hw2
        simp only [pushSession] at hw2
        rw [hwk1] at hw2
        have := hids.2.2 w hw2
        omega
      obtain ⟨stt, pid, hstt, hs3, hent3, hn3, hcl3, hwk3⟩ :=
        @spawnWorker_append_fresh (pushSession st1 r).1 st.db.sessions
          { r with id := nid } nid hsess2 rfl (by omega) hfl hfw
      · have hn2 : (pushSession st1 r).1.db.next_session_id = nid + 1 := by
          simp [pushSession]
        have hids3 : IdsOk (spawnWorkerForSession (pushSession st1 r).1 nid) :=
          spawnWorker_idsOk hids2
        have hent2 : (pushSession st1 r).1.db.ent = st.db.ent := by
          simp [pushSession, DB.ent, hdb1]
        obtain ⟨stf, news, h1, h2, h3, h4, h5, h6, h7⟩ :=
          ih (spawnWorkerForSession (pushSession st1 r).1 nid) (n + 1) hids3
            (by rw [hent3, hent2, hent])
            (fun st' y hy => hskip st' y (List.mem_cons_of_mem x hy))
            (fun st' y hy => hmk st' y (List.mem_cons_of_mem x hy))
        refine ⟨stf, { r with id := nid, status := stt, worker_pid := pid } :: news,
          ?_, ?_, ?_, ?_, ?_, ?_, h7⟩
        · rw [spawnChildrenLoop, hmx]
          have hcount : n + ({ r with id := nid, status := stt, worker_pid := pid }
              :: news).length = (n + 1) + news.length := by
            simp
            omega
          rw [hcount]
          exact h1
        · rw [h2, hs3]
          simp
        · rw [List.filter_cons]
          simp only [hsx, Bool.not_false, if_true]
          exact List.Forall₂.cons ⟨hP x r hPr nid stt pid, hstt⟩ h3
        · simp only [List.map_cons, h4, hn3, hn2]
          rw [hnid]
          rfl
        · rw [h5, hent3, hent2]
        · rw [h6, hn3, hn2]
          simp [hnid]
          omega

theorem getSession_append {st' st : St} {tail : List SessionRec}
    (h : st'.db.sessions = st.db.sessions ++ tail) {sid : Nat} {s : SessionRec}
    (hg : getSession st sid = some s) : getSession st' sid = some s := by
  unfold getSession at *
  rw [h, List.find?_append, hg]
  rfl

theorem getSession_update_self {st : St} {t : Nat} {f : SessionRec → SessionRec}
    (hf : ∀ s, (f s).id = s.id) :
    getSession (updateSession st t f) t = (getSession st t).map f := by
  unfold getSession updateSession
  simp only
  rw [find?_map_update _ _ _ _ hf, if_pos rfl]

theorem stopSessionsLoop_stable :
    ∀ (ids : List Nat) (st : St) (n : Nat) {sid : Nat} {s : SessionRec},
      getSession st sid = some s → ¬ s.status = SessionStatus.RUNNING →
      getSession (stopSessionsLoop st ids n).1 sid = some s
  | [], st, n, sid, s, hg, hns => hg
  | t :: rest, st, n, sid, s, hg, hns => by
    rw [stopSessionsLoop]
    cases hgt : getSession st t with
    | none => exact stopSessionsLoop_stable rest st n hg hns
    | some u =>
      by_cases hu : u.status = SessionStatus.RUNNING
      · simp only [hu, if_true]
        exact stopSessionsLoop_stable rest _ _ (stopSingle_stable hg hns) hns
      · simp only [hu, if_false]
        exact stopSessionsLoop_stable rest st n hg hns

theorem stopCountLoop_stable (single : St → Nat → St × Bool)
    (hstable : ∀ {st : St} {t sid : Nat} {s : SessionRec},
      getSession st sid = some s → ¬ s.status = SessionStatus.RUNNING →
      getSession (single st t).1 sid = some s) :
    ∀ (ids : List Nat) (st : St) (n : Nat) {sid : Nat} {s : SessionRec},
      getSession st sid = some s → ¬ s.status = SessionStatus.RUNNING →
      getSession (stopCountLoop single st ids n).1 sid = some s
  | [], st, n, sid, s, hg, hns => hg
  | t :: rest, st, n, sid, s, hg, hns => by
    rw [stopCountLoop]
    exact stopCountLoop_stable single hstable rest _ _ (hstable hg hns) hns

/-- The session row of the C6 fixture, with a parameter for the status. -/
def c6rec (stt : SessionStatus) : SessionRec :=
  { id := 1, description := "done", session_type := .IC_SESSION, start_time := 0,
    status := stt }

/-- C6 amended fixture: one COMPLETED leaf session. -/
def stC6 : St :=
  { db := { avatars := [], ics := [], requests := [], avatar_groups := [],
            avatar_group_members := [], ic_groups := [], ic_group_members := [],
            request_groups := [], request_group_members := [],
            sessions := [c6rec .COMPLETED],
            next_session_id := 2 },
    avatar_cache := [], ic_cache := [], request_cache := [],
    active_workers := [], clock := 0, next_pid := 1 }

/-- C6 (amended): `stop_session` on a session in a terminal status returns
success and leaves every field of that session except `status` unchanged —
in particular `worker_pid` — but it does overwrite the status with STOPPED,
so the call is a true no-op only when the session was already STOPPED. -/
theorem stop_session_terminal_overwrites_status (st : St) (sid : Nat) (s : SessionRec)
    (hg : getSession st sid = some s) (ht : s.status.isTerminal = true) :
    (∃ m, (handle_stop_session st sid).2 = Resp.success m) ∧
    getSession (handle_stop_session st sid).1 sid
      = some { s with status := SessionStatus.STOPPED } := by
  have hnr : ¬ s.status = SessionStatus.RUNNING := by
    cases hcs : s.status <;> simp_all [SessionStatus.isTerminal]
  constructor
  · simp only [handle_stop_session, hg]
    exact ⟨_, rfl⟩
  · simp only [handle_stop_session, hg]
    rw [@getSession_update_self _ sid
      (fun x => { x with status := SessionStatus.STOPPED }) (fun x => rfl)]
    rw [stopSessionsLoop_stable _ _ _ hg hnr]
    rfl

/-- C6 counterexample: on a COMPLETED session, `stop_session` reports
success but flips the stored status to STOPPED, so the session is not left
unchanged as the claim states. -/
theorem stop_session_terminal_changes_status :
    getSession stC6 1 = some (c6rec .COMPLETED) ∧
    (handle_stop_session stC6 1).2 = Resp.success "Stopped 0 session(s)." ∧
    getSession (handle_stop_session stC6 1).1 1 = some (c6rec .STOPPED) := by
  refine ⟨by decide, by decide, by decide⟩

/-- C6 witness: the amended theorem applied to the concrete COMPLETED
session of `stC6`. -/
theorem stop_session_terminal_overwrites_status_witness :
    (∃ m, (handle_stop_session stC6 1).2 = Resp.success m) ∧
    getSession (handle_stop_session stC6 1).1 1
      = some { c6rec .COMPLETED with status := SessionStatus.STOPPED } :=
  stop_session_terminal_overwrites_status stC6 1 (c6rec .COMPLETED)
    (by decide) (by decide)

theorem map_proj_invariant (l : List SessionRec) (p : SessionRec → Bool)
    (f : SessionRec → SessionRec)
    (hf : ∀ s, ((f s).id, (f s).status, (f s).worker_pid) = (s.id, s.status, s.worker_pid)) :
    (l.map (fun s => if p s then f s else s)).map (fun s => (s.id, s.status, s.worker_pid))
      = l.map (fun s => (s.id, s.status, s.worker_pid)) := by
  rw [List.map_map]
  apply List.map_congr_left
  intro s _
  by_cases h : p s <;> simp [Function.comp, h, hf]

/-- C7 (amended): `remove_group` deletes the group row and its membership
rows (the ORM additionally clears the sessions' reference column) but stops
nothing: every session keeps its id, status and worker pid, and the handle
map is untouched — no RUNNING child leaf is stopped before the deletion. -/
theorem remove_group_stops_nothing (st : St) (group_type group_name : String) :
    (handle_remove_group st group_type group_name).1.active_workers
        = st.active_workers ∧
    (handle_remove_group st group_type group_name).1.db.sessions.map
        (fun s => (s.id, s.status, s.worker_pid))
      = st.db.sessions.map (fun s => (s.id, s.status, s.worker_pid)) ∧
    (∀ g, group_type = "avatar" →
      st.db.avatar_groups.find? (fun h => h.name == group_name) = some g →
      (handle_remove_group st group_type group_name).1.db.avatar_groups
          = st.db.avatar_groups.filter (fun h => h.id != g.id) ∧
      (handle_remove_group st group_type group_name).1.db.avatar_group_members
          = st.db.avatar_group_members.filter (fun m => m.group_id != g.id)) := by
  by_cases ha : group_type = "avatar"
  · cases hf : st.db.avatar_groups.find? (fun h => h.name == group_name) with
    | none =>
      have hstep : handle_remove_group st group_type group_name
          = (st, Resp.success ("Group " ++ squote group_name ++
              " not found or already deleted.")) := by
        simp [handle_remove_group, ha, hf]
      refine ⟨by rw [hstep], by rw [hstep], ?_⟩
      intro g2 _ hf2
      exact absurd hf2 (by simp)
    | some g =>
      have hstep : handle_remove_group st group_type group_name
          = ({ st with db := { st.db with
                avatar_groups := st.db.avatar_groups.filter (fun h => h.id != g.id),
                avatar_group_members := st.db.avatar_group_members.filter
                  (fun m => m.group_id != g.id),
                sessions := st.db.sessions.map (fun s =>
                  if s.avatar_group_id == some g.id then { s with avatar_group_id := none }
                  else s) } },
             Resp.success ("Group " ++ squote group_name ++
               " and all its memberships have been deleted.")) := by
        simp [handle_remove_group, ha, hf]
      refine ⟨by rw [hstep], ?_, ?_⟩
      · rw [hstep]
        exact map_proj_invariant _ _ _ (fun s => rfl)
      · intro g2 _ hf2
        obtain rfl := Option.some.inj hf2
        exact ⟨by rw [hstep], by rw [hstep]⟩
  · by_cases hi : group_type = "ic"
    · cases hf : st.db.ic_groups.find? (fun h => h.name == group_name) with
      | none =>
        have hstep : handle_remove_group st group_type group_name
            = (st, Resp.success ("Group " ++ squote group_name ++
                " not found or already deleted.")) := by
          simp [handle_remove_group, ha, hi, hf]
        exact ⟨by rw [hstep], by rw [hstep], fun g hc => absurd hc ha⟩
      | some g =>
        have hstep : handle_remove_group st group_type group_name
            = ({ st with db := { st.db with
                  ic_groups := st.db.ic_groups.filter (fun h => h.id != g.id),
                  ic_group_members := st.db.ic_group_members.filter
                    (fun m => m.group_id != g.id),
                  sessions := st.db.sessions.map (fun s =>
                    if s.ic_group_id == some g.id then { s with ic_group_id := none }
                    else s) } },
               Resp.success ("Group " ++ squote group_name ++
                 " and all its memberships have been deleted.")) := by
          simp [handle_remove_group, ha, hi, hf]
        refine ⟨by rw [hstep], ?_, fun g2 hc => absurd hc ha⟩
        rw [hstep]
        exact map_proj_invariant _ _ _ (fun s => rfl)
    · by_cases hr : group_type = "request"
      · cases hf : st.db.request_groups.find? (fun h => h.name == group_name) with
        | none =>
          have hstep : handle_remove_group st group_type group_name
              = (st, Resp.success ("Group " ++ squote group_name ++
                  " not found or already deleted.")) := by
            simp [handle_remove_group, ha, hi, hr, hf]
          exact ⟨by rw [hstep], by rw [hstep], fun g hc => absurd hc ha⟩
        | some g =>
          have hstep : handle_remove_group st group_type group_name
              = ({ st with db := { st.db with
                    request_groups := st.db.request_groups.filter
                      (fun h => h.id != g.id),
                    request_group_members := st.db.request_group_members.filter
                      (fun m => m.group_id != g.id),
                    sessions := st.db.sessions.map (fun s =>
                      if s.request_group_id == some g.id then
                        { s with request_group_id := none }
                      else s) } },
                 Resp.success ("Group " ++ squote group_name ++
                   " and all its memberships have been deleted.")) := by
            simp [handle_remove_group, ha, hi, hr, hf]
          refine ⟨by rw [hstep], ?_, fun g2 hc => absurd hc ha⟩
          rw [hstep]
          exact map_proj_invariant _ _ _ (fun s => rfl)
      · have hstep : handle_remove_group st group_type group_name
            = (st, Resp.error ("Unknown group type " ++ squote group_type)) := by
          simp [handle_remove_group, ha, hi, hr]
        exact ⟨by rw [hstep], by rw [hstep], fun g hc => absurd hc ha⟩

/-- The RUNNING group parent of the C7 fixture. -/
def c7parent : SessionRec :=
  { id := 1, is_group_session := true, description := "p",
    avatar_group_id := some 1, ic_group_id := some 1,
    session_type := .GROUP_IC_SESSION, start_time := 0, status := .RUNNING }

/-- The RUNNING child leaf of the C7 fixture, with a live worker pid. -/
def c7leaf : SessionRec :=
  { id := 2, parent_session_id := some 1, description := "l",
    avatar_id := some 1, ic_id := some 7,
    session_type := .IC_SESSION, start_time := 0, status := .RUNNING,
    worker_pid := some 100 }

/-- C7 fixture: an avatar group bound to a RUNNING parent with a RUNNING
child leaf owning a live worker. -/
def stC7 : St :=
  { db := { avatars := [{ id := 1, name := "A1", photo_data := [], info_data := "" }],
            ics := [], requests := [],
            avatar_groups := [{ id := 1, name := "G" }],
            avatar_group_members := [{ group_id := 1, avatar_id := 1 }],
            ic_groups := [], ic_group_members := [],
            request_groups := [], request_group_members := [],
            sessions := [c7parent, c7leaf],
            next_session_id := 3 },
    avatar_cache := [], ic_cache := [], request_cache := [],
    active_workers := [(2, 100)], clock := 5, next_pid := 101 }

/-- C7 counterexample: `remove_group` deletes the group and memberships
while the RUNNING child leaf keeps status RUNNING and its worker pid and
handle — it is not stopped first as the claim states. -/
theorem remove_group_leaves_children_running :
    getSession stC7 2 = some c7leaf ∧
    (handle_remove_group stC7 "avatar" "G").1.db.avatar_groups = [] ∧
    (handle_remove_group stC7 "avatar" "G").1.db.avatar_group_members = [] ∧
    getSession (handle_remove_group stC7 "avatar" "G").1 2 = some c7leaf ∧
    (handle_remove_group stC7 "avatar" "G").1.active_workers = [(2, 100)] := by
  refine ⟨by decide, by decide, by decide, by decide, by decide⟩

/-- C7 witness: the amended theorem applied to the C7 fixture. -/
theorem remove_group_stops_nothing_witness :
    (handle_remove_group stC7 "avatar" "G").1.active_workers = stC7.active_workers ∧
    (handle_remove_group stC7 "avatar" "G").1.db.avatar_groups
        = stC7.db.avatar_groups.filter (fun h => h.id != 1) :=
  ⟨(remove_group_stops_nothing stC7 "avatar" "G").1,
    ((remove_group_stops_nothing stC7 "avatar" "G").2.2
      { id := 1, name := "G" } rfl (by decide)).1⟩

/-- C1 fixture: a RUNNING group-to-group parent over an avatar group with
one member and an ic group, and a second info-copy to add. -/
def stC1 : St :=
  { db := { avatars := [{ id := 1, name := "A1", photo_data := [], info_data := "" }],
            ics := [{ id := 7, name := "I7", wav_data := [] },
                    { id := 8, name := "I8", wav_data := [] }],
            requests := [],
            avatar_groups := [{ id := 1, name := "G" }],
            avatar_group_members := [{ group_id := 1, avatar_id := 1 }],
            ic_groups := [{ id := 1, name := "H" }],
            ic_group_members := [{ group_id := 1, ic_id := 7 }],
            request_groups := [], request_group_members := [],
            sessions := [{ id := 1, is_group_session := true, description := "p",
                           avatar_group_id := some 1, ic_group_id := some 1,
                           session_type := .GROUP_IC_SESSION, start_time := 0,
                           status := .RUNNING }],
            next_session_id := 2 },
    avatar_cache := [], ic_cache := [], request_cache := [],
    active_workers := [], clock := 10, next_pid := 100 }

/-- C1: adding an info-copy to the ic group of a RUNNING group-to-group
parent whose profile group has one member reports one new live session but
creates no session row and spawns no worker: the ic branch of
`add_member_to_group` only counts. -/
theorem add_member_ic_creates_no_sessions :
    (handle_add_member_to_group stC1 "ic" "H" 8).2
        = Resp.success "Added IC 8 to group 'H'. Started 1 new live session(s)." ∧
    (handle_add_member_to_group stC1 "ic" "H" 8).1.db.sessions = stC1.db.sessions ∧
    (handle_add_member_to_group stC1 "ic" "H" 8).1.active_workers
        = stC1.active_workers := by
  refine ⟨by decide, by decide, by decide⟩

/-- C8 fixture: an info-copy with a RUNNING session referencing it and a
cached payload. -/
def stC8 : St :=
  { db := { avatars := [{ id := 1, name := "A1", photo_data := [], info_data := "" }],
            ics := [{ id := 7, name := "I7", wav_data := [] }],
            requests := [],
            avatar_groups := [], avatar_group_members := [],
            ic_groups := [], ic_group_members := [],
            request_groups := [], request_group_members := [],
            sessions := [{ id := 1, description := "l",
                           avatar_id := some 1, ic_id := some 7,
                           session_type := .IC_SESSION, start_time := 0,
                           status := .RUNNING, worker_pid := some 50 }],
            next_session_id := 2 },
    avatar_cache := [], ic_cache := [(7, [])], request_cache := [],
    active_workers := [(1, 50)], clock := 0, next_pid := 51 }

/-- C8: `remove_entity` on an existing info-copy reads
`entity.source_sessions`, an attribute only `Avatar` has, so it raises and
returns an error with the state untouched: the session is not stopped, the
row not deleted, and the ic cache entry not evicted. -/
theorem remove_entity_ic_attribute_error :
    handle_remove_entity stC8 "ic" 7
      = (stC8, Resp.error "'InformationCopy' object has no attribute 'source_sessions'") := by
  decide

theorem forall₂_mem_right {α β : Type} {Q : α → β → Prop} :
    ∀ {xs : List α} {ys : List β}, List.Forall₂ Q xs ys →
      ∀ y ∈ ys, ∃ x ∈ xs, Q x y := by
  intro xs ys h
  induction h with
  | nil => intro y hy; cases hy
  | cons hq _ ih =>
    intro y hy
    rcases List.mem_cons.mp hy with rfl | hy2
    · exact ⟨_, List.mem_cons_self _ _, hq⟩
    · obtain ⟨x, hx, hqx⟩ := ih y hy2
      exact ⟨x, List.mem_cons_of_mem _ hx, hqx⟩

theorem forall₂_map_proj {α β γ : Type} {Q : α → β → Prop} (f : α → γ) (g : β → γ)
    (h : ∀ a b, Q a b → g b = f a) :
    ∀ {xs : List α} {ys : List β}, List.Forall₂ Q xs ys → ys.map g = xs.map f := by
  intro xs ys hyp
  induction hyp with
  | nil => rfl
  | cons hq _ ih => simp [h _ _ hq, ih]

theorem pairs_length {α β : Type} (A : List α) (B : List β) :
    (A.flatMap (fun a => B.map (fun b => (a, b)))).length = A.length * B.length := by
  induction A with
  | nil => simp
  | cons a A ih => simp [ih, Nat.succ_mul, Nat.add_comm]

theorem mem_pairs {α β : Type} {A : List α} {B : List β} {x : α × β} :
    x ∈ A.flatMap (fun a => B.map (fun b => (a, b))) → x.1 ∈ A ∧ x.2 ∈ B := by
  intro h
  obtain ⟨a, ha, hx⟩ := List.mem_flatMap.mp h
  obtain ⟨b, hb, rfl⟩ := List.mem_map.mp hx
  exact ⟨ha, hb⟩

theorem mkStartEndTimes_state (st : St) (d : Option Nat) :
    ∃ c, (mkStartEndTimes st d).2.2 = { st with clock := c } := by
  unfold mkStartEndTimes utcnow
  cases truthyNat d <;> exact ⟨_, rfl⟩

theorem find?_of_exists {α : Type} {l : List α} {p : α → Bool}
    (h : ∃ a ∈ l, p a = true) : ∃ b, l.find? p = some b ∧ p b = true := by
  have hs : (l.find? p).isSome := List.find?_isSome.mpr h
  cases hf : l.find? p with
  | none => rw [hf] at hs; cases hs
  | some b => exact ⟨b, rfl, List.find?_some hf⟩

/-- The success path of `handle_start_group`, specified: when both groups
exist and both membership lists are non-empty, the handler appends exactly
one RUNNING parent of kind GROUP_IC_SESSION followed by one leaf per
(avatar member, ic member) pair, each leaf an IC_SESSION child of the
parent inheriting its timing, and replies success. -/
theorem handle_start_group_shape (st : St) (ag ig : Option String) (d : Option Nat)
    (gA : AvatarGroup) (gI : ICGroup)
    (hwf : Wf st) (hrefs : RefsOk st)
    (hfA : st.db.avatar_groups.find? (fun g => some g.name == ag) = some gA)
    (hfI : st.db.ic_groups.find? (fun g => some g.name == ig) = some gI)
    (hne : ¬ ((st.db.avatar_group_members.filter (fun m => m.group_id == gA.id)).isEmpty
        ∨ (st.db.ic_group_members.filter (fun m => m.group_id == gI.id)).isEmpty)) :
    ∃ parent news,
      (handle_start_group st ag ig d).1.db.sessions
          = st.db.sessions ++ parent :: news ∧
      (∃ m, (handle_start_group st ag ig d).2 = Resp.success m) ∧
      parent.id = st.db.next_session_id ∧
      parent.is_group_session = true ∧
      parent.session_type = SessionType.GROUP_IC_SESSION ∧
      parent.avatar_group_id = some gA.id ∧
      parent.ic_group_id = some gI.id ∧
      parent.status = SessionStatus.RUNNING ∧
      parent.parent_session_id = none ∧
      List.Forall₂ (fun (pr : AvatarGroupMember × ICGroupMember) c =>
          (c.avatar_id = some pr.1.avatar_id ∧ c.ic_id = some pr.2.ic_id ∧
            c.parent_session_id = some parent.id ∧
            c.session_type = SessionType.IC_SESSION ∧
            c.is_group_session = false ∧
            c.start_time = parent.start_time ∧ c.end_time = parent.end_time) ∧
          (c.status = SessionStatus.RUNNING ∨ c.status = SessionStatus.FAILED))
        ((st.db.avatar_group_members.filter (fun m => m.group_id == gA.id)).flatMap
          (fun a => (st.db.ic_group_members.filter (fun m => m.group_id == gI.id)).map
            (fun i => (a, i))))
        news := by
  obtain ⟨c, hstT⟩ := mkStartEndTimes_state st d
  set amembers := st.db.avatar_group_members.filter (fun m => m.group_id == gA.id)
  set imembers := st.db.ic_group_members.filter (fun m => m.group_id == gI.id)
  set t := mkStartEndTimes st d
  set parentRec : SessionRec :=
    { is_group_session := true,
      description := "IC Group " ++ squote gI.name ++ " on Avatar Group " ++ squote gA.name,
      avatar_group_id := some gA.id, ic_group_id := some gI.id,
      session_type := .GROUP_IC_SESSION,
      start_time := t.1, end_time := t.2.1,
      status := .RUNNING } with hparentRec
  have hpush : (pushSession t.2.2 parentRec).1.db.sessions
      = st.db.sessions ++ [{ parentRec with id := st.db.next_session_id }] := by
    rw [hstT]
    simp [pushSession]
  have hpush2 : (pushSession t.2.2 parentRec).2 = st.db.next_session_id := by
    rw [hstT]
    simp [pushSession]
  have hpushnext : (pushSession t.2.2 parentRec).1.db.next_session_id
      = st.db.next_session_id + 1 := by
    rw [hstT]
    simp [pushSession]
  have hpushent : (pushSession t.2.2 parentRec).1.db.ent = st.db.ent := by
    rw [hstT]
    simp [pushSession, DB.ent]
  have hidsT : IdsOk t.2.2 := by
    rw [hstT]
    exact idsOk_congr rfl rfl hwf.1
  have hids2 : IdsOk (pushSession t.2.2 parentRec).1 := pushSession_idsOk hidsT
  set parent : SessionRec := { parentRec with id := (pushSession t.2.2 parentRec).2 }
    with hparent
  set pairs := amembers.flatMap (fun a => imembers.map (fun i => (a, i))) with hpairs
  have hloop := spawnChildrenLoop_spec (pushSession t.2.2 parentRec).1
    (startGroupChildMk parent) (fun _ => false)
    (fun pr c =>
      c.avatar_id = some pr.1.avatar_id ∧ c.ic_id = some pr.2.ic_id ∧
        c.parent_session_id = some parent.id ∧
        c.session_type = SessionType.IC_SESSION ∧
        c.is_group_session = false ∧
        c.start_time = parent.start_time ∧ c.end_time = parent.end_time)
    (by intro x r h i stt pid; simpa using h)
    pairs (pushSession t.2.2 parentRec).1 0 hids2 rfl
    (by intro st' x _ hsk; cases hsk)
    ?hmk
  case hmk =>
    intro st' x hx hent _
    have hx2 := mem_pairs hx
    have hav : ∃ a ∈ st'.db.avatars, (fun av => av.id == x.1.avatar_id) a = true := by
      have hm : x.1 ∈ st.db.avatar_group_members := List.mem_of_mem_filter hx2.1
      obtain ⟨a, ha, hid⟩ := hrefs.1 x.1 hm
      refine ⟨a, ?_, by simp [hid]⟩
      rw [ent_avatars (hent.trans hpushent)]
      exact ha
    have hic : ∃ i ∈ st'.db.ics, (fun ic => ic.id == x.2.ic_id) i = true := by
      have hm : x.2 ∈ st.db.ic_group_members := List.mem_of_mem_filter hx2.2
      obtain ⟨i, hi, hid⟩ := hrefs.2.1 x.2 hm
      refine ⟨i, ?_, by simp [hid]⟩
      rw [ent_ics (hent.trans hpushent)]
      exact hi
    obtain ⟨av, hfav, hpav⟩ := find?_of_exists hav
    obtain ⟨ic, hfic, hpic⟩ := find?_of_exists hic
    refine ⟨{ parent_session_id := some parent.id,
              avatar_id := some x.1.avatar_id, ic_id := some x.2.ic_id,
              description := squote av.name ++ " <=> " ++ squote ic.name ++
                " (from Group Session #" ++ Nat.repr parent.id ++ ")",
              session_type := .IC_SESSION,
              start_time := parent.start_time, end_time := parent.end_time },
            st', ?_, ?_, rfl, rfl⟩
    · simp only [startGroupChildMk, hfav, hfic]
    · exact ⟨rfl, rfl, rfl, rfl, rfl, rfl, rfl⟩
  obtain ⟨stf, news, h1, h2, h3, h4, h5, h6, h7⟩ := hloop
  refine ⟨parent, news, ?_, ?_, ?_, rfl, rfl, rfl, rfl, rfl, rfl, ?_⟩
  · simp only [handle_start_group, hfA, hfI]
    rw [if_neg hne]
    simp only [h1]
    rw [h2, hpush]
    simp only [List.append_assoc, List.singleton_append]
    rw [hparent, hpush2]
  · simp only [handle_start_group, hfA, hfI]
    rw [if_neg hne]
    simp only [h1]
    exact ⟨_, rfl⟩
  · rw [hparent, hpush2]
  · simpa using h3

/-- The empty-group error path of `handle_start_group`: nothing is created
and the state is returned unchanged. -/
theorem handle_start_group_empty (st : St) (ag ig : Option String) (d : Option Nat)
    (gA : AvatarGroup) (gI : ICGroup)
    (hfA : st.db.avatar_groups.find? (fun g => some g.name == ag) = some gA)
    (hfI : st.db.ic_groups.find? (fun g => some g.name == ig) = some gI)
    (he : (st.db.avatar_group_members.filter (fun m => m.group_id == gA.id)).isEmpty
        ∨ (st.db.ic_group_members.filter (fun m => m.group_id == gI.id)).isEmpty) :
    handle_start_group st ag ig d
      = (st, Resp.error "Both avatar and IC groups must be non-empty.") := by
  simp only [handle_start_group, hfA, hfI]
  rw [if_pos he]

/-- C5: `start_group` over existing groups A and I: with either membership
list empty it returns an error and creates no session; otherwise it creates
exactly one parent (is_group, kind GROUP_IC_SESSION, RUNNING) and exactly
one leaf per (avatar member, ic member) pair — so their count is the
product of the membership counts — each leaf recording that pair and
pointing at the parent. -/
theorem start_group_one_parent_product_leaves (st : St) (ag ig : Option String)
    (d : Option Nat) (gA : AvatarGroup) (gI : ICGroup)
    (hwf : Wf st) (hrefs : RefsOk st)
    (hfA : st.db.avatar_groups.find? (fun g => some g.name == ag) = some gA)
    (hfI : st.db.ic_groups.find? (fun g => some g.name == ig) = some gI) :
    (((st.db.avatar_group_members.filter (fun m => m.group_id == gA.id)).isEmpty
        ∨ (st.db.ic_group_members.filter (fun m => m.group_id == gI.id)).isEmpty) →
      handle_start_group st ag ig d
        = (st, Resp.error "Both avatar and IC groups must be non-empty.")) ∧
    (¬ ((st.db.avatar_group_members.filter (fun m => m.group_id == gA.id)).isEmpty
        ∨ (st.db.ic_group_members.filter (fun m => m.group_id == gI.id)).isEmpty) →
      ∃ parent news,
        (handle_start_group st ag ig d).1.db.sessions
            = st.db.sessions ++ parent :: news ∧
        (∃ m, (handle_start_group st ag ig d).2 = Resp.success m) ∧
        parent.is_group_session = true ∧
        parent.session_type = SessionType.GROUP_IC_SESSION ∧
        parent.avatar_group_id = some gA.id ∧
        parent.ic_group_id = some gI.id ∧
        parent.status = SessionStatus.RUNNING ∧
        news.length
            = (st.db.avatar_group_members.filter (fun m => m.group_id == gA.id)).length
              * (st.db.ic_group_members.filter (fun m => m.group_id == gI.id)).length ∧
        news.map (fun c => (c.avatar_id, c.ic_id))
            = ((st.db.avatar_group_members.filter (fun m => m.group_id == gA.id)).flatMap
                (fun a => (st.db.ic_group_members.filter (fun m => m.group_id == gI.id)).map
                  (fun i => (a, i)))).map
                (fun pr => (some pr.1.avatar_id, some pr.2.ic_id)) ∧
        (∀ c ∈ news, c.parent_session_id = some parent.id ∧
          c.is_group_session = false)) := by
  constructor
  · intro he
    exact handle_start_group_empty st ag ig d gA gI hfA hfI he
  · intro hne
    obtain ⟨parent, news, h1, h2, h3, h4, h5, h6, h7, h8, h9, h10⟩ :=
      handle_start_group_shape st ag ig d gA gI hwf hrefs hfA hfI hne
    refine ⟨parent, news, h1, h2, h4, h5, h6, h7, h8, ?_, ?_, ?_⟩
    · rw [← List.Forall₂.length_eq h10]
      exact pairs_length _ _
    · exact forall₂_map_proj _ _
        (fun pr c hq => by
          obtain ⟨⟨ha, hb, -⟩, -⟩ := hq
          rw [ha, hb]) h10
    · intro cRec hc
      obtain ⟨pr, hpr, hq⟩ := forall₂_mem_right h10 cRec hc
      exact ⟨hq.1.2.2.1, hq.1.2.2.2.2.1⟩

/-- C5 witness fixture: avatar group with two members, ic group with one. -/
def stC5 : St :=
  { db := { avatars := [{ id := 1, name := "A1", photo_data := [], info_data := "" },
                        { id := 2, name := "A2", photo_data := [], info_data := "" }],
            ics := [{ id := 7, name := "I7", wav_data := [] }],
            requests := [],
            avatar_groups := [{ id := 1, name := "G" }],
            avatar_group_members := [{ group_id := 1, avatar_id := 1 },
                                     { group_id := 1, avatar_id := 2 }],
            ic_groups := [{ id := 1, name := "H" }],
            ic_group_members := [{ group_id := 1, ic_id := 7 }],
            request_groups := [], request_group_members := [],
            sessions := [], next_session_id := 1 },
    avatar_cache := [], ic_cache := [], request_cache := [],
    active_workers := [], clock := 0, next_pid := 1 }

/-- C5 witness: the product-count theorem applied to the concrete fixture
with |A| = 2 and |I| = 1. -/
theorem start_group_one_parent_product_leaves_witness :
    ∃ parent news,
      (handle_start_group stC5 (some "G") (some "H") none).1.db.sessions
          = stC5.db.sessions ++ parent :: news ∧
      (∃ m, (handle_start_group stC5 (some "G") (some "H") none).2
          = Resp.success m) ∧
      parent.is_group_session = true ∧
      parent.session_type = SessionType.GROUP_IC_SESSION ∧
      parent.avatar_group_id = some 1 ∧
      parent.ic_group_id = some 1 ∧
      parent.status = SessionStatus.RUNNING ∧
      news.length
          = (stC5.db.avatar_group_members.filter (fun m => m.group_id == 1)).length
            * (stC5.db.ic_group_members.filter (fun m => m.group_id == 1)).length ∧
      news.map (fun c => (c.avatar_id, c.ic_id))
          = ((stC5.db.avatar_group_members.filter (fun m => m.group_id == 1)).flatMap
              (fun a => (stC5.db.ic_group_members.filter (fun m => m.group_id == 1)).map
                (fun i => (a, i)))).map
              (fun pr => (some pr.1.avatar_id, some pr.2.ic_id)) ∧
      (∀ c ∈ news, c.parent_session_id = some parent.id ∧
        c.is_group_session = false) :=
  (start_group_one_parent_product_leaves stC5 (some "G") (some "H") none
    { id := 1, name := "G" } { id := 1, name := "H" }
    (by decide) (by decide) (by decide) (by decide)).2 (by decide)

/-- Insert one session row and spawn it: the single-child counterpart of
the loop specification. -/
theorem pushSpawn_spec (st : St) (r : SessionRec) (hids : IdsOk st) :
    ∃ stt pid,
      (stt = SessionStatus.RUNNING ∨ stt = SessionStatus.FAILED) ∧
      (spawnWorkerForSession (pushSession st r).1 (pushSession st r).2).db.sessions
        = st.db.sessions
          ++ [{ r with id := st.db.next_session_id, status := stt, worker_pid := pid }] ∧
      (spawnWorkerForSession (pushSession st r).1 (pushSession st r).2).db.ent
        = st.db.ent ∧
      DB.next_session_id
          (spawnWorkerForSession (pushSession st r).1 (pushSession st r).2).db
        = st.db.next_session_id + 1 ∧
      IdsOk (spawnWorkerForSession (pushSession st r).1 (pushSession st r).2) := by
  have hsess : (pushSession st r).1.db.sessions
      = st.db.sessions ++ [{ r with id := st.db.next_session_id }] := by
    simp [pushSession]
  have hone : 1 ≤ st.db.next_session_id := hids.1
  have hfl : ∀ s ∈ st.db.sessions, s.id ≠ st.db.next_session_id := by
    intro s hsm
    have := hids.2.1 s hsm
    omega
  have hfw : ∀ w ∈ (pushSession st r).1.active_workers, w.1 ≠ st.db.next_session_id := by
    intro w hw2
    simp only [pushSession] at hw2
    have := hids.2.2 w hw2
    omega
  obtain ⟨stt, pid, hstt, hs3, hent3, hn3, hcl3, hwk3⟩ :=
    @spawnWorker_append_fresh (pushSession st r).1 st.db.sessions
      { r with id := st.db.next_session_id } st.db.next_session_id hsess rfl
      (by omega) hfl hfw
  have hids3 : IdsOk (spawnWorkerForSession (pushSession st r).1 st.db.next_session_id) :=
    spawnWorker_idsOk (pushSession_idsOk hids)
  have hpid : (pushSession st r).2 = st.db.next_session_id := rfl
  refine ⟨stt, pid, hstt, ?_, ?_, ?_, ?_⟩
  · rw [hpid, hs3]
  · rw [hpid, hent3]
    simp [pushSession, DB.ent]
  · rw [hpid, hn3]
    simp [pushSession]
  · rw [hpid]
    exact hids3

/-- The per-parent facts shared by every retroactive leaf
`add_member_to_group` creates. -/
def AddMemberLeafFacts (p c : SessionRec) : Prop :=
  c.parent_session_id = some p.id ∧ c.is_group_session = false ∧
  c.start_time = p.start_time ∧ c.end_time = p.end_time ∧
  c.session_type ≠ SessionType.GROUP_IC_SESSION ∧
  (p.session_type = SessionType.GROUP_IC_SESSION →
    c.session_type = SessionType.IC_SESSION) ∧
  (c.status = SessionStatus.RUNNING ∨ c.status = SessionStatus.FAILED)

/-- The avatar branch's per-parent case split, specified: it succeeds,
appends only leaves satisfying `AddMemberLeafFacts`, reports their count,
and preserves entity tables and id bookkeeping. -/
theorem addMemberChildrenForParent_spec (st0 : St) (new_av : Avatar) (p : SessionRec)
    (st : St) (hids : IdsOk st) (hent : st.db.ent = st0.db.ent)
    (hrefs : ∀ m ∈ st0.db.ic_group_members, ∃ i ∈ st0.db.ics, i.id = m.ic_id) :
    ∃ stA news,
      addMemberChildrenForParent new_av st p = .ok (stA, news.length) ∧
      stA.db.sessions = st.db.sessions ++ news ∧
      (∀ c ∈ news, AddMemberLeafFacts p c) ∧
      (∀ c ∈ news, st.db.next_session_id ≤ c.id) ∧
      stA.db.ent = st.db.ent ∧
      stA.db.next_session_id = st.db.next_session_id + news.length ∧
      IdsOk stA := by
  unfold addMemberChildrenForParent
  by_cases h1 : p.session_type = SessionType.GROUP_IC_SESSION
  · rw [if_pos h1]
    cases hig : p.ic_group_id.bind
        (fun gid => st.db.ic_groups.find? (fun g => g.id == gid)) with
    | none =>
      exact ⟨st, [], rfl, by simp, by simp, by simp, rfl, by simp, hids⟩
    | some ig =>
      simp only
      have hloop := spawnChildrenLoop_spec st
        (addMemberGroupICChildMk new_av p) (fun _ => false)
        (fun x c =>
          c.parent_session_id = some p.id ∧ c.is_group_session = false ∧
            c.start_time = p.start_time ∧ c.end_time = p.end_time ∧
            c.session_type = SessionType.IC_SESSION)
        (by intro x r h i stt pid; simpa using h)
        (st.db.ic_group_members.filter (fun m => m.group_id == ig.id)) st 0 hids rfl
        (by intro st' x _ hsk; cases hsk)
        ?hmk
      case hmk =>
        intro st' x hx hent' _
        have hm : x ∈ st.db.ic_group_members := List.mem_of_mem_filter hx
        have hic : ∃ i ∈ st'.db.ics, (fun ic => ic.id == x.ic_id) i = true := by
          rw [ent_ics (hent'.trans hent)]
          rw [ent_ic_group_members hent] at hm
          obtain ⟨i, hi, hid⟩ := hrefs x hm
          exact ⟨i, hi, by simp [hid]⟩
        obtain ⟨ic, hfic, hpic⟩ := find?_of_exists hic
        refine ⟨{ parent_session_id := some p.id,
                  avatar_id := some new_av.id, ic_id := some x.ic_id,
                  description := squote new_av.name ++ " <=> " ++ squote ic.name ++
                    " (from Group Session #" ++ Nat.repr p.id ++ ")",
                  session_type := .IC_SESSION,
                  start_time := p.start_time, end_time := p.end_time },
                st', ?_, ?_, rfl, rfl⟩
        · simp only [addMemberGroupICChildMk, hfic]
        · exact ⟨rfl, rfl, rfl, rfl, rfl⟩
      obtain ⟨stf, news, hl1, hl2, hl3, hl4, hl5, hl6, hl7⟩ := hloop
      refine ⟨stf, news, ?_, hl2, ?_, ?_, hl5, hl6, hl7⟩
      · rw [hl1]
        simp
      · intro cRec hc
        obtain ⟨x, hx, hq⟩ := forall₂_mem_right (by simpa using hl3) cRec hc
        obtain ⟨⟨q1, q2, q3, q4, q5⟩, q6⟩ := hq
        exact ⟨q1, q2, q3, q4, by rw [q5]; decide, fun _ => q5, q6⟩
      · intro cRec hc
        have hmm : cRec.id ∈ news.map (fun s => s.id) := List.mem_map_of_mem _ hc
        rw [hl4] at hmm
        exact (List.mem_range'_1.mp hmm).1
  · rw [if_neg h1]
    by_cases h2 : p.session_type = SessionType.IC_SESSION ∧
        (p.ic_id.bind (fun i => st.db.ics.find? (fun ic => ic.id == i))).isSome
    · rw [if_pos h2]
      cases hic : p.ic_id.bind (fun i => st.db.ics.find? (fun ic => ic.id == i)) with
      | none => rw [hic] at h2; cases h2.2
      | some ic =>
        simp only [hic]
        obtain ⟨stt, pid, hstt, hp1, hp2, hp3, hp4⟩ := pushSpawn_spec st
          { parent_session_id := some p.id,
            avatar_id := some new_av.id, ic_id := p.ic_id,
            description := squote new_av.name ++ " <=> " ++ squote ic.name ++
              " (from Group Op #" ++ Nat.repr p.id ++ ")",
            session_type := .IC_SESSION,
            start_time := p.start_time, end_time := p.end_time } hids
        refine ⟨_, [_], rfl, hp1, ?_, ?_, hp2, hp3, hp4⟩
        · intro cRec hc
          rw [List.mem_singleton] at hc
          subst hc
          exact ⟨rfl, rfl, rfl, rfl, by simp, fun hcon => absurd hcon h1, hstt⟩
        · intro cRec hc
          rw [List.mem_singleton] at hc
          subst hc
          exact Nat.le_refl _
    · rw [if_neg h2]
      by_cases h3 : p.session_type = SessionType.REQUEST_SESSION ∧
          (p.request_id.bind (fun i => st.db.requests.find? (fun rq => rq.id == i))).isSome
      · rw [if_pos h3]
        cases hrq : p.request_id.bind
            (fun i => st.db.requests.find? (fun rq => rq.id == i)) with
        | none => rw [hrq] at h3; cases h3.2
        | some rq =>
          simp only [hrq]
          obtain ⟨stt, pid, hstt, hp1, hp2, hp3, hp4⟩ := pushSpawn_spec st
            { parent_session_id := some p.id,
              avatar_id := some new_av.id, request_id := p.request_id,
              description := squote new_av.name ++ " <=> " ++ squote rq.name ++
                " (from Group Op #" ++ Nat.repr p.id ++ ")",
              session_type := .REQUEST_SESSION,
              start_time := p.start_time, end_time := p.end_time } hids
          refine ⟨_, [_], rfl, hp1, ?_, ?_, hp2, hp3, hp4⟩
          · intro cRec hc
            rw [List.mem_singleton] at hc
            subst hc
            exact ⟨rfl, rfl, rfl, rfl, by simp, fun hcon => absurd hcon h1, hstt⟩
          · intro cRec hc
            rw [List.mem_singleton] at hc
            subst hc
            exact Nat.le_refl _
      · rw [if_neg h3]
        by_cases h4 : p.session_type = SessionType.AVATAR_LINK ∧
            (p.avatar_id.bind (fun i => st.db.avatars.find? (fun av => av.id == i))).isSome
        · rw [if_pos h4]
          cases hsa : p.avatar_id.bind
              (fun i => st.db.avatars.find? (fun av => av.id == i)) with
          | none => rw [hsa] at h4; cases h4.2
          | some src =>
            simp only [hsa]
            obtain ⟨stt, pid, hstt, hp1, hp2, hp3, hp4⟩ := pushSpawn_spec st
              { parent_session_id := some p.id,
                avatar_id := p.avatar_id, destination_avatar_id := some new_av.id,
                description := "Link: " ++ squote src.name ++ " -> " ++
                  squote new_av.name ++ " (from Group Op #" ++ Nat.repr p.id ++ ")",
                session_type := .AVATAR_LINK,
                start_time := p.start_time, end_time := p.end_time } hids
            refine ⟨_, [_], rfl, hp1, ?_, ?_, hp2, hp3, hp4⟩
            · intro cRec hc
              rw [List.mem_singleton] at hc
              subst hc
              exact ⟨rfl, rfl, rfl, rfl, by simp, fun hcon => absurd hcon h1, hstt⟩
            · intro cRec hc
              rw [List.mem_singleton] at hc
              subst hc
              exact Nat.le_refl _
        · rw [if_neg h4]
          exact ⟨st, [], rfl, by simp, by simp, by simp, rfl, by simp, hids⟩

/-- The fold over matching parents in the avatar branch, specified. -/
theorem addMemberOuterLoop_spec (st0 : St) (new_av : Avatar)
    (hrefs : ∀ m ∈ st0.db.ic_group_members, ∃ i ∈ st0.db.ics, i.id = m.ic_id) :
    ∀ (ps : List SessionRec) (st : St) (n : Nat),
      IdsOk st → st.db.ent = st0.db.ent →
      ∃ stF news,
        addMemberOuterLoop new_av st ps n = .ok (stF, n + news.length) ∧
        stF.db.sessions = st.db.sessions ++ news ∧
        (∀ c ∈ news, ∃ p ∈ ps, AddMemberLeafFacts p c) ∧
        (∀ c ∈ news, st.db.next_session_id ≤ c.id) ∧
        stF.db.ent = st.db.ent ∧
        stF.db.next_session_id = st.db.next_session_id + news.length ∧
        IdsOk stF
  | [], st, n, hids, hent =>
    ⟨st, [], by simp [addMemberOuterLoop], by simp, by simp, by simp, rfl, by simp, hids⟩
  | p :: ps, st, n, hids, hent => by
    obtain ⟨stA, newsp, ha1, ha2, ha3, ha4, ha5, ha6, ha7⟩ :=
      addMemberChildrenForParent_spec st0 new_av p st hids hent hrefs
    obtain ⟨stF, news2, hb1, hb2, hb3, hb4, hb5, hb6, hb7⟩ :=
      addMemberOuterLoop_spec st0 new_av hrefs ps stA (n + newsp.length) ha7
        (ha5.trans hent)
    refine ⟨stF, newsp ++ news2, ?_, ?_, ?_, ?_, ?_, ?_, hb7⟩
    · have hstep : addMemberOuterLoop new_av st (p :: ps) n
          = addMemberOuterLoop new_av stA ps (n + newsp.length) := by
        rw [addMemberOuterLoop, ha1]
      rw [hstep, hb1, List.length_append, Nat.add_assoc]
    · rw [hb2, ha2, List.append_assoc]
    · intro c hc
      rcases List.mem_append.mp hc with h | h
      · exact ⟨p, List.mem_cons_self _ _, ha3 c h⟩
      · obtain ⟨q, hq, hfacts⟩ := hb3 c h
        exact ⟨q, List.mem_cons_of_mem _ hq, hfacts⟩
    · intro c hc
      rcases List.mem_append.mp hc with h | h
      · exact ha4 c h
      · have := hb4 c h
        omega
    · rw [hb5, ha5]
    · rw [hb6, ha6]
      simp
      omega

/-- The avatar branch of `add_member_to_group`, specified: all paths leave
the pre-existing sessions untouched and only append retroactive leaves,
each satisfying `AddMemberLeafFacts` for some RUNNING group parent that was
already stored, with fresh ids. -/
theorem handle_add_member_avatar_shape (st : St) (gn : String) (mid : Nat)
    (hwf : Wf st) (hrefs : RefsOk st) :
    ∃ tail,
      (handle_add_member_to_group st "avatar" gn mid).1.db.sessions
          = st.db.sessions ++ tail ∧
      (∀ c ∈ tail, ∃ p ∈ st.db.sessions,
        p.is_group_session = true ∧ p.status = SessionStatus.RUNNING ∧
        AddMemberLeafFacts p c) ∧
      (∀ c ∈ tail, st.db.next_session_id ≤ c.id) := by
  have hsne : ("avatar" = "ic") = False := by simp
  cases hg : st.db.avatar_groups.find? (fun g => g.name == gn) with
  | none =>
    refine ⟨[], ?_, by simp, by simp⟩
    simp [handle_add_member_to_group, hsne, hg]
  | some g =>
    cases hav : st.db.avatars.find? (fun av => av.id == mid) with
    | none =>
      refine ⟨[], ?_, by simp, by simp⟩
      simp [handle_add_member_to_group, hsne, hg, hav]
    | some new_av =>
      by_cases hdup : (st.db.avatar_group_members.find? (fun m =>
          m.group_id == g.id && m.avatar_id == mid)).isSome = true
      · refine ⟨[], ?_, by simp, by simp⟩
        simp [handle_add_member_to_group, hsne, hg, hav, hdup]
      · set st1 : St := { st with db := { st.db with
          avatar_group_members := st.db.avatar_group_members ++
            [{ group_id := g.id, avatar_id := mid }] } } with hst1
        have hids1 : IdsOk st1 := idsOk_congr rfl rfl hwf.1
        have hrefs1 : ∀ m ∈ st1.db.ic_group_members, ∃ i ∈ st1.db.ics, i.id = m.ic_id :=
          hrefs.2.1
        obtain ⟨stF, news, h1, h2, h3, h4, h5, h6, h7⟩ :=
          addMemberOuterLoop_spec st1 new_av hrefs1
            (st1.db.sessions.filter (fun s =>
              s.is_group_session == true && s.status == SessionStatus.RUNNING &&
                s.avatar_group_id == some g.id)) st1 0 hids1 rfl
        have hd2 : (st.db.avatar_group_members.find? (fun m =>
            m.group_id == g.id && m.avatar_id == mid)).isSome = false := by
          simpa using hdup
        refine ⟨news, ?_, ?_, ?_⟩
        · simp only [handle_add_member_to_group, hsne, if_false, eq_self_iff_true,
            if_true, hg, hav, hd2, Bool.false_eq_true, ← hst1, h1]
          rw [h2]
        · intro c hc
          obtain ⟨p, hp, hfacts⟩ := h3 c hc
          have hpm := List.mem_of_mem_filter hp
          have hpp := List.of_mem_filter hp
          simp only [Bool.and_eq_true, beq_iff_eq] at hpp
          exact ⟨p, hpm, hpp.1.1, hpp.1.2, hfacts⟩
        · intro c hc
          exact h4 c hc

/-- The ic branch's count loop either succeeds or raises with the state it
was given: it never mutates anything. -/
theorem addMemberICCountLoop_state (st : St) :
    ∀ (l : List SessionRec) (n : Nat),
      (∃ k, addMemberICCountLoop st l n = .ok k) ∨
        (∃ e, addMemberICCountLoop st l n = .error (st, e))
  | [], n => Or.inl ⟨n, rfl⟩
  | p :: ps, n => by
    rw [addMemberICCountLoop]
    cases hj : p.avatar_group_id.bind
        (fun gid => st.db.avatar_groups.find? (fun g => g.id == gid)) with
    | none => exact Or.inr ⟨_, rfl⟩
    | some ag => exact addMemberICCountLoop_state st ps _

/-- The ic branch of `add_member_to_group` never touches the session
table. -/
theorem add_member_ic_sessions_unchanged (st : St) (gn : String) (mid : Nat) :
    (handle_add_member_to_group st "ic" gn mid).1.db.sessions = st.db.sessions := by
  cases hg : st.db.ic_groups.find? (fun g => g.name == gn) with
  | none => simp [handle_add_member_to_group, hg]
  | some g =>
    cases hic : st.db.ics.find? (fun ic => ic.id == mid) with
    | none => simp [handle_add_member_to_group, hg, hic]
    | some ic =>
      by_cases hdup : (st.db.ic_group_members.find? (fun m =>
          m.group_id == g.id && m.ic_id == mid)).isSome = true
      · simp [handle_add_member_to_group, hg, hic, hdup]
      · have hd2 : (st.db.ic_group_members.find? (fun m =>
            m.group_id == g.id && m.ic_id == mid)).isSome = false := by
          simpa using hdup
        set st1 : St := { st with db := { st.db with
          ic_group_members := st.db.ic_group_members ++
            [{ group_id := g.id, ic_id := mid }] } } with hst1
        rcases addMemberICCountLoop_state st1
            (st1.db.sessions.filter (fun s =>
              s.is_group_session == true && s.status == SessionStatus.RUNNING &&
                s.ic_group_id == some g.id)) 0 with ⟨k, hk⟩ | ⟨e, hk⟩ <;>
          (simp only [handle_add_member_to_group, hg, hic, hd2, Bool.false_eq_true,
            if_false, eq_self_iff_true, if_true, ← hst1, hk]
           try rfl)

/-- The request branch of `add_member_to_group` never touches the session
table. -/
theorem add_member_request_sessions_unchanged (st : St) (gn : String) (mid : Nat) :
    (handle_add_member_to_group st "request" gn mid).1.db.sessions
      = st.db.sessions := by
  cases hg : st.db.request_groups.find? (fun g => g.name == gn) with
  | none => simp [handle_add_member_to_group, hg]
  | some g =>
    cases hrq : st.db.requests.find? (fun rq => rq.id == mid) with
    | none => simp [handle_add_member_to_group, hg, hrq]
    | some rq =>
      by_cases hdup : (st.db.request_group_members.find? (fun m =>
          m.group_id == g.id && m.request_id == mid)).isSome = true
      · simp [handle_add_member_to_group, hg, hrq, hdup]
      · have hd2 : (st.db.request_group_members.find? (fun m =>
            m.group_id == g.id && m.request_id == mid)).isSome = false := by
          simpa using hdup
        simp [handle_add_member_to_group, hg, hrq, hd2]

/-- `add_member_to_group` for any group type, specified as the avatar
branch: the pre-existing sessions are untouched and the appended tail holds
only retroactive leaves of stored RUNNING group parents, with fresh ids
(the ic, request and unknown branches append nothing). -/
theorem handle_add_member_shape (st : St) (gt gn : String) (mid : Nat)
    (hwf : Wf st) (hrefs : RefsOk st) :
    ∃ tail,
      (handle_add_member_to_group st gt gn mid).1.db.sessions
          = st.db.sessions ++ tail ∧
      (∀ c ∈ tail, ∃ p ∈ st.db.sessions,
        p.is_group_session = true ∧ p.status = SessionStatus.RUNNING ∧
        AddMemberLeafFacts p c) ∧
      (∀ c ∈ tail, st.db.next_session_id ≤ c.id) := by
  by_cases hgt1 : gt = "ic"
  · subst hgt1
    exact ⟨[], by simp [add_member_ic_sessions_unchanged], by simp, by simp⟩
  · by_cases hgt2 : gt = "avatar"
    · subst hgt2
      exact handle_add_member_avatar_shape st gn mid hwf hrefs
    · by_cases hgt3 : gt = "request"
      · subst hgt3
        exact ⟨[], by simp [add_member_request_sessions_unchanged], by simp, by simp⟩
      · refine ⟨[], ?_, by simp, by simp⟩
        simp [handle_add_member_to_group, hgt1, hgt2, hgt3]

/-- Rows of a session table with primary-key uniqueness are determined by
their id. -/
theorem session_eq_of_id (st : St) (hnd : (st.db.sessions.map (fun s => s.id)).Nodup)
    {a b : SessionRec} (ha : a ∈ st.db.sessions) (hb : b ∈ st.db.sessions)
    (hid : a.id = b.id) : a = b :=
  List.inj_on_of_nodup_map hnd ha hb hid

/-- `start_group` only appends sessions: each appended row is either the
GROUP_IC parent (unparented) or an IC_SESSION leaf pointing at that parent
and inheriting its timing. -/
theorem handle_start_group_extend (st : St) (ag ig : Option String) (d : Option Nat)
    (hwf : Wf st) (hrefs : RefsOk st) :
    ∃ tail,
      (handle_start_group st ag ig d).1.db.sessions = st.db.sessions ++ tail ∧
      ∀ c ∈ tail,
        (c.is_group_session = true ∧ c.session_type = SessionType.GROUP_IC_SESSION ∧
          c.parent_session_id = none) ∨
        (c.is_group_session = false ∧ c.session_type = SessionType.IC_SESSION ∧
          ∃ p ∈ tail, some p.id = c.parent_session_id ∧ p.is_group_session = true ∧
            p.session_type = SessionType.GROUP_IC_SESSION ∧
            c.start_time = p.start_time ∧ c.end_time = p.end_time) := by
  cases hfA : st.db.avatar_groups.find? (fun g => some g.name == ag) with
  | none =>
    refine ⟨[], ?_, by simp⟩
    simp [handle_start_group, hfA]
  | some gA =>
    cases hfI : st.db.ic_groups.find? (fun g => some g.name == ig) with
    | none =>
      refine ⟨[], ?_, by simp⟩
      simp [handle_start_group, hfA, hfI]
    | some gI =>
      by_cases hemp : (st.db.avatar_group_members.filter
            (fun m => m.group_id == gA.id)).isEmpty
          ∨ (st.db.ic_group_members.filter (fun m => m.group_id == gI.id)).isEmpty
      · refine ⟨[], ?_, by simp⟩
        rw [handle_start_group_empty st ag ig d gA gI hfA hfI hemp]
        simp
      · obtain ⟨parent, news, h1, h2, h3, h4, h5, h6, h7, h8, h9, h10⟩ :=
          handle_start_group_shape st ag ig d gA gI hwf hrefs hfA hfI hemp
        refine ⟨parent :: news, h1, ?_⟩
        intro c hc
        rcases List.mem_cons.mp hc with rfl | hc2
        · exact Or.inl ⟨h4, h5, h9⟩
        · obtain ⟨x, hx, hq⟩ := forall₂_mem_right h10 c hc2
          obtain ⟨⟨q1, q2, q3, q4, q5, q6, q7⟩, q8⟩ := hq
          exact Or.inr ⟨q5, q4, parent, List.mem_cons_self _ _, by rw [q3], h4, h5, q6, q7⟩

/-- C10: every leaf created under a GROUP_IC_SESSION parent — by
`start_group` or by the group-to-group case of `add_member_to_group` — has
kind IC_SESSION and is not a group session; no created session other than
the parent row itself carries the GROUP_IC_SESSION kind. -/
theorem group_ic_children_are_plain_ic (st : St) (hwf : Wf st) (hrefs : RefsOk st) :
    (∀ (ag ig : Option String) (d : Option Nat) (c : SessionRec),
      c ∈ (handle_start_group st ag ig d).1.db.sessions →
      c ∉ st.db.sessions →
      ((∀ pid p, c.parent_session_id = some pid →
          p ∈ (handle_start_group st ag ig d).1.db.sessions → p.id = pid →
          p.session_type = SessionType.GROUP_IC_SESSION →
          c.session_type = SessionType.IC_SESSION ∧ c.is_group_session = false) ∧
        (c.session_type = SessionType.GROUP_IC_SESSION →
          c.is_group_session = true ∧ c.parent_session_id = none))) ∧
    (∀ (gt gn : String) (mid : Nat) (c : SessionRec),
      c ∈ (handle_add_member_to_group st gt gn mid).1.db.sessions →
      c ∉ st.db.sessions →
      ((∀ pid p, c.parent_session_id = some pid →
          p ∈ (handle_add_member_to_group st gt gn mid).1.db.sessions → p.id = pid →
          p.session_type = SessionType.GROUP_IC_SESSION →
          c.session_type = SessionType.IC_SESSION ∧ c.is_group_session = false) ∧
        (c.session_type = SessionType.GROUP_IC_SESSION →
          c.is_group_session = true ∧ c.parent_session_id = none))) := by
  constructor
  · intro ag ig d c hc hnotold
    obtain ⟨tail, hsess, hfacts⟩ := handle_start_group_extend st ag ig d hwf hrefs
    rw [hsess] at hc
    rcases List.mem_append.mp hc with h | h
    · exact absurd h hnotold
    · rcases hfacts c h with ⟨hg1, hg2, hg3⟩ | ⟨hl1, hl2, -⟩
      · refine ⟨?_, fun _ => ⟨hg1, hg3⟩⟩
        intro pid p hpid
        rw [hg3] at hpid
        cases hpid
      · refine ⟨fun _ _ _ _ _ _ => ⟨hl2, hl1⟩, ?_⟩
        intro hcon
        rw [hl2] at hcon
        cases hcon
  · intro gt gn mid c hc hnotold
    obtain ⟨tail, hsess, hfacts, hfresh⟩ := handle_add_member_shape st gt gn mid hwf hrefs
    rw [hsess] at hc
    rcases List.mem_append.mp hc with h | h
    · exact absurd h hnotold
    · obtain ⟨pcap, hpcap, hpg, hpr, hf1, hf2, hf3, hf4, hf5, hf6, hf7⟩ := hfacts c h
      constructor
      · intro pid p hpid hp hpideq hptype
        rw [hf1] at hpid
        have hpidv : pid = pcap.id := by
          exact (Option.some.inj hpid).symm
        rw [hsess] at hp
        rcases List.mem_append.mp hp with hp2 | hp2
        · have : p = pcap := session_eq_of_id st hwf.2 hp2 hpcap (by rw [hpideq, hpidv])
          subst this
          exact ⟨hf6 hptype, hf2⟩
        · have hb1 := hfresh p hp2
          have hb2 := hwf.1.2.1 pcap hpcap
          omega
      · intro hcon
        exact absurd hcon hf5

/-- C10 witness fixture: a RUNNING group-to-group parent over avatar group
G = {1} and ic group H = {7}, plus avatar 2 to add. -/
def stC10 : St :=
  { db := { avatars := [{ id := 1, name := "A1", photo_data := [], info_data := "" },
                        { id := 2, name := "A2", photo_data := [], info_data := "" }],
            ics := [{ id := 7, name := "I7", wav_data := [] }],
            requests := [],
            avatar_groups := [{ id := 1, name := "G" }],
            avatar_group_members := [{ group_id := 1, avatar_id := 1 }],
            ic_groups := [{ id := 1, name := "H" }],
            ic_group_members := [{ group_id := 1, ic_id := 7 }],
            request_groups := [], request_group_members := [],
            sessions := [{ id := 1, is_group_session := true, description := "p",
                           avatar_group_id := some 1, ic_group_id := some 1,
                           session_type := .GROUP_IC_SESSION, start_time := 0,
                           status := .RUNNING }],
            next_session_id := 2 },
    avatar_cache := [], ic_cache := [], request_cache := [],
    active_workers := [], clock := 10, next_pid := 100 }

/-- The GROUP_IC parent row of `stC10`. -/
def c10parent : SessionRec :=
  { id := 1, is_group_session := true, description := "p",
    avatar_group_id := some 1, ic_group_id := some 1,
    session_type := .GROUP_IC_SESSION, start_time := 0, status := .RUNNING }

/-- The leaf `add_member_to_group` creates in `stC10` for avatar 2. -/
def c10leaf : SessionRec :=
  { id := 2, parent_session_id := some 1,
    description := "'A2' <=> 'I7' (from Group Session #1)",
    avatar_id := some 2, ic_id := some 7,
    session_type := .IC_SESSION, start_time := 0, status := .RUNNING,
    worker_pid := some 100 }

/-- C10 witness: the theorem applied to the retroactive leaf of `stC10`. -/
theorem group_ic_children_are_plain_ic_witness :
    c10leaf.session_type = SessionType.IC_SESSION ∧
    c10leaf.is_group_session = false :=
  ((group_ic_children_are_plain_ic stC10 (by decide) (by decide)).2 "avatar" "G" 2
    c10leaf (by decide) (by decide)).1 1 c10parent (by decide) (by decide)
    (by decide) (by decide)

/-- C4 counterexample fixture: avatar group G = {1, 2}, ic 7, empty session
table, clock at 10. -/
def stC4 : St :=
  { db := { avatars := [{ id := 1, name := "A1", photo_data := [], info_data := "" },
                        { id := 2, name := "A2", photo_data := [], info_data := "" }],
            ics := [{ id := 7, name := "I7", wav_data := [] }],
            requests := [],
            avatar_groups := [{ id := 1, name := "G" }],
            avatar_group_members := [{ group_id := 1, avatar_id := 1 },
                                     { group_id := 1, avatar_id := 2 }],
            ic_groups := [], ic_group_members := [],
            request_groups := [], request_group_members := [],
            sessions := [], next_session_id := 1 },
    avatar_cache := [], ic_cache := [], request_cache := [],
    active_workers := [], clock := 10, next_pid := 1 }

/-- C4 counterexample: `start_ic` over a two-avatar group makes parent 1
with start_time 10 and a child 2 whose start_time is 11, because each child
takes a fresh `utcnow()` instead of inheriting the parent's timing. -/
theorem start_ic_child_timing_differs :
    ((getSession (handle_start_ic stC4 none (some "G") 7 none).1 1).map
        (fun s => (s.is_group_session, s.start_time))) = some (true, 10) ∧
    ((getSession (handle_start_ic stC4 none (some "G") 7 none).1 2).map
        (fun s => (s.parent_session_id, s.start_time))) = some (some 1, 11) := by
  decide

/-- C4 (amended): timing is inherited by the leaves of `start_group` and by
the retroactive leaves of `add_member_to_group` — every such new
non-group-session row shares `start_time` and `end_time` with its parent
row — whereas children of `start_ic`, `start_request` and `start_link` take
their own fresh clock readings (see `start_ic_child_timing_differs`). -/
theorem leaf_timing_inherited (st : St) (hwf : Wf st) (hrefs : RefsOk st) :
    (∀ (ag ig : Option String) (d : Option Nat) (c : SessionRec),
      c ∈ (handle_start_group st ag ig d).1.db.sessions →
      c ∉ st.db.sessions → c.is_group_session = false →
      ∃ p ∈ (handle_start_group st ag ig d).1.db.sessions,
        some p.id = c.parent_session_id ∧ c.start_time = p.start_time ∧
        c.end_time = p.end_time) ∧
    (∀ (gt gn : String) (mid : Nat) (c : SessionRec),
      c ∈ (handle_add_member_to_group st gt gn mid).1.db.sessions →
      c ∉ st.db.sessions →
      ∃ p ∈ (handle_add_member_to_group st gt gn mid).1.db.sessions,
        some p.id = c.parent_session_id ∧ c.start_time = p.start_time ∧
        c.end_time = p.end_time) := by
  constructor
  · intro ag ig d c hc hnotold hng
    obtain ⟨tail, hsess, hfacts⟩ := handle_start_group_extend st ag ig d hwf hrefs
    rw [hsess] at hc
    rcases List.mem_append.mp hc with h | h
    · exact absurd h hnotold
    · rcases hfacts c h with ⟨hg1, -, -⟩ | ⟨-, -, p, hp, hpid, -, -, ht1, ht2⟩
      · rw [hng] at hg1
        cases hg1
      · refine ⟨p, ?_, hpid, ht1, ht2⟩
        rw [hsess]
        exact List.mem_append.mpr (Or.inr hp)
  · intro gt gn mid c hc hnotold
    obtain ⟨tail, hsess, hfacts, -⟩ := handle_add_member_shape st gt gn mid hwf hrefs
    rw [hsess] at hc
    rcases List.mem_append.mp hc with h | h
    · exact absurd h hnotold
    · obtain ⟨p, hp, -, -, hf1, -, hf3, hf4, -⟩ := hfacts c h
      refine ⟨p, ?_, hf1.symm, hf3, hf4⟩
      rw [hsess]
      exact List.mem_append.mpr (Or.inl hp)

/-- C4 witness: the amended theorem applied to the retroactive leaf of
`stC10`, whose timing matches its parent. -/
theorem leaf_timing_inherited_witness :
    ∃ p ∈ (handle_add_member_to_group stC10 "avatar" "G" 2).1.db.sessions,
      some p.id = c10leaf.parent_session_id ∧
      c10leaf.start_time = p.start_time ∧ c10leaf.end_time = p.end_time :=
  (leaf_timing_inherited stC10 (by decide) (by decide)).2 "avatar" "G" 2 c10leaf
    (by decide) (by decide)

/-- Number of `is_group_session` rows in the session table. -/
def groupCount (st : St) : Nat :=
  st.db.sessions.countP (fun s => s.is_group_session)

theorem truthyStr_some {s : Option String} {t : String} (h : truthyStr s = some t) :
    s = some t := by
  cases s with
  | none => cases h
  | some u =>
    by_cases hu : u = ""
    · simp [truthyStr, hu] at h
    · simp only [truthyStr, if_neg hu] at h
      exact h

/-- Every id the avatar resolver returns names an existing avatar row. -/
theorem getTargetAvatarIds_mem (st : St) (hrefs : RefsOk st) {aid : Option Nat}
    {ag : Option String} {ids : List Nat}
    (h : getTargetAvatarIds st.db aid ag = .ok ids) :
    ∀ x ∈ ids, ∃ a ∈ st.db.avatars, a.id = x := by
  unfold getTargetAvatarIds at h
  split at h
  · split at h
    · cases h
    · next av hfa =>
      injection h with h2
      subst h2
      intro x hx
      rcases List.mem_singleton.mp hx with rfl
      exact ⟨av, List.mem_of_find?_eq_some hfa, by simpa using List.find?_some hfa⟩
  · split at h
    · split at h
      · cases h
      · dsimp only at h
        split at h
        · cases h
        · injection h with h2
          subst h2
          intro x hx
          obtain ⟨m, hm, rfl⟩ := List.mem_map.mp hx
          exact hrefs.1 m (List.mem_of_mem_filter hm)
    · cases h

/-- Every id the request resolver returns names an existing request row. -/
theorem getTargetRequestIds_mem (st : St) (hrefs : RefsOk st) {rid : Option Nat}
    {rg : Option String} {ids : List Nat}
    (h : getTargetRequestIds st.db rid rg = .ok ids) :
    ∀ x ∈ ids, ∃ r ∈ st.db.requests, r.id = x := by
  unfold getTargetRequestIds at h
  split at h
  · split at h
    · cases h
    · next rq hfr =>
      injection h with h2
      subst h2
      intro x hx
      rcases List.mem_singleton.mp hx with rfl
      exact ⟨rq, List.mem_of_find?_eq_some hfr, by simpa using List.find?_some hfr⟩
  · split at h
    · split at h
      · cases h
      · dsimp only at h
        split at h
        · cases h
        · injection h with h2
          subst h2
          intro x hx
          obtain ⟨m, hm, rfl⟩ := List.mem_map.mp hx
          exact hrefs.2.2 m (List.mem_of_mem_filter hm)
    · cases h

/-- The avatar resolver never returns an empty list. -/
theorem getTargetAvatarIds_ne_nil (db : DB) {aid : Option Nat} {ag : Option String}
    {ids : List Nat} (h : getTargetAvatarIds db aid ag = .ok ids) : ids ≠ [] := by
  unfold getTargetAvatarIds at h
  split at h
  · split at h
    · cases h
    · injection h with h2
      subst h2
      simp
  · split at h
    · split at h
      · cases h
      · dsimp only at h
        split at h
        · cases h
        · next hne =>
          injection h with h2
          subst h2
          simpa [List.isEmpty_iff] using hne
    · cases h

/-- The request resolver never returns an empty list. -/
theorem getTargetRequestIds_ne_nil (db : DB) {rid : Option Nat} {rg : Option String}
    {ids : List Nat} (h : getTargetRequestIds db rid rg = .ok ids) : ids ≠ [] := by
  unfold getTargetRequestIds at h
  split at h
  · split at h
    · cases h
    · injection h with h2
      subst h2
      simp
  · split at h
    · split at h
      · cases h
      · dsimp only at h
        split at h
        · cases h
        · next hne =>
          injection h with h2
          subst h2
          simpa [List.isEmpty_iff] using hne
    · cases h

/-- A multi-valued avatar resolution can only have come from the group
path, so the group name is present and its row is found again by the
parent-creation lookup. -/
theorem getTargetAvatarIds_multi_group (db : DB) {aid : Option Nat} {ag : Option String}
    {ids : List Nat} (h : getTargetAvatarIds db aid ag = .ok ids)
    (hlen : 1 < ids.length) :
    ∃ gname g, ag = some gname ∧
      db.avatar_groups.find? (fun x => x.name == gname) = some g := by
  unfold getTargetAvatarIds at h
  split at h
  · split at h
    · cases h
    · injection h with h2
      subst h2
      simp at hlen
  · split at h
    · next gname heq =>
      split at h
      · cases h
      · next g hfg =>
        exact ⟨gname, g, truthyStr_some heq, hfg⟩
    · cases h

/-- A multi-valued request resolution can only have come from the group
path. -/
theorem getTargetRequestIds_multi_group (db : DB) {rid : Option Nat} {rg : Option String}
    {ids : List Nat} (h : getTargetRequestIds db rid rg = .ok ids)
    (hlen : 1 < ids.length) :
    ∃ gname g, rg = some gname ∧
      db.request_groups.find? (fun x => x.name == gname) = some g := by
  unfold getTargetRequestIds at h
  split at h
  · split at h
    · cases h
    · injection h with h2
      subst h2
      simp at hlen
  · split at h
    · next gname heq =>
      split at h
      · cases h
      · next g hfg =>
        exact ⟨gname, g, truthyStr_some heq, hfg⟩
    · cases h

/-- A batch of rows all flagged non-group contributes nothing to the group
count. -/
theorem countP_group_zero {news : List SessionRec}
    (h : ∀ c ∈ news, c.is_group_session = false) :
    news.countP (fun s => s.is_group_session) = 0 :=
  List.countP_eq_zero.mpr (by intro a ha; simp [h a ha])

/-- `start_ic`, specified: with targets resolved and the info-copy found,
the handler succeeds and the number of group-session rows grows by one
exactly when more than one avatar id resolved — a singleton group yields
no parent. -/
theorem start_ic_groupCount (st : St) (hwf : Wf st) (hrefs : RefsOk st)
    (aid : Option Nat) (ag : Option String) (icid : Nat) (dur : Option Nat)
    (ids : List Nat) (ic : InformationCopy)
    (hres : getTargetAvatarIds st.db aid ag = .ok ids)
    (hic : st.db.ics.find? (fun i => i.id == icid) = some ic) :
    ∃ st2 msg, handle_start_ic st aid ag icid dur = (st2, Resp.success msg) ∧
      groupCount st2 = groupCount st + (if 1 < ids.length then 1 else 0) := by
  by_cases hlen : 1 < ids.length
  · obtain ⟨gname, g, hag, hfg⟩ := getTargetAvatarIds_multi_group st.db hres hlen
    subst hag
    obtain ⟨c, hstT⟩ := mkStartEndTimes_state st dur
    set t := mkStartEndTimes st dur with ht
    set parentRec : SessionRec :=
      { is_group_session := true,
        description := "IC " ++ squote ic.name ++ " on Avatar Group " ++ squote g.name,
        avatar_group_id := some g.id, ic_id := some ic.id,
        session_type := .IC_SESSION,
        start_time := t.1, end_time := t.2.1,
        status := .RUNNING } with hparentRec
    have hpushent : (pushSession t.2.2 parentRec).1.db.ent = st.db.ent := by
      rw [hstT]
      simp [pushSession, DB.ent]
    have hpushsess : (pushSession t.2.2 parentRec).1.db.sessions
        = st.db.sessions ++ [{ parentRec with id := st.db.next_session_id }] := by
      rw [hstT]
      simp [pushSession]
    have hidsT : IdsOk t.2.2 := by
      rw [hstT]
      exact idsOk_congr rfl rfl hwf.1
    have hids2 : IdsOk (pushSession t.2.2 parentRec).1 := pushSession_idsOk hidsT
    have hloop :=
      spawnChildrenLoop_spec st
        (startICChildMk ic (some (pushSession t.2.2 parentRec).2) dur)
        (fun _ => false) (fun _ r => r.is_group_session = false)
        (by intro x r h i stt pid; simpa using h)
        ids (pushSession t.2.2 parentRec).1 0 hids2 hpushent
        (by intro st' x _ hsk; cases hsk)
        ?hmk
    case hmk =>
      intro st' x hx hent _
      have hav : ∃ a ∈ st'.db.avatars, (fun av => av.id == x) a = true := by
        obtain ⟨a, ha, hid⟩ := getTargetAvatarIds_mem st hrefs hres x hx
        refine ⟨a, ?_, by simp [hid]⟩
        rw [ent_avatars hent]
        exact ha
      obtain ⟨av, hfav, hpav⟩ := find?_of_exists hav
      obtain ⟨c2, hstT2⟩ := mkStartEndTimes_state st' dur
      refine ⟨{ parent_session_id := some (pushSession t.2.2 parentRec).2,
                avatar_id := some x, ic_id := some ic.id,
                description := squote av.name ++ " <=> " ++ squote ic.name ++
                  (" (from Group Op #" ++
                    Nat.repr (pushSession t.2.2 parentRec).2 ++ ")"),
                session_type := .IC_SESSION,
                start_time := (mkStartEndTimes st' dur).1,
                end_time := (mkStartEndTimes st' dur).2.1 },
              (mkStartEndTimes st' dur).2.2, ?_, rfl, ?_, ?_⟩
      · simp only [startICChildMk, hfav]
      · rw [hstT2]
      · rw [hstT2]
    obtain ⟨stf, news, h1, h2, h3, h4, h5, h6, h7⟩ := hloop
    have hng : ∀ cc ∈ news, cc.is_group_session = false := by
      intro cc hcc
      obtain ⟨x, hx, hq⟩ := forall₂_mem_right h3 cc hcc
      exact hq.1
    refine ⟨stf, "Started " ++ Nat.repr (0 + news.length) ++ " session(s).", ?_, ?_⟩
    · simp only [handle_start_ic, hres, hic, if_pos hlen, hfg, h1]
    · rw [if_pos hlen]
      unfold groupCount
      rw [h2, hpushsess, List.countP_append, List.countP_append,
        countP_group_zero hng, hparentRec]
      simp [List.countP_cons]
  · have hloop :=
      spawnChildrenLoop_spec st (startICChildMk ic none dur)
        (fun _ => false) (fun _ r => r.is_group_session = false)
        (by intro x r h i stt pid; simpa using h)
        ids st 0 hwf.1 rfl
        (by intro st' x _ hsk; cases hsk)
        ?hmk2
    case hmk2 =>
      intro st' x hx hent _
      have hav : ∃ a ∈ st'.db.avatars, (fun av => av.id == x) a = true := by
        obtain ⟨a, ha, hid⟩ := getTargetAvatarIds_mem st hrefs hres x hx
        refine ⟨a, ?_, by simp [hid]⟩
        rw [ent_avatars hent]
        exact ha
      obtain ⟨av, hfav, hpav⟩ := find?_of_exists hav
      obtain ⟨c2, hstT2⟩ := mkStartEndTimes_state st' dur
      refine ⟨{ parent_session_id := none,
                avatar_id := some x, ic_id := some ic.id,
                description := squote av.name ++ " <=> " ++ squote ic.name ++ "",
                session_type := .IC_SESSION,
                start_time := (mkStartEndTimes st' dur).1,
                end_time := (mkStartEndTimes st' dur).2.1 },
              (mkStartEndTimes st' dur).2.2, ?_, rfl, ?_, ?_⟩
      · simp only [startICChildMk, hfav]
      · rw [hstT2]
      · rw [hstT2]
    obtain ⟨stf, news, h1, h2, h3, h4, h5, h6, h7⟩ := hloop
    have hng : ∀ cc ∈ news, cc.is_group_session = false := by
      intro cc hcc
      obtain ⟨x, hx, hq⟩ := forall₂_mem_right h3 cc hcc
      exact hq.1
    refine ⟨stf, "Started " ++ Nat.repr (0 + news.length) ++ " session(s).", ?_, ?_⟩
    · simp only [handle_start_ic, hres, hic, if_neg hlen, h1]
    · rw [if_neg hlen]
      unfold groupCount
      rw [h2, List.countP_append, countP_group_zero hng]

/-- `start_link`, specified: with destinations resolved and the source
avatar found, the handler succeeds and the number of group-session rows
grows by one exactly when more than one destination id resolved. -/
theorem start_link_groupCount (st : St) (hwf : Wf st) (hrefs : RefsOk st)
    (source_id : Nat) (dest_id : Option Nat) (dest_group : Option String)
    (dur : Option Nat) (ids : List Nat) (source_avatar : Avatar)
    (hres : getTargetAvatarIds st.db dest_id dest_group = .ok ids)
    (hsrc : st.db.avatars.find? (fun a => a.id == source_id) = some source_avatar) :
    ∃ st2 msg, handle_start_link st source_id dest_id dest_group dur
        = (st2, Resp.success msg) ∧
      groupCount st2 = groupCount st + (if 1 < ids.length then 1 else 0) := by
  by_cases hlen : 1 < ids.length
  · obtain ⟨gname, g, hag, hfg⟩ := getTargetAvatarIds_multi_group st.db hres hlen
    subst hag
    obtain ⟨c, hstT⟩ := mkStartEndTimes_state st dur
    set t := mkStartEndTimes st dur with ht
    set parentRec : SessionRec :=
      { is_group_session := true,
        description := "Link from " ++ squote source_avatar.name ++
          " to Avatar Group " ++ squote g.name,
        avatar_id := some source_id, avatar_group_id := some g.id,
        session_type := .AVATAR_LINK,
        start_time := t.1, end_time := t.2.1,
        status := .RUNNING } with hparentRec
    have hpushent : (pushSession t.2.2 parentRec).1.db.ent = st.db.ent := by
      rw [hstT]
      simp [pushSession, DB.ent]
    have hpushsess : (pushSession t.2.2 parentRec).1.db.sessions
        = st.db.sessions ++ [{ parentRec with id := st.db.next_session_id }] := by
      rw [hstT]
      simp [pushSession]
    have hidsT : IdsOk t.2.2 := by
      rw [hstT]
      exact idsOk_congr rfl rfl hwf.1
    have hids2 : IdsOk (pushSession t.2.2 parentRec).1 := pushSession_idsOk hidsT
    have hloop :=
      spawnChildrenLoop_spec st
        (startLinkChildMk source_avatar (some (pushSession t.2.2 parentRec).2) dur)
        (fun d => source_avatar.id == d) (fun _ r => r.is_group_session = false)
        (by intro x r h i stt pid; simpa using h)
        ids (pushSession t.2.2 parentRec).1 0 hids2 hpushent
        (by intro st' x _ hsk
            have hsk2 : (source_avatar.id == x) = true := hsk
            simp [startLinkChildMk, hsk2])
        ?hmkl
    case hmkl =>
      intro st' x hx hent hskf
      have hskf2 : (source_avatar.id == x) = false := hskf
      have hav : ∃ a ∈ st'.db.avatars, (fun av => av.id == x) a = true := by
        obtain ⟨a, ha, hid⟩ := getTargetAvatarIds_mem st hrefs hres x hx
        refine ⟨a, ?_, by simp [hid]⟩
        rw [ent_avatars hent]
        exact ha
      obtain ⟨av, hfav, hpav⟩ := find?_of_exists hav
      obtain ⟨c2, hstT2⟩ := mkStartEndTimes_state st' dur
      refine ⟨{ parent_session_id := some (pushSession t.2.2 parentRec).2,
                avatar_id := some source_avatar.id,
                destination_avatar_id := some x,
                description := "Link: " ++ squote source_avatar.name ++ " -> " ++
                  squote av.name ++
                  (" (from Group Op #" ++
                    Nat.repr (pushSession t.2.2 parentRec).2 ++ ")"),
                session_type := .AVATAR_LINK,
                start_time := (mkStartEndTimes st' dur).1,
                end_time := (mkStartEndTimes st' dur).2.1 },
              (mkStartEndTimes st' dur).2.2, ?_, rfl, ?_, ?_⟩
      · simp only [startLinkChildMk, hskf2, Bool.false_eq_true, if_false, hfav]
      · rw [hstT2]
      · rw [hstT2]
    obtain ⟨stf, news, h1, h2, h3, h4, h5, h6, h7⟩ := hloop
    have hng : ∀ cc ∈ news, cc.is_group_session = false := by
      intro cc hcc
      obtain ⟨x, hx, hq⟩ := forall₂_mem_right h3 cc hcc
      exact hq.1
    refine ⟨stf, "Started " ++ Nat.repr (0 + news.length) ++ " link session(s).",
      ?_, ?_⟩
    · simp only [handle_start_link, hres, hsrc, if_pos hlen, hfg, h1]
    · rw [if_pos hlen]
      unfold groupCount
      rw [h2, hpushsess, List.countP_append, List.countP_append,
        countP_group_zero hng, hparentRec]
      simp [List.countP_cons]
  · have hloop :=
      spawnChildrenLoop_spec st (startLinkChildMk source_avatar none dur)
        (fun d => source_avatar.id == d) (fun _ r => r.is_group_session = false)
        (by intro x r h i stt pid; simpa using h)
        ids st 0 hwf.1 rfl
        (by intro st' x _ hsk
            have hsk2 : (source_avatar.id == x) = true := hsk
            simp [startLinkChildMk, hsk2])
        ?hmkl2
    case hmkl2 =>
      intro st' x hx hent hskf
      have hskf2 : (source_avatar.id == x) = false := hskf
      have hav : ∃ a ∈ st'.db.avatars, (fun av => av.id == x) a = true := by
        obtain ⟨a, ha, hid⟩ := getTargetAvatarIds_mem st hrefs hres x hx
        refine ⟨a, ?_, by simp [hid]⟩
        rw [ent_avatars hent]
        exact ha
      obtain ⟨av, hfav, hpav⟩ := find?_of_exists hav
      obtain ⟨c2, hstT2⟩ := mkStartEndTimes_state st' dur
      refine ⟨{ parent_session_id := none,
                avatar_id := some source_avatar.id,
                destination_avatar_id := some x,
                description := "Link: " ++ squote source_avatar.name ++ " -> " ++
                  squote av.name ++ "",
                session_type := .AVATAR_LINK,
                start_time := (mkStartEndTimes st' dur).1,
                end_time := (mkStartEndTimes st' dur).2.1 },
              (mkStartEndTimes st' dur).2.2, ?_, rfl, ?_, ?_⟩
      · simp only [startLinkChildMk, hskf2, Bool.false_eq_true, if_false, hfav]
      · rw [hstT2]
      · rw [hstT2]
    obtain ⟨stf, news, h1, h2, h3, h4, h5, h6, h7⟩ := hloop
    have hng : ∀ cc ∈ news, cc.is_group_session = false := by
      intro cc hcc
      obtain ⟨x, hx, hq⟩ := forall₂_mem_right h3 cc hcc
      exact hq.1
    refine ⟨stf, "Started " ++ Nat.repr (0 + news.length) ++ " link session(s).",
      ?_, ?_⟩
    · simp only [handle_start_link, hres, hsrc, if_neg hlen, h1]
    · rw [if_neg hlen]
      unfold groupCount
      rw [h2, List.countP_append, countP_group_zero hng]

/-- The avatar-by-request child loop of `start_request`, specified: it
succeeds, appends only non-group leaves, one per pair. -/
theorem startRequestLoop_spec (st0 : St) (hrefs : RefsOk st0)
    {aid rid : Option Nat} {ag rg : Option String} {idsA idsR : List Nat}
    (hresA : getTargetAvatarIds st0.db aid ag = .ok idsA)
    (hresR : getTargetRequestIds st0.db rid rg = .ok idsR)
    (parentId : Option Nat) (dur : Option Nat)
    (st : St) (hids : IdsOk st) (hent : st.db.ent = st0.db.ent) :
    ∃ stf news,
      spawnChildrenLoop (startRequestChildMk parentId dur) st
          (idsA.flatMap (fun a => idsR.map (fun r => (a, r)))) 0
        = .ok (stf, 0 + news.length) ∧
      stf.db.sessions = st.db.sessions ++ news ∧
      (∀ cc ∈ news, cc.is_group_session = false) := by
  have hloop := spawnChildrenLoop_spec st0 (startRequestChildMk parentId dur)
      (fun _ => false) (fun _ r => r.is_group_session = false)
      (by intro x r h i stt pid; simpa using h)
      (idsA.flatMap (fun a => idsR.map (fun r => (a, r)))) st 0 hids hent
      (by intro st' x _ hsk; cases hsk) ?hmk
  case hmk =>
    intro st' x hx hent2 _
    have hx2 := mem_pairs hx
    have hav : ∃ a ∈ st'.db.avatars, (fun av => av.id == x.1) a = true := by
      obtain ⟨a, ha, hid⟩ := getTargetAvatarIds_mem st0 hrefs hresA x.1 hx2.1
      refine ⟨a, ?_, by simp [hid]⟩
      rw [ent_avatars hent2]
      exact ha
    have hrq : ∃ r ∈ st'.db.requests, (fun rq => rq.id == x.2) r = true := by
      obtain ⟨r, hr, hid⟩ := getTargetRequestIds_mem st0 hrefs hresR x.2 hx2.2
      refine ⟨r, ?_, by simp [hid]⟩
      rw [ent_requests hent2]
      exact hr
    obtain ⟨av, hfav, hpav⟩ := find?_of_exists hav
    obtain ⟨rq, hfrq, hprq⟩ := find?_of_exists hrq
    obtain ⟨c2, hstT2⟩ := mkStartEndTimes_state st' dur
    refine ⟨{ parent_session_id := parentId,
              avatar_id := some x.1, request_id := some x.2,
              description := squote av.name ++ " <=> " ++ squote rq.name ++
                (match parentId with
                 | some pid => " (from Group Op #" ++ Nat.repr pid ++ ")"
                 | none => ""),
              session_type := .REQUEST_SESSION,
              start_time := (mkStartEndTimes st' dur).1,
              end_time := (mkStartEndTimes st' dur).2.1 },
            (mkStartEndTimes st' dur).2.2, ?_, rfl, ?_, ?_⟩
    · simp only [startRequestChildMk, hfav, hfrq]
    · rw [hstT2]
    · rw [hstT2]
  obtain ⟨stf, news, h1, h2, h3, h4, h5, h6, h7⟩ := hloop
  refine ⟨stf, news, h1, h2, ?_⟩
  intro cc hcc
  obtain ⟨x, hx, hq⟩ := forall₂_mem_right h3 cc hcc
  exact hq.1

/-- `start_request`, specified: with both sides resolved, the handler
succeeds and the number of group-session rows grows by one exactly when
either side resolved to more than one id — singleton groups on both sides
yield no parent. -/
theorem start_request_groupCount (st : St) (hwf : Wf st) (hrefs : RefsOk st)
    (aid : Option Nat) (ag : Option String) (rid : Option Nat) (rg : Option String)
    (dur : Option Nat) (idsA idsR : List Nat)
    (hresA : getTargetAvatarIds st.db aid ag = .ok idsA)
    (hresR : getTargetRequestIds st.db rid rg = .ok idsR) :
    ∃ st2 msg, handle_start_request st aid ag rid rg dur = (st2, Resp.success msg) ∧
      groupCount st2 = groupCount st +
        (if 1 < idsA.length ∨ 1 < idsR.length then 1 else 0) := by
  obtain ⟨c, hstT⟩ := mkStartEndTimes_state st dur
  set t := mkStartEndTimes st dur with ht
  by_cases hA : 1 < idsA.length
  · obtain ⟨agname, gA, hag, hfgA⟩ := getTargetAvatarIds_multi_group st.db hresA hA
    subst hag
    by_cases hR : 1 < idsR.length
    · obtain ⟨rgname, gR, hrg, hfgR⟩ := getTargetRequestIds_multi_group st.db hresR hR
      subst hrg
      set parentRec : SessionRec :=
        { is_group_session := true,
          description := "Request Group " ++ squote gR.name ++ " on Avatar Group " ++
            squote gA.name,
          avatar_group_id := some gA.id, request_group_id := some gR.id,
          session_type := .REQUEST_SESSION,
          start_time := t.1, end_time := t.2.1,
          status := .RUNNING } with hparentRec
      have hpushent : (pushSession t.2.2 parentRec).1.db.ent = st.db.ent := by
        rw [hstT]
        simp [pushSession, DB.ent]
      have hpushsess : (pushSession t.2.2 parentRec).1.db.sessions
          = st.db.sessions ++ [{ parentRec with id := st.db.next_session_id }] := by
        rw [hstT]
        simp [pushSession]
      have hidsT : IdsOk t.2.2 := by
        rw [hstT]
        exact idsOk_congr rfl rfl hwf.1
      have hids2 : IdsOk (pushSession t.2.2 parentRec).1 := pushSession_idsOk hidsT
      obtain ⟨stf, news, h1, h2, hng⟩ := startRequestLoop_spec st hrefs hresA hresR
        (some (pushSession t.2.2 parentRec).2) dur
        (pushSession t.2.2 parentRec).1 hids2 hpushent
      refine ⟨stf, "Started " ++ Nat.repr (0 + news.length) ++ " request session(s).",
        ?_, ?_⟩
      · simp only [handle_start_request, hresA, hresR, if_pos (And.intro hA hR),
          hfgA, hfgR, h1]
      · rw [if_pos (Or.inl hA)]
        unfold groupCount
        rw [h2, hpushsess, List.countP_append, List.countP_append,
          countP_group_zero hng, hparentRec]
        simp [List.countP_cons]
    · have hnc1 : ¬ (1 < idsA.length ∧ 1 < idsR.length) := fun hc => hR hc.2
      have hRne := getTargetRequestIds_ne_nil st.db hresR
      have hheadR : idsR.headD 0 ∈ idsR := by
        cases idsR with
        | nil => exact absurd rfl hRne
        | cons a l => exact List.mem_cons_self _ _
      obtain ⟨r0, hr0, hr0id⟩ := getTargetRequestIds_mem st hrefs hresR _ hheadR
      obtain ⟨rq, hfrq, hprq⟩ := find?_of_exists
        (⟨r0, hr0, by simp [hr0id]⟩ :
          ∃ r ∈ st.db.requests, (fun x => x.id == idsR.headD 0) r = true)
      set parentRec : SessionRec :=
        { is_group_session := true,
          description := "Request " ++ squote rq.name ++ " on Avatar Group " ++
            squote gA.name,
          avatar_group_id := some gA.id, request_id := some rq.id,
          session_type := .REQUEST_SESSION,
          start_time := t.1, end_time := t.2.1,
          status := .RUNNING } with hparentRec
      have hpushent : (pushSession t.2.2 parentRec).1.db.ent = st.db.ent := by
        rw [hstT]
        simp [pushSession, DB.ent]
      have hpushsess : (pushSession t.2.2 parentRec).1.db.sessions
          = st.db.sessions ++ [{ parentRec with id := st.db.next_session_id }] := by
        rw [hstT]
        simp [pushSession]
      have hidsT : IdsOk t.2.2 := by
        rw [hstT]
        exact idsOk_congr rfl rfl hwf.1
      have hids2 : IdsOk (pushSession t.2.2 parentRec).1 := pushSession_idsOk hidsT
      obtain ⟨stf, news, h1, h2, hng⟩ := startRequestLoop_spec st hrefs hresA hresR
        (some (pushSession t.2.2 parentRec).2) dur
        (pushSession t.2.2 parentRec).1 hids2 hpushent
      refine ⟨stf, "Started " ++ Nat.repr (0 + news.length) ++ " request session(s).",
        ?_, ?_⟩
      · simp only [handle_start_request, hresA, hresR, if_neg hnc1, if_pos hA,
          hfgA, hfrq, h1]
      · rw [if_pos (Or.inl hA)]
        unfold groupCount
        rw [h2, hpushsess, List.countP_append, List.countP_append,
          countP_group_zero hng, hparentRec]
        simp [List.countP_cons]
  · by_cases hR : 1 < idsR.length
    · have hnc1 : ¬ (1 < idsA.length ∧ 1 < idsR.length) := fun hc => hA hc.1
      obtain ⟨rgname, gR, hrg, hfgR⟩ := getTargetRequestIds_multi_group st.db hresR hR
      subst hrg
      have hAne := getTargetAvatarIds_ne_nil st.db hresA
      have hheadA : idsA.headD 0 ∈ idsA := by
        cases idsA with
        | nil => exact absurd rfl hAne
        | cons a l => exact List.mem_cons_self _ _
      obtain ⟨a0, ha0, ha0id⟩ := getTargetAvatarIds_mem st hrefs hresA _ hheadA
      obtain ⟨av, hfav, hpav⟩ := find?_of_exists
        (⟨a0, ha0, by simp [ha0id]⟩ :
          ∃ a ∈ st.db.avatars, (fun x => x.id == idsA.headD 0) a = true)
      set parentRec : SessionRec :=
        { is_group_session := true,
          description := "Request Group " ++ squote gR.name ++ " on Avatar " ++
            squote av.name,
          request_group_id := some gR.id, avatar_id := some av.id,
          session_type := .REQUEST_SESSION,
          start_time := t.1, end_time := t.2.1,
          status := .RUNNING } with hparentRec
      have hpushent : (pushSession t.2.2 parentRec).1.db.ent = st.db.ent := by
        rw [hstT]
        simp [pushSession, DB.ent]
      have hpushsess : (pushSession t.2.2 parentRec).1.db.sessions
          = st.db.sessions ++ [{ parentRec with id := st.db.next_session_id }] := by
        rw [hstT]
        simp [pushSession]
      have hidsT : IdsOk t.2.2 := by
        rw [hstT]
        exact idsOk_congr rfl rfl hwf.1
      have hids2 : IdsOk (pushSession t.2.2 parentRec).1 := pushSession_idsOk hidsT
      obtain ⟨stf, news, h1, h2, hng⟩ := startRequestLoop_spec st hrefs hresA hresR
        (some (pushSession t.2.2 parentRec).2) dur
        (pushSession t.2.2 parentRec).1 hids2 hpushent
      refine ⟨stf, "Started " ++ Nat.repr (0 + news.length) ++ " request session(s).",
        ?_, ?_⟩
      · simp only [handle_start_request, hresA, hresR, if_neg hnc1, if_neg hA,
          if_pos hR, hfgR, hfav, h1]
      · rw [if_pos (Or.inr hR)]
        unfold groupCount
        rw [h2, hpushsess, List.countP_append, List.countP_append,
          countP_group_zero hng, hparentRec]
        simp [List.countP_cons]
    · have hnc1 : ¬ (1 < idsA.length ∧ 1 < idsR.length) := fun hc => hA hc.1
      have hnor : ¬ (1 < idsA.length ∨ 1 < idsR.length) := by
        intro hor
        cases hor with
        | inl h => exact hA h
        | inr h => exact hR h
      obtain ⟨stf, news, h1, h2, hng⟩ := startRequestLoop_spec st hrefs hresA hresR
        none dur st hwf.1 rfl
      refine ⟨stf, "Started " ++ Nat.repr (0 + news.length) ++ " request session(s).",
        ?_, ?_⟩
      · simp only [handle_start_request, hresA, hresR, if_neg hnc1, if_neg hA,
          if_neg hR, h1]
      · rw [if_neg hnor]
        unfold groupCount
        rw [h2, List.countP_append, countP_group_zero hng]

/-- C2 counterexample fixture: avatar group G = {1}, a single member. -/
def stC2 : St :=
  { db := { avatars := [{ id := 1, name := "A1", photo_data := [], info_data := "" }],
            ics := [{ id := 7, name := "I7", wav_data := [] }],
            requests := [],
            avatar_groups := [{ id := 1, name := "G" }],
            avatar_group_members := [{ group_id := 1, avatar_id := 1 }],
            ic_groups := [], ic_group_members := [],
            request_groups := [], request_group_members := [],
            sessions := [], next_session_id := 1 },
    avatar_cache := [], ic_cache := [], request_cache := [],
    active_workers := [], clock := 0, next_pid := 1 }

/-- C2 counterexample: `start_ic` with a group-valued argument naming a
one-member group succeeds but creates no `is_group_session` row, because
the parent is gated on more than one resolved target, not on the argument
being group-valued. -/
theorem start_ic_singleton_group_no_parent :
    (handle_start_ic stC2 none (some "G") 7 none).2
        = Resp.success "Started 1 session(s)." ∧
    groupCount (handle_start_ic stC2 none (some "G") 7 none).1 = 0 := by
  decide

/-- C2 (amended): for each start command the parent group-session row is
created if and only if the resolved target list is multi-valued, not
merely group-valued: `start_ic` and `start_link` add a group row exactly
when more than one avatar id resolved, `start_request` exactly when either
side resolved to more than one id.  A named group with exactly one member
resolves to a singleton list and so creates no parent. -/
theorem parent_created_iff_multi_target (st : St) (hwf : Wf st) (hrefs : RefsOk st) :
    (∀ aid ag icid dur ids ic,
      getTargetAvatarIds st.db aid ag = Except.ok ids →
      st.db.ics.find? (fun i => i.id == icid) = some ic →
      ∃ st2 msg, handle_start_ic st aid ag icid dur = (st2, Resp.success msg) ∧
        groupCount st2 = groupCount st + (if 1 < ids.length then 1 else 0)) ∧
    (∀ sid did dg dur ids sav,
      getTargetAvatarIds st.db did dg = Except.ok ids →
      st.db.avatars.find? (fun a => a.id == sid) = some sav →
      ∃ st2 msg, handle_start_link st sid did dg dur = (st2, Resp.success msg) ∧
        groupCount st2 = groupCount st + (if 1 < ids.length then 1 else 0)) ∧
    (∀ aid ag rid rg dur idsA idsR,
      getTargetAvatarIds st.db aid ag = Except.ok idsA →
      getTargetRequestIds st.db rid rg = Except.ok idsR →
      ∃ st2 msg, handle_start_request st aid ag rid rg dur = (st2, Resp.success msg) ∧
        groupCount st2 = groupCount st +
          (if 1 < idsA.length ∨ 1 < idsR.length then 1 else 0)) :=
  ⟨fun aid ag icid dur ids ic h1 h2 =>
      start_ic_groupCount st hwf hrefs aid ag icid dur ids ic h1 h2,
   fun sid did dg dur ids sav h1 h2 =>
      start_link_groupCount st hwf hrefs sid did dg dur ids sav h1 h2,
   fun aid ag rid rg dur idsA idsR h1 h2 =>
      start_request_groupCount st hwf hrefs aid ag rid rg dur idsA idsR h1 h2⟩

/-- C2 witness: the amended theorem applied to `stC2`, whose singleton
group resolves to the one-element list [1]. -/
theorem parent_created_iff_multi_target_witness :
    ∃ st2 msg, handle_start_ic stC2 none (some "G") 7 none
        = (st2, Resp.success msg) ∧
      groupCount st2 = groupCount stC2 + (if 1 < [1].length then 1 else 0) :=
  (parent_created_iff_multi_target stC2 (by decide) (by decide)).1 none (some "G") 7
    none [1] { id := 7, name := "I7", wav_data := [] } rfl (by decide)

/-- C9 (amended): `redo_failed` on a FAILED non-parent session creates one
new SCHEDULED-then-spawned copy with a fresh `start_time`, the old
`end_time`, the description prefixed with "[REDO] ", and the kind and the
reference fields copied — except `request_group_id`, which the copy
constructor omits and so is always NULL on the copy; the original is set
to RESTARTED.  A FAILED parent is set to RESTARTED with no new session. -/
theorem redo_failed_copies_all_but_request_group (st : St) (hwf : Wf st)
    (old : SessionRec)
    (hfilter : st.db.sessions.filter (fun s => s.status == SessionStatus.FAILED)
        = [old]) :
    (old.is_group_session = false →
      ∃ stf newRow msg,
        handle_redo_failed_sessions st = (stf, Resp.success msg) ∧
        stf.db.sessions
          = st.db.sessions.map (fun s => if s.id == old.id
              then { s with status := SessionStatus.RESTARTED } else s) ++ [newRow] ∧
        newRow.id = st.db.next_session_id ∧
        newRow.parent_session_id = old.parent_session_id ∧
        newRow.is_group_session = old.is_group_session ∧
        newRow.description = "[REDO] " ++ old.description ∧
        newRow.avatar_id = old.avatar_id ∧
        newRow.ic_id = old.ic_id ∧
        newRow.request_id = old.request_id ∧
        newRow.destination_avatar_id = old.destination_avatar_id ∧
        newRow.avatar_group_id = old.avatar_group_id ∧
        newRow.ic_group_id = old.ic_group_id ∧
        newRow.request_group_id = none ∧
        newRow.session_type = old.session_type ∧
        newRow.start_time = st.clock ∧
        newRow.end_time = old.end_time ∧
        (newRow.status = SessionStatus.RUNNING ∨
          newRow.status = SessionStatus.FAILED)) ∧
    (old.is_group_session = true →
      ∃ stf msg,
        handle_redo_failed_sessions st = (stf, Resp.success msg) ∧
        stf.db.sessions
          = st.db.sessions.map (fun s => if s.id == old.id
              then { s with status := SessionStatus.RESTARTED } else s)) := by
  have hold_mem : old ∈ st.db.sessions := by
    have hm : old ∈ st.db.sessions.filter (fun s => s.status == SessionStatus.FAILED) := by
      rw [hfilter]
      exact List.mem_singleton_self _
    exact List.mem_of_mem_filter hm
  have hget : getSession st old.id = some old := by
    obtain ⟨b, hfb, hpb⟩ := find?_of_exists
      (⟨old, hold_mem, by simp⟩ :
        ∃ a ∈ st.db.sessions, (fun s => s.id == old.id) a = true)
    have hb : b = old := session_eq_of_id st hwf.2 (List.mem_of_find?_eq_some hfb)
      hold_mem (by simpa using hpb)
    unfold getSession
    rw [hfb, hb]
  have hfailed : (st.db.sessions.filter
      (fun s => s.status == SessionStatus.FAILED)).map (fun s => s.id) = [old.id] := by
    rw [hfilter]
    rfl
  constructor
  · intro hng
    set N := st.db.next_session_id with hN
    set newRec : SessionRec :=
      { parent_session_id := old.parent_session_id,
        is_group_session := false,
        description := "[REDO] " ++ old.description,
        avatar_id := old.avatar_id,
        ic_id := old.ic_id,
        request_id := old.request_id,
        destination_avatar_id := old.destination_avatar_id,
        avatar_group_id := old.avatar_group_id,
        ic_group_id := old.ic_group_id,
        session_type := old.session_type,
        start_time := (utcnow st).1, end_time := old.end_time } with hnewRec
    have hpsess : (pushSession (utcnow st).2 newRec).1.db.sessions
        = st.db.sessions ++ [{ newRec with id := N }] := by
      simp [pushSession, utcnow]
    have hN0 : N ≠ 0 := by
      have := hwf.1.1
      omega
    have hl : ∀ s ∈ st.db.sessions, s.id ≠ N := by
      intro s hs
      have := hwf.1.2.1 s hs
      omega
    have hwk : ∀ w ∈ (pushSession (utcnow st).2 newRec).1.active_workers, w.1 ≠ N := by
      intro w hw
      have hw2 : w ∈ st.active_workers := hw
      have := hwf.1.2.2 w hw2
      omega
    have hp2 : (pushSession (utcnow st).2 newRec).2 = N := rfl
    obtain ⟨stt, pid, hstt, hsess2, hent2, hnext2, hclock2, hw2⟩ :=
      @spawnWorker_append_fresh (pushSession (utcnow st).2 newRec).1 st.db.sessions
        { newRec with id := N } N hpsess rfl hN0 hl hwk
    have hloop : redoLoop st [old.id] 0
        = (updateSession (spawnWorkerForSession (pushSession (utcnow st).2 newRec).1
            (pushSession (utcnow st).2 newRec).2) old.id
            (fun x => { x with status := SessionStatus.RESTARTED }), 1) := by
      rw [redoLoop, hget]
      simp only [hng, Bool.false_eq_true, if_false]
      rw [redoLoop]
    have hlt : old.id < N := hwf.1.2.1 old hold_mem
    have hcne : (N == old.id) = false := by
      simp only [beq_eq_false_iff_ne, ne_eq]
      omega
    refine ⟨updateSession (spawnWorkerForSession (pushSession (utcnow st).2 newRec).1
        (pushSession (utcnow st).2 newRec).2) old.id
        (fun x => { x with status := SessionStatus.RESTARTED }),
      { newRec with id := N, status := stt, worker_pid := pid },
      "Successfully restarted " ++ Nat.repr 1 ++ " failed session(s).",
      ?_, ?_, rfl, rfl, hng.symm, rfl, rfl, rfl, rfl, rfl, rfl, rfl, rfl, rfl, rfl, rfl,
      hstt⟩
    · simp only [handle_redo_failed_sessions, hfailed, List.isEmpty_cons,
        Bool.false_eq_true, if_false, hloop]
    · simp only [updateSession, hp2, hsess2, List.map_append, List.map_cons, List.map_nil]
      rw [hcne]
      simp only [Bool.false_eq_true, if_false]
  · intro hg
    have hloop : redoLoop st [old.id] 0
        = (updateSession st old.id
            (fun x => { x with status := SessionStatus.RESTARTED }), 0) := by
      rw [redoLoop, hget]
      simp only [hg, if_true]
      rw [redoLoop]
    refine ⟨updateSession st old.id
        (fun x => { x with status := SessionStatus.RESTARTED }),
      "Successfully restarted " ++ Nat.repr 0 ++ " failed session(s).", ?_, rfl⟩
    simp only [handle_redo_failed_sessions, hfailed, List.isEmpty_cons,
      Bool.false_eq_true, if_false, hloop]

/-- C9 counterexample fixture: one FAILED leaf bound to request group 5. -/
def c9old : SessionRec :=
  { id := 1, description := "d", request_id := some 2, request_group_id := some 5,
    session_type := .REQUEST_SESSION, start_time := 0, status := .FAILED }

/-- C9 counterexample state around `c9old`. -/
def stC9 : St :=
  { db := { avatars := [], ics := [], requests := [],
            avatar_groups := [], avatar_group_members := [],
            ic_groups := [], ic_group_members := [],
            request_groups := [], request_group_members := [],
            sessions := [c9old], next_session_id := 2 },
    avatar_cache := [], ic_cache := [], request_cache := [],
    active_workers := [], clock := 10, next_pid := 1 }

/-- C9 counterexample: redoing FAILED leaf 1, whose `request_group_id` is
5, yields copy 2 whose `request_group_id` is NULL — the copy constructor
lists every reference field except that one. -/
theorem redo_failed_drops_request_group :
    ((getSession (handle_redo_failed_sessions stC9).1 1).map
        (fun s => (s.status, s.request_group_id)))
      = some (SessionStatus.RESTARTED, some 5) ∧
    ((getSession (handle_redo_failed_sessions stC9).1 2).map
        (fun s => (s.request_group_id, s.description, s.start_time, s.end_time)))
      = some (none, "[REDO] d", 10, none) := by
  decide

/-- C9 witness: the amended theorem applied to `stC9` and its FAILED leaf. -/
theorem redo_failed_copies_all_but_request_group_witness :
    ∃ stf newRow msg,
      handle_redo_failed_sessions stC9 = (stf, Resp.success msg) ∧
      stf.db.sessions
        = stC9.db.sessions.map (fun s => if s.id == c9old.id
            then { s with status := SessionStatus.RESTARTED } else s) ++ [newRow] ∧
      newRow.id = stC9.db.next_session_id ∧
      newRow.parent_session_id = c9old.parent_session_id ∧
      newRow.is_group_session = c9old.is_group_session ∧
      newRow.description = "[REDO] " ++ c9old.description ∧
      newRow.avatar_id = c9old.avatar_id ∧
      newRow.ic_id = c9old.ic_id ∧
      newRow.request_id = c9old.request_id ∧
      newRow.destination_avatar_id = c9old.destination_avatar_id ∧
      newRow.avatar_group_id = c9old.avatar_group_id ∧
      newRow.ic_group_id = c9old.ic_group_id ∧
      newRow.request_group_id = none ∧
      newRow.session_type = c9old.session_type ∧
      newRow.start_time = stC9.clock ∧
      newRow.end_time = c9old.end_time ∧
      (newRow.status = SessionStatus.RUNNING ∨
        newRow.status = SessionStatus.FAILED) :=
  (redo_failed_copies_all_but_request_group stC9 (by decide) c9old (by decide)).1
    (by decide)

/-- The state carried by a spawn-loop result, on either the success or the
abort path. -/
def loopState : Except (St × String) (St × Nat) → St
  | .ok p => p.1
  | .error p => p.1

theorem getSession_some_mem {st : St} {sid : Nat} {s : SessionRec}
    (hg : getSession st sid = some s) : s ∈ st.db.sessions ∧ s.id = sid := by
  unfold getSession at hg
  exact ⟨List.mem_of_find?_eq_some hg, by simpa using List.find?_some hg⟩

/-- A conditional in-place rewrite that keeps ids commutes with the lookup
by id. -/
theorem find?_map_pred (l : List SessionRec) (p : SessionRec → Bool)
    (f : SessionRec → SessionRec) (hf : ∀ s, (f s).id = s.id) (sid : Nat) :
    (l.map (fun s => if p s then f s else s)).find? (fun s => s.id == sid)
      = (l.find? (fun s => s.id == sid)).map (fun s => if p s then f s else s) := by
  induction l with
  | nil => simp
  | cons a l ih =>
    simp only [List.map_cons]
    have hida : (if p a then f a else a).id = a.id := by
      by_cases hps : p a <;> simp [hps, hf]
    by_cases has : a.id = sid
    · rw [List.find?_cons_of_pos _ (by simp [hida, has]),
        List.find?_cons_of_pos _ (by simp [has])]
      simp
    · rw [List.find?_cons_of_neg _ (by simp [hida, has]),
        List.find?_cons_of_neg _ (by simp [has])]
      exact ih

/-- The lookup by id through a conditional id-preserving rewrite of the
session table. -/
theorem getSession_map_pred (u w : St) (p : SessionRec → Bool)
    (f : SessionRec → SessionRec)
    (hs : u.db.sessions = w.db.sessions.map (fun s => if p s then f s else s))
    (hf : ∀ s, (f s).id = s.id) (sid : Nat) :
    getSession u sid = (getSession w sid).map (fun s => if p s then f s else s) := by
  unfold getSession
  rw [hs, find?_map_pred _ _ _ hf]

/-- Whatever path the create-then-spawn loop takes, a pre-existing session
row is untouched, because every push gets a fresh id and every spawn
targets one. -/
theorem spawnChildrenLoop_stable_gen {α : Type}
    (mk : St → α → Except String (Option (SessionRec × St)))
    (hmk : ∀ st' x r st1, mk st' x = .ok (some (r, st1)) →
      st1.db = st'.db ∧ st1.active_workers = st'.active_workers) :
    ∀ (xs : List α) (st : St) (n : Nat) {sid : Nat} {s : SessionRec},
      IdsOk st → getSession st sid = some s →
      getSession (loopState (spawnChildrenLoop mk st xs n)) sid = some s
  | [], st, n, sid, s, hids, hg => hg
  | x :: xs, st, n, sid, s, hids, hg => by
    rw [spawnChildrenLoop]
    cases hmx : mk st x with
    | error e => exact hg
    | ok o =>
      cases o with
      | none => exact spawnChildrenLoop_stable_gen mk hmk xs st n hids hg
      | some q =>
        obtain ⟨r, st1⟩ := q
        obtain ⟨hdb, hwk⟩ := hmk st x r st1 hmx
        have hids1 : IdsOk st1 := idsOk_congr hdb hwk hids
        have hpsess : (pushSession st1 r).1.db.sessions
            = st.db.sessions ++ [{ r with id := st1.db.next_session_id }] := by
          rw [pushSession]
          simp [hdb]
        have hg1 : getSession (pushSession st1 r).1 sid = some s :=
          getSession_append hpsess hg
        have hlt : sid < st1.db.next_session_id := by
          obtain ⟨hm, hid⟩ := getSession_some_mem hg
          rw [hdb]
          rw [← hid]
          exact hids.2.1 s hm
        have hne : sid ≠ (pushSession st1 r).2 := by
          have : (pushSession st1 r).2 = st1.db.next_session_id := rfl
          omega
        have hg2 : getSession (spawnWorkerForSession (pushSession st1 r).1
            (pushSession st1 r).2) sid = some s := by
          rw [spawnWorker_getSession_ne _ _ _ hne]
          exact hg1
        have hids2 : IdsOk (spawnWorkerForSession (pushSession st1 r).1
            (pushSession st1 r).2) :=
          spawnWorker_idsOk (pushSession_idsOk hids1)
        exact spawnChildrenLoop_stable_gen mk hmk xs _ (n + 1) hids2 hg2

theorem startICChildMk_frame (ic : InformationCopy) (pid : Option Nat)
    (dur : Option Nat) :
    ∀ st' x r st1, startICChildMk ic pid dur st' x = .ok (some (r, st1)) →
      st1.db = st'.db ∧ st1.active_workers = st'.active_workers := by
  intro st' x r st1 h
  unfold startICChildMk at h
  split at h
  · cases h
  · dsimp only at h
    obtain ⟨c, hc⟩ := mkStartEndTimes_state st' dur
    simp only [Except.ok.injEq, Option.some.injEq, Prod.mk.injEq] at h
    obtain ⟨-, hst⟩ := h
    rw [← hst, hc]
    exact ⟨rfl, rfl⟩

theorem startRequestChildMk_frame (pid : Option Nat) (dur : Option Nat) :
    ∀ st' x r st1, startRequestChildMk pid dur st' x = .ok (some (r, st1)) →
      st1.db = st'.db ∧ st1.active_workers = st'.active_workers := by
  intro st' x r st1 h
  unfold startRequestChildMk at h
  split at h
  · dsimp only at h
    obtain ⟨c, hc⟩ := mkStartEndTimes_state st' dur
    simp only [Except.ok.injEq, Option.some.injEq, Prod.mk.injEq] at h
    obtain ⟨-, hst⟩ := h
    rw [← hst, hc]
    exact ⟨rfl, rfl⟩
  · cases h

theorem startLinkChildMk_frame (sav : Avatar) (pid : Option Nat) (dur : Option Nat) :
    ∀ st' x r st1, startLinkChildMk sav pid dur st' x = .ok (some (r, st1)) →
      st1.db = st'.db ∧ st1.active_workers = st'.active_workers := by
  intro st' x r st1 h
  unfold startLinkChildMk at h
  split at h
  · cases h
  · split at h
    · cases h
    · dsimp only at h
      obtain ⟨c, hc⟩ := mkStartEndTimes_state st' dur
      simp only [Except.ok.injEq, Option.some.injEq, Prod.mk.injEq] at h
      obtain ⟨-, hst⟩ := h
      rw [← hst, hc]
      exact ⟨rfl, rfl⟩

theorem startGroupChildMk_frame (parent : SessionRec) :
    ∀ st' x r st1, startGroupChildMk parent st' x = .ok (some (r, st1)) →
      st1.db = st'.db ∧ st1.active_workers = st'.active_workers := by
  intro st' x r st1 h
  unfold startGroupChildMk at h
  split at h
  · dsimp only at h
    simp only [Except.ok.injEq, Option.some.injEq, Prod.mk.injEq] at h
    obtain ⟨-, hst⟩ := h
    rw [← hst]
    exact ⟨rfl, rfl⟩
  · cases h

/-- A push of one row onto the snapshot taken after some clock ticks leaves
an existing row readable unchanged, and keeps the bookkeeping sound. -/
theorem pushAfterTicks_facts {st : St} (stT : St) (r : SessionRec) (hT : stT.db = st.db)
    (hTw : stT.active_workers = st.active_workers) (hids : IdsOk st)
    {sid : Nat} {s : SessionRec} (hg : getSession st sid = some s) :
    getSession (pushSession stT r).1 sid = some s ∧ IdsOk (pushSession stT r).1 := by
  have hpsess : (pushSession stT r).1.db.sessions
      = st.db.sessions ++ [{ r with id := st.db.next_session_id }] := by
    rw [pushSession]
    simp [hT]
  refine ⟨getSession_append hpsess hg, pushSession_idsOk (idsOk_congr hT hTw hids)⟩

/-- The loop of a start handler, run from a parent-pushed or untouched
state, leaves a pre-existing row unchanged on every path. -/
theorem loop_result_stable {α : Type}
    (mk : St → α → Except String (Option (SessionRec × St)))
    (hmk : ∀ st' x r st1, mk st' x = .ok (some (r, st1)) →
      st1.db = st'.db ∧ st1.active_workers = st'.active_workers)
    (xs : List α) (st1 : St) (n : Nat) {sid : Nat} {s : SessionRec}
    (hids : IdsOk st1) (hg : getSession st1 sid = some s) :
    (∀ q, spawnChildrenLoop mk st1 xs n = .ok q → getSession q.1 sid = some s) ∧
    (∀ q, spawnChildrenLoop mk st1 xs n = .error q → getSession q.1 sid = some s) := by
  have h := spawnChildrenLoop_stable_gen mk hmk xs st1 n hids hg
  constructor
  · intro q hq
    rw [hq] at h
    exact h
  · intro q hq
    rw [hq] at h
    exact h

/-- `start_ic` never touches an existing session row. -/
theorem start_ic_getSession (st : St) (hids : IdsOk st) (a : Option Nat)
    (g : Option String) (i : Nat) (d : Option Nat) {sid : Nat} {s : SessionRec}
    (hg : getSession st sid = some s) :
    getSession (handle_start_ic st a g i d).1 sid = some s := by
  cases hres : getTargetAvatarIds st.db a g with
  | error e =>
    have hstep : handle_start_ic st a g i d = (st, .error e) := by
      simp only [handle_start_ic, hres]
    rw [hstep]
    exact hg
  | ok ids =>
    cases hic : st.db.ics.find? (fun ic => ic.id == i) with
    | none =>
      have hstep : handle_start_ic st a g i d
          = (st, .error ("IC " ++ Nat.repr i ++ " not found.")) := by
        simp only [handle_start_ic, hres, hic]
      rw [hstep]
      exact hg
    | some ic =>
      by_cases hlen : 1 < ids.length
      · cases g with
        | none =>
          have hstep : handle_start_ic st a none i d = (st, .error "avatar_group") := by
            simp only [handle_start_ic, hres, hic, if_pos hlen]
          rw [hstep]
          exact hg
        | some gname =>
          cases hfg : st.db.avatar_groups.find? (fun x => x.name == gname) with
          | none =>
            have hstep : handle_start_ic st a (some gname) i d
                = (st, .error "NoneType object has no attribute name") := by
              simp only [handle_start_ic, hres, hic, if_pos hlen, hfg]
            rw [hstep]
            exact hg
          | some gg =>
            set t := mkStartEndTimes st d with ht
            set pRec : SessionRec :=
              { is_group_session := true,
                description := "IC " ++ squote ic.name ++ " on Avatar Group " ++
                  squote gg.name,
                avatar_group_id := some gg.id, ic_id := some ic.id,
                session_type := .IC_SESSION,
                start_time := t.1, end_time := t.2.1,
                status := .RUNNING } with hpRec
            obtain ⟨c, hc⟩ := mkStartEndTimes_state st d
            obtain ⟨hg1, hids1⟩ := pushAfterTicks_facts t.2.2 pRec
              (by rw [hc]) (by rw [hc]) hids hg
            obtain ⟨hok, herr⟩ := loop_result_stable _
              (startICChildMk_frame ic (some (pushSession t.2.2 pRec).2) d)
              ids (pushSession t.2.2 pRec).1 0 hids1 hg1
            cases hloop : spawnChildrenLoop
                (startICChildMk ic (some (pushSession t.2.2 pRec).2) d)
                (pushSession t.2.2 pRec).1 ids 0 with
            | error q =>
              obtain ⟨stE, e2⟩ := q
              have hstep : handle_start_ic st a (some gname) i d = (stE, .error e2) := by
                simp only [handle_start_ic, hres, hic, if_pos hlen, hfg, hloop]
              rw [hstep]
              exact herr (stE, e2) hloop
            | ok q =>
              obtain ⟨st2, cnt⟩ := q
              have hstep : (handle_start_ic st a (some gname) i d).1 = st2 := by
                simp only [handle_start_ic, hres, hic, if_pos hlen, hfg, hloop]
              rw [hstep]
              exact hok (st2, cnt) hloop
      · obtain ⟨hok, herr⟩ := loop_result_stable _
          (startICChildMk_frame ic none d) ids st 0 hids hg
        cases hloop : spawnChildrenLoop (startICChildMk ic none d) st ids 0 with
        | error q =>
          obtain ⟨stE, e2⟩ := q
          have hstep : handle_start_ic st a g i d = (stE, .error e2) := by
            simp only [handle_start_ic, hres, hic, if_neg hlen, hloop]
          rw [hstep]
          exact herr (stE, e2) hloop
        | ok q =>
          obtain ⟨st2, cnt⟩ := q
          have hstep : (handle_start_ic st a g i d).1 = st2 := by
            simp only [handle_start_ic, hres, hic, if_neg hlen, hloop]
          rw [hstep]
          exact hok (st2, cnt) hloop

/-- `start_link` never touches an existing session row. -/
theorem start_link_getSession (st : St) (hids : IdsOk st) (src : Nat)
    (did : Option Nat) (dg : Option String) (d : Option Nat) {sid : Nat}
    {s : SessionRec} (hg : getSession st sid = some s) :
    getSession (handle_start_link st src did dg d).1 sid = some s := by
  cases hres : getTargetAvatarIds st.db did dg with
  | error e =>
    have hstep : handle_start_link st src did dg d = (st, .error e) := by
      simp only [handle_start_link, hres]
    rw [hstep]
    exact hg
  | ok ids =>
    cases hsrc : st.db.avatars.find? (fun av => av.id == src) with
    | none =>
      have hstep : handle_start_link st src did dg d
          = (st, .error ("Source Avatar " ++ Nat.repr src ++ " not found.")) := by
        simp only [handle_start_link, hres, hsrc]
      rw [hstep]
      exact hg
    | some sav =>
      by_cases hlen : 1 < ids.length
      · cases dg with
        | none =>
          have hstep : handle_start_link st src did none d
              = (st, .error "dest_group") := by
            simp only [handle_start_link, hres, hsrc, if_pos hlen]
          rw [hstep]
          exact hg
        | some gname =>
          cases hfg : st.db.avatar_groups.find? (fun x => x.name == gname) with
          | none =>
            have hstep : handle_start_link st src did (some gname) d
                = (st, .error "NoneType object has no attribute name") := by
              simp only [handle_start_link, hres, hsrc, if_pos hlen, hfg]
            rw [hstep]
            exact hg
          | some gg =>
            set t := mkStartEndTimes st d with ht
            set pRec : SessionRec :=
              { is_group_session := true,
                description := "Link from " ++ squote sav.name ++
                  " to Avatar Group " ++ squote gg.name,
                avatar_id := some src, avatar_group_id := some gg.id,
                session_type := .AVATAR_LINK,
                start_time := t.1, end_time := t.2.1,
                status := .RUNNING } with hpRec
            obtain ⟨c, hc⟩ := mkStartEndTimes_state st d
            obtain ⟨hg1, hids1⟩ := pushAfterTicks_facts t.2.2 pRec
              (by rw [hc]) (by rw [hc]) hids hg
            obtain ⟨hok, herr⟩ := loop_result_stable _
              (startLinkChildMk_frame sav (some (pushSession t.2.2 pRec).2) d)
              ids (pushSession t.2.2 pRec).1 0 hids1 hg1
            cases hloop : spawnChildrenLoop
                (startLinkChildMk sav (some (pushSession t.2.2 pRec).2) d)
                (pushSession t.2.2 pRec).1 ids 0 with
            | error q =>
              obtain ⟨stE, e2⟩ := q
              have hstep : handle_start_link st src did (some gname) d
                  = (stE, .error e2) := by
                simp only [handle_start_link, hres, hsrc, if_pos hlen, hfg, hloop]
              rw [hstep]
              exact herr (stE, e2) hloop
            | ok q =>
              obtain ⟨st2, cnt⟩ := q
              have hstep : (handle_start_link st src did (some gname) d).1 = st2 := by
                simp only [handle_start_link, hres, hsrc, if_pos hlen, hfg, hloop]
              rw [hstep]
              exact hok (st2, cnt) hloop
      · obtain ⟨hok, herr⟩ := loop_result_stable _
          (startLinkChildMk_frame sav none d) ids st 0 hids hg
        cases hloop : spawnChildrenLoop (startLinkChildMk sav none d) st ids 0 with
        | error q =>
          obtain ⟨stE, e2⟩ := q
          have hstep : handle_start_link st src did dg d = (stE, .error e2) := by
            simp only [handle_start_link, hres, hsrc, if_neg hlen, hloop]
          rw [hstep]
          exact herr (stE, e2) hloop
        | ok q =>
          obtain ⟨st2, cnt⟩ := q
          have hstep : (handle_start_link st src did dg d).1 = st2 := by
            simp only [handle_start_link, hres, hsrc, if_neg hlen, hloop]
          rw [hstep]
          exact hok (st2, cnt) hloop

/-- `start_group` never touches an existing session row. -/
theorem start_group_getSession (st : St) (hids : IdsOk st) (ag ig : Option String)
    (d : Option Nat) {sid : Nat} {s : SessionRec}
    (hg : getSession st sid = some s) :
    getSession (handle_start_group st ag ig d).1 sid = some s := by
  cases hfA : st.db.avatar_groups.find? (fun g => some g.name == ag) with
  | none =>
    have hstep : (handle_start_group st ag ig d).1 = st := by
      simp only [handle_start_group, hfA]
    rw [hstep]
    exact hg
  | some gA =>
    cases hfI : st.db.ic_groups.find? (fun g => some g.name == ig) with
    | none =>
      have hstep : (handle_start_group st ag ig d).1 = st := by
        simp only [handle_start_group, hfA, hfI]
      rw [hstep]
      exact hg
    | some gI =>
      by_cases hemp : (st.db.avatar_group_members.filter
            (fun m => m.group_id == gA.id)).isEmpty
          ∨ (st.db.ic_group_members.filter (fun m => m.group_id == gI.id)).isEmpty
      · rw [handle_start_group_empty st ag ig d gA gI hfA hfI hemp]
        exact hg
      · set t := mkStartEndTimes st d with ht
        set pRec : SessionRec :=
          { is_group_session := true,
            description := "IC Group " ++ squote gI.name ++ " on Avatar Group " ++
              squote gA.name,
            avatar_group_id := some gA.id, ic_group_id := some gI.id,
            session_type := .GROUP_IC_SESSION,
            start_time := t.1, end_time := t.2.1,
            status := .RUNNING } with hpRec
        obtain ⟨c, hc⟩ := mkStartEndTimes_state st d
        obtain ⟨hg1, hids1⟩ := pushAfterTicks_facts t.2.2 pRec
          (by rw [hc]) (by rw [hc]) hids hg
        set pairs := (st.db.avatar_group_members.filter
            (fun m => m.group_id == gA.id)).flatMap
          (fun a => (st.db.ic_group_members.filter
            (fun m => m.group_id == gI.id)).map (fun i => (a, i))) with hpairs
        obtain ⟨hok, herr⟩ := loop_result_stable _
          (startGroupChildMk_frame { pRec with id := (pushSession t.2.2 pRec).2 })
          pairs (pushSession t.2.2 pRec).1 0 hids1 hg1
        cases hloop : spawnChildrenLoop
            (startGroupChildMk { pRec with id := (pushSession t.2.2 pRec).2 })
            (pushSession t.2.2 pRec).1 pairs 0 with
        | error q =>
          obtain ⟨stE, e2⟩ := q
          have hstep : (handle_start_group st ag ig d).1 = stE := by
            simp only [handle_start_group, hfA, hfI]
            rw [if_neg hemp]
            simp only [hloop]
          rw [hstep]
          exact herr (stE, e2) hloop
        | ok q =>
          obtain ⟨st2, cnt⟩ := q
          have hstep : (handle_start_group st ag ig d).1 = st2 := by
            simp only [handle_start_group, hfA, hfI]
            rw [if_neg hemp]
            simp only [hloop]
          rw [hstep]
          exact hok (st2, cnt) hloop

/-- The loop tail of `start_request`, factored: from any baseline state the
pair loop leaves an existing row unchanged on both result paths. -/
theorem start_request_loop_stable (st1 : St) (hids1 : IdsOk st1)
    (pid : Option Nat) (d : Option Nat) (pairs : List (Nat × Nat)) {sid : Nat}
    {s : SessionRec} (hg1 : getSession st1 sid = some s) :
    (∀ q, spawnChildrenLoop (startRequestChildMk pid d) st1 pairs 0 = .ok q →
      getSession q.1 sid = some s) ∧
    (∀ q, spawnChildrenLoop (startRequestChildMk pid d) st1 pairs 0 = .error q →
      getSession q.1 sid = some s) :=
  loop_result_stable _ (startRequestChildMk_frame pid d) pairs st1 0 hids1 hg1

/-- `start_request` never touches an existing session row. -/
theorem start_request_getSession (st : St) (hids : IdsOk st) (a : Option Nat)
    (ag : Option String) (rid : Option Nat) (rg : Option String) (d : Option Nat)
    {sid : Nat} {s : SessionRec} (hg : getSession st sid = some s) :
    getSession (handle_start_request st a ag rid rg d).1 sid = some s := by
  cases hresA : getTargetAvatarIds st.db a ag with
  | error e =>
    have hstep : handle_start_request st a ag rid rg d = (st, .error e) := by
      simp only [handle_start_request, hresA]
    rw [hstep]
    exact hg
  | ok idsA =>
    cases hresR : getTargetRequestIds st.db rid rg with
    | error e =>
      have hstep : handle_start_request st a ag rid rg d = (st, .error e) := by
        simp only [handle_start_request, hresA, hresR]
      rw [hstep]
      exact hg
    | ok idsR =>
      set pairs := idsA.flatMap (fun a2 => idsR.map (fun r2 => (a2, r2))) with hpairs
      obtain ⟨c, hc⟩ := mkStartEndTimes_state st d
      set t := mkStartEndTimes st d with ht
      have hrun : ∀ (pRec : SessionRec) (rest : Except String (Option Nat × St)),
          rest = Except.ok (some (pushSession t.2.2 pRec).2, (pushSession t.2.2 pRec).1) →
          getSession (match spawnChildrenLoop
              (startRequestChildMk (some (pushSession t.2.2 pRec).2) d)
              (pushSession t.2.2 pRec).1 pairs 0 with
            | Except.error (stE, e) => (stE, Resp.error e)
            | Except.ok (st2, created) =>
              (st2, Resp.success ("Started " ++ Nat.repr created ++
                " request session(s)."))).1 sid = some s := by
        intro pRec rest hrest
        obtain ⟨hg1, hids1⟩ := pushAfterTicks_facts t.2.2 pRec
          (by rw [hc]) (by rw [hc]) hids hg
        obtain ⟨hok, herr⟩ := start_request_loop_stable (pushSession t.2.2 pRec).1
          hids1 (some (pushSession t.2.2 pRec).2) d pairs hg1
        cases hloop : spawnChildrenLoop
            (startRequestChildMk (some (pushSession t.2.2 pRec).2) d)
            (pushSession t.2.2 pRec).1 pairs 0 with
        | error q =>
          obtain ⟨stE, e2⟩ := q
          exact herr (stE, e2) hloop
        | ok q =>
          obtain ⟨st2, cnt⟩ := q
          exact hok (st2, cnt) hloop
      by_cases hAB : 1 < idsA.length ∧ 1 < idsR.length
      · cases ag with
        | none =>
          have hstep : handle_start_request st a none rid rg d
              = (st, .error "avatar_group or request_group") := by
            simp only [handle_start_request, hresA, hresR, if_pos hAB]
          rw [hstep]
          exact hg
        | some agname =>
          cases rg with
          | none =>
            have hstep : handle_start_request st a (some agname) rid none d
                = (st, .error "avatar_group or request_group") := by
              simp only [handle_start_request, hresA, hresR, if_pos hAB]
            rw [hstep]
            exact hg
          | some rgname =>
            cases hfga : st.db.avatar_groups.find? (fun x => x.name == agname) with
            | none =>
              have hstep : handle_start_request st a (some agname) rid (some rgname) d
                  = (st, .error "NoneType object has no attribute name") := by
                simp only [handle_start_request, hresA, hresR, if_pos hAB, hfga]
              rw [hstep]
              exact hg
            | some ga =>
              cases hfgr : st.db.request_groups.find? (fun x => x.name == rgname) with
              | none =>
                have hstep : handle_start_request st a (some agname) rid (some rgname) d
                    = (st, .error "NoneType object has no attribute name") := by
                  simp only [handle_start_request, hresA, hresR, if_pos hAB, hfga, hfgr]
                rw [hstep]
                exact hg
              | some gr =>
                have hstep : (handle_start_request st a (some agname) rid (some rgname) d)
                    = (match spawnChildrenLoop
                        (startRequestChildMk (some (pushSession t.2.2
                          { is_group_session := true,
                            description := "Request Group " ++ squote gr.name ++
                              " on Avatar Group " ++ squote ga.name,
                            avatar_group_id := some ga.id,
                            request_group_id := some gr.id,
                            session_type := .REQUEST_SESSION,
                            start_time := t.1, end_time := t.2.1,
                            status := .RUNNING }).2) d)
                        (pushSession t.2.2
                          { is_group_session := true,
                            description := "Request Group " ++ squote gr.name ++
                              " on Avatar Group " ++ squote ga.name,
                            avatar_group_id := some ga.id,
                            request_group_id := some gr.id,
                            session_type := .REQUEST_SESSION,
                            start_time := t.1, end_time := t.2.1,
                            status := .RUNNING }).1 pairs 0 with
                      | Except.error (stE, e) => (stE, Resp.error e)
                      | Except.ok (st2, created) =>
                        (st2, Resp.success ("Started " ++ Nat.repr created ++
                          " request session(s)."))) := by
                  simp only [handle_start_request, hresA, hresR, if_pos hAB, hfga, hfgr]
                rw [hstep]
                exact hrun _ _ rfl
      · by_cases hA : 1 < idsA.length
        · cases ag with
          | none =>
            have hstep : handle_start_request st a none rid rg d
                = (st, .error "avatar_group") := by
              simp only [handle_start_request, hresA, hresR, if_neg hAB, if_pos hA]
            rw [hstep]
            exact hg
          | some agname =>
            cases hfga : st.db.avatar_groups.find? (fun x => x.name == agname) with
            | none =>
              cases hfr : st.db.requests.find? (fun x => x.id == idsR.headD 0) with
              | none =>
                have hstep : handle_start_request st a (some agname) rid rg d
                    = (st, .error "NoneType object has no attribute name") := by
                  simp only [handle_start_request, hresA, hresR, if_neg hAB, if_pos hA,
                    hfga, hfr]
                rw [hstep]
                exact hg
              | some rq =>
                have hstep : handle_start_request st a (some agname) rid rg d
                    = (st, .error "NoneType object has no attribute name") := by
                  simp only [handle_start_request, hresA, hresR, if_neg hAB, if_pos hA,
                    hfga, hfr]
                rw [hstep]
                exact hg
            | some ga =>
              cases hfr : st.db.requests.find? (fun x => x.id == idsR.headD 0) with
              | none =>
                have hstep : handle_start_request st a (some agname) rid rg d
                    = (st, .error "NoneType object has no attribute name") := by
                  simp only [handle_start_request, hresA, hresR, if_neg hAB, if_pos hA,
                    hfga, hfr]
                rw [hstep]
                exact hg
              | some rq =>
                have hstep : (handle_start_request st a (some agname) rid rg d)
                    = (match spawnChildrenLoop
                        (startRequestChildMk (some (pushSession t.2.2
                          { is_group_session := true,
                            description := "Request " ++ squote rq.name ++
                              " on Avatar Group " ++ squote ga.name,
                            avatar_group_id := some ga.id,
                            request_id := some rq.id,
                            session_type := .REQUEST_SESSION,
                            start_time := t.1, end_time := t.2.1,
                            status := .RUNNING }).2) d)
                        (pushSession t.2.2
                          { is_group_session := true,
                            description := "Request " ++ squote rq.name ++
                              " on Avatar Group " ++ squote ga.name,
                            avatar_group_id := some ga.id,
                            request_id := some rq.id,
                            session_type := .REQUEST_SESSION,
                            start_time := t.1, end_time := t.2.1,
                            status := .RUNNING }).1 pairs 0 with
                      | Except.error (stE, e) => (stE, Resp.error e)
                      | Except.ok (st2, created) =>
                        (st2, Resp.success ("Started " ++ Nat.repr created ++
                          " request session(s)."))) := by
                  simp only [handle_start_request, hresA, hresR, if_neg hAB, if_pos hA,
                    hfga, hfr]
                rw [hstep]
                exact hrun _ _ rfl
        · by_cases hR : 1 < idsR.length
          · cases rg with
            | none =>
              have hstep : handle_start_request st a ag rid none d
                  = (st, .error "request_group") := by
                simp only [handle_start_request, hresA, hresR, if_neg hAB, if_neg hA,
                  if_pos hR]
              rw [hstep]
              exact hg
            | some rgname =>
              cases hfgr : st.db.request_groups.find? (fun x => x.name == rgname) with
              | none =>
                cases hfa : st.db.avatars.find? (fun x => x.id == idsA.headD 0) with
                | none =>
                  have hstep : handle_start_request st a ag rid (some rgname) d
                      = (st, .error "NoneType object has no attribute name") := by
                    simp only [handle_start_request, hresA, hresR, if_neg hAB, if_neg hA,
                      if_pos hR, hfgr, hfa]
                  rw [hstep]
                  exact hg
                | some av =>
                  have hstep : handle_start_request st a ag rid (some rgname) d
                      = (st, .error "NoneType object has no attribute name") := by
                    simp only [handle_start_request, hresA, hresR, if_neg hAB, if_neg hA,
                      if_pos hR, hfgr, hfa]
                  rw [hstep]
                  exact hg
              | some gr =>
                cases hfa : st.db.avatars.find? (fun x => x.id == idsA.headD 0) with
                | none =>
                  have hstep : handle_start_request st a ag rid (some rgname) d
                      = (st, .error "NoneType object has no attribute name") := by
                    simp only [handle_start_request, hresA, hresR, if_neg hAB, if_neg hA,
                      if_pos hR, hfgr, hfa]
                  rw [hstep]
                  exact hg
                | some av =>
                  have hstep : (handle_start_request st a ag rid (some rgname) d)
                      = (match spawnChildrenLoop
                          (startRequestChildMk (some (pushSession t.2.2
                            { is_group_session := true,
                              description := "Request Group " ++ squote gr.name ++
                                " on Avatar " ++ squote av.name,
                              request_group_id := some gr.id,
                              avatar_id := some av.id,
                              session_type := .REQUEST_SESSION,
                              start_time := t.1, end_time := t.2.1,
                              status := .RUNNING }).2) d)
                          (pushSession t.2.2
                            { is_group_session := true,
                              description := "Request Group " ++ squote gr.name ++
                                " on Avatar " ++ squote av.name,
                              request_group_id := some gr.id,
                              avatar_id := some av.id,
                              session_type := .REQUEST_SESSION,
                              start_time := t.1, end_time := t.2.1,
                              status := .RUNNING }).1 pairs 0 with
                        | Except.error (stE, e) => (stE, Resp.error e)
                        | Except.ok (st2, created) =>
                          (st2, Resp.success ("Started " ++ Nat.repr created ++
                            " request session(s)."))) := by
                    simp only [handle_start_request, hresA, hresR, if_neg hAB, if_neg hA,
                      if_pos hR, hfgr, hfa]
                  rw [hstep]
                  exact hrun _ _ rfl
          · obtain ⟨hok, herr⟩ := start_request_loop_stable st hids none d pairs hg
            cases hloop : spawnChildrenLoop (startRequestChildMk none d) st pairs 0 with
            | error q =>
              obtain ⟨stE, e2⟩ := q
              have hstep : handle_start_request st a ag rid rg d = (stE, .error e2) := by
                simp only [handle_start_request, hresA, hresR, if_neg hAB, if_neg hA,
                  if_neg hR, hloop]
              rw [hstep]
              exact herr (stE, e2) hloop
            | ok q =>
              obtain ⟨st2, cnt⟩ := q
              have hstep : (handle_start_request st a ag rid rg d).1 = st2 := by
                simp only [handle_start_request, hresA, hresR, if_neg hAB, if_neg hA,
                  if_neg hR, hloop]
              rw [hstep]
              exact hok (st2, cnt) hloop

/-- The stop-and-respawn loop of `update_entity` leaves a non-RUNNING row
unchanged: the stop is a no-op on it and a respawn only follows a
successful stop. -/
theorem restartSessionsLoop_stable :
    ∀ (ids : List Nat) (st : St) (n : Nat) {sid : Nat} {s : SessionRec},
      getSession st sid = some s → ¬ s.status = SessionStatus.RUNNING →
      getSession (restartSessionsLoop st ids n).1 sid = some s
  | [], st, n, sid, s, hg, hns => hg
  | t :: rest, st, n, sid, s, hg, hns => by
    rw [restartSessionsLoop]
    cases hr2 : (stopSingleSession st t).2 with
    | true =>
      have hne : sid ≠ t := by
        intro h
        subst h
        rw [stopSingle_noop_not_running hg hns] at hr2
        cases hr2
      have hgt : getSession (stopSingleSession st t).1 sid = some s :=
        stopSingle_stable hg hns
      simp only [hr2, if_true]
      exact restartSessionsLoop_stable rest _ _
        (by rw [spawnWorker_getSession_ne _ _ _ hne]; exact hgt) hns
    | false =>
      simp only [hr2, Bool.false_eq_true, if_false]
      exact restartSessionsLoop_stable rest _ _ (stopSingle_stable hg hns) hns

/-- `remove_group` rewrites the session table in place with an
id/status/pid-preserving function (clearing a group reference), on every
branch. -/
theorem remove_group_sessions_shape (st : St) (gt gn : String) :
    ∃ (p : SessionRec → Bool) (f : SessionRec → SessionRec),
      (∀ s, (f s).id = s.id ∧ (f s).status = s.status) ∧
      (handle_remove_group st gt gn).1.db.sessions
        = st.db.sessions.map (fun s => if p s then f s else s) := by
  by_cases ha : gt = "avatar"
  · cases hf : st.db.avatar_groups.find? (fun h => h.name == gn) with
    | none =>
      refine ⟨fun _ => false, fun s => s, fun s => ⟨rfl, rfl⟩, ?_⟩
      simp [handle_remove_group, ha, hf]
    | some g =>
      refine ⟨fun s => s.avatar_group_id == some g.id,
        fun s => { s with avatar_group_id := none }, fun s => ⟨rfl, rfl⟩, ?_⟩
      simp [handle_remove_group, ha, hf]
  · by_cases hi : gt = "ic"
    · cases hf : st.db.ic_groups.find? (fun h => h.name == gn) with
      | none =>
        refine ⟨fun _ => false, fun s => s, fun s => ⟨rfl, rfl⟩, ?_⟩
        simp [handle_remove_group, ha, hi, hf]
      | some g =>
        refine ⟨fun s => s.ic_group_id == some g.id,
          fun s => { s with ic_group_id := none }, fun s => ⟨rfl, rfl⟩, ?_⟩
        simp [handle_remove_group, ha, hi, hf]
    · by_cases hr : gt = "request"
      · cases hf : st.db.request_groups.find? (fun h => h.name == gn) with
        | none =>
          refine ⟨fun _ => false, fun s => s, fun s => ⟨rfl, rfl⟩, ?_⟩
          simp [handle_remove_group, ha, hi, hr, hf]
        | some g =>
          refine ⟨fun s => s.request_group_id == some g.id,
            fun s => { s with request_group_id := none }, fun s => ⟨rfl, rfl⟩, ?_⟩
          simp [handle_remove_group, ha, hi, hr, hf]
      · refine ⟨fun _ => false, fun s => s, fun s => ⟨rfl, rfl⟩, ?_⟩
        simp [handle_remove_group, ha, hi, hr]

/-- A stop/fail loop built on an in-place id-preserving single step keeps
the list of session ids. -/
theorem stopCountLoop_ids (single : St → Nat → St × Bool)
    (hsh : ∀ st t, ∃ f : SessionRec → SessionRec, (∀ s : SessionRec, (f s).id = s.id) ∧
      (single st t).1.db.sessions
        = st.db.sessions.map (fun s => if s.id == t then f s else s)) :
    ∀ (ids : List Nat) (st : St) (n : Nat),
      (stopCountLoop single st ids n).1.db.sessions.map (fun s => s.id)
        = st.db.sessions.map (fun s => s.id)
  | [], st, n => rfl
  | t :: rest, st, n => by
    rw [stopCountLoop]
    obtain ⟨f, hfid, hfs⟩ := hsh st t
    rw [stopCountLoop_ids single hsh rest _ _, hfs, map_ids_update _ _ _ hfid]

/-- An in-place update at another id does not change what a lookup sees. -/
theorem getSession_updateSession_ne {st : St} {t : Nat} (f : SessionRec → SessionRec)
    (hf : ∀ s, (f s).id = s.id) {sid : Nat} (hne : sid ≠ t) :
    getSession (updateSession st t f) sid = getSession st sid :=
  getSession_eq_of_update rfl hf hne

/-- The copy row built by the redo loop for a FAILED leaf, abbreviated. -/
def redoCopy (old : SessionRec) (t1 : Nat) : SessionRec :=
  { parent_session_id := old.parent_session_id,
    is_group_session := old.is_group_session,
    description := "[REDO] " ++ old.description,
    avatar_id := old.avatar_id, ic_id := old.ic_id, request_id := old.request_id,
    destination_avatar_id := old.destination_avatar_id,
    avatar_group_id := old.avatar_group_id, ic_group_id := old.ic_group_id,
    session_type := old.session_type, start_time := t1, end_time := old.end_time }

theorem redoLoop_cons_none {st : St} {t : Nat} (hgt : getSession st t = none)
    (rest : List Nat) (n : Nat) :
    redoLoop st (t :: rest) n = redoLoop st rest n := by
  simp only [redoLoop, hgt]

theorem redoLoop_cons_group {st : St} {t : Nat} {old : SessionRec}
    (hgt : getSession st t = some old) (hgrp : old.is_group_session = true)
    (rest : List Nat) (n : Nat) :
    redoLoop st (t :: rest) n
      = redoLoop (updateSession st t
          (fun x => { x with status := SessionStatus.RESTARTED })) rest n := by
  simp only [redoLoop, hgt]
  rw [if_pos hgrp]

theorem redoLoop_cons_nongroup {st : St} {t : Nat} {old : SessionRec}
    (hgt : getSession st t = some old) (hgrp : ¬ old.is_group_session = true)
    (rest : List Nat) (n : Nat) :
    redoLoop st (t :: rest) n
      = redoLoop (updateSession (spawnWorkerForSession
          (pushSession (utcnow st).2 (redoCopy old (utcnow st).1)).1
          (pushSession (utcnow st).2 (redoCopy old (utcnow st).1)).2) t
          (fun x => { x with status := SessionStatus.RESTARTED })) rest (n + 1) := by
  simp only [redoLoop, hgt]
  rw [if_neg hgrp]
  rfl

/-- The push-then-spawn step of one redo iteration leaves a pre-existing
row unchanged and keeps the bookkeeping sound. -/
theorem redoStep_facts (old : SessionRec) {st : St} {sid : Nat} {s : SessionRec}
    (hids : IdsOk st) (hg : getSession st sid = some s) :
    getSession (spawnWorkerForSession
        (pushSession (utcnow st).2 (redoCopy old (utcnow st).1)).1
        (pushSession (utcnow st).2 (redoCopy old (utcnow st).1)).2) sid = some s ∧
    IdsOk (spawnWorkerForSession
        (pushSession (utcnow st).2 (redoCopy old (utcnow st).1)).1
        (pushSession (utcnow st).2 (redoCopy old (utcnow st).1)).2) := by
  obtain ⟨hg1, hids1⟩ := pushAfterTicks_facts (utcnow st).2
    (redoCopy old (utcnow st).1) rfl rfl hids hg
  have hlt : sid < st.db.next_session_id := by
    obtain ⟨hm, hid⟩ := getSession_some_mem hg
    rw [← hid]
    exact hids.2.1 s hm
  have hnN : sid ≠ (pushSession (utcnow st).2 (redoCopy old (utcnow st).1)).2 := by
    have h2 : (pushSession (utcnow st).2 (redoCopy old (utcnow st).1)).2
        = st.db.next_session_id := rfl
    omega
  refine ⟨?_, spawnWorker_idsOk hids1⟩
  rw [spawnWorker_getSession_ne _ _ _ hnN]
  exact hg1

/-- The redo loop leaves a session whose id it never visits unchanged. -/
theorem redoLoop_stable :
    ∀ (ids : List Nat) (st : St) (n : Nat) {sid : Nat} {s : SessionRec},
      IdsOk st → sid ∉ ids → getSession st sid = some s →
      getSession (redoLoop st ids n).1 sid = some s
  | [], st, n, sid, s, hids, hmem, hg => hg
  | t :: rest, st, n, sid, s, hids, hmem, hg => by
    have hnt : sid ≠ t := fun h => hmem (h ▸ List.mem_cons_self _ _)
    have hrest : sid ∉ rest := fun h => hmem (List.mem_cons_of_mem _ h)
    cases hgt : getSession st t with
    | none =>
      rw [redoLoop_cons_none hgt]
      exact redoLoop_stable rest st n hids hrest hg
    | some old =>
      by_cases hgrp : old.is_group_session = true
      · rw [redoLoop_cons_group hgt hgrp]
        refine redoLoop_stable rest _ n (updateSession_idsOk (fun x => rfl) hids)
          hrest ?_
        rw [getSession_updateSession_ne
          (fun x => { x with status := SessionStatus.RESTARTED }) (fun x => rfl) hnt]
        exact hg
      · rw [redoLoop_cons_nongroup hgt hgrp]
        obtain ⟨hg2, hids2⟩ := redoStep_facts old hids hg
        refine redoLoop_stable rest _ (n + 1)
          (updateSession_idsOk (fun x => rfl) hids2) hrest ?_
        rw [getSession_updateSession_ne
          (fun x => { x with status := SessionStatus.RESTARTED }) (fun x => rfl) hnt]
        exact hg2

/-- The redo loop marks a visited session RESTARTED, touching nothing else
of it, when its id occurs once in the visit list. -/
theorem redoLoop_restarts :
    ∀ (ids : List Nat) (st : St) (n : Nat) {sid : Nat} {s : SessionRec},
      IdsOk st → sid ∈ ids → ids.Nodup → getSession st sid = some s →
      getSession (redoLoop st ids n).1 sid
        = some { s with status := SessionStatus.RESTARTED }
  | [], st, n, sid, s, hids, hmem, hnd, hg => absurd hmem (List.not_mem_nil _)
  | t :: rest, st, n, sid, s, hids, hmem, hnd, hg => by
    by_cases hst : sid = t
    · subst hst
      have hrest : sid ∉ rest := (List.nodup_cons.mp hnd).1
      by_cases hgrp : s.is_group_session = true
      · rw [redoLoop_cons_group hg hgrp]
        refine redoLoop_stable rest _ n (updateSession_idsOk (fun x => rfl) hids)
          hrest ?_
        rw [@getSession_update_self _ sid
          (fun x => { x with status := SessionStatus.RESTARTED }) (fun x => rfl), hg]
        rfl
      · rw [redoLoop_cons_nongroup hg hgrp]
        obtain ⟨hg2, hids2⟩ := redoStep_facts s hids hg
        refine redoLoop_stable rest _ (n + 1)
          (updateSession_idsOk (fun x => rfl) hids2) hrest ?_
        rw [@getSession_update_self _ sid
          (fun x => { x with status := SessionStatus.RESTARTED }) (fun x => rfl), hg2]
        rfl
    · have hrest : sid ∈ rest := by
        rcases List.mem_cons.mp hmem with h | h
        · exact absurd h hst
        · exact h
      have hnd2 : rest.Nodup := (List.nodup_cons.mp hnd).2
      cases hgt : getSession st t with
      | none =>
        rw [redoLoop_cons_none hgt]
        exact redoLoop_restarts rest st n hids hrest hnd2 hg
      | some old =>
        by_cases hgrp : old.is_group_session = true
        · rw [redoLoop_cons_group hgt hgrp]
          refine redoLoop_restarts rest _ n (updateSession_idsOk (fun x => rfl) hids)
            hrest hnd2 ?_
          rw [getSession_updateSession_ne
            (fun x => { x with status := SessionStatus.RESTARTED }) (fun x => rfl) hst]
          exact hg
        · rw [redoLoop_cons_nongroup hgt hgrp]
          obtain ⟨hg2, hids2⟩ := redoStep_facts old hids hg
          refine redoLoop_restarts rest _ (n + 1)
            (updateSession_idsOk (fun x => rfl) hids2) hrest hnd2 ?_
          rw [getSession_updateSession_ne
            (fun x => { x with status := SessionStatus.RESTARTED }) (fun x => rfl) hst]
          exact hg2

/-- `stop_session` on id `sid2`: a non-RUNNING row keeps every field, with
exactly one exception — the named row itself, whose status is overwritten
to STOPPED. -/
theorem stop_session_status (st : St) (sid2 : Nat) {sid : Nat} {s : SessionRec}
    (hg : getSession st sid = some s) (hns : ¬ s.status = SessionStatus.RUNNING) :
    getSession (handle_stop_session st sid2).1 sid
      = some (if sid = sid2 then { s with status := SessionStatus.STOPPED } else s) := by
  cases hg2 : getSession st sid2 with
  | none =>
    have hstep : (handle_stop_session st sid2).1 = st := by
      simp only [handle_stop_session, hg2]
    rw [hstep]
    by_cases h : sid = sid2
    · subst h
      rw [hg2] at hg
      cases hg
    · rw [if_neg h]
      exact hg
  | some s0 =>
    have hstep : (handle_stop_session st sid2).1
        = updateSession (stopSessionsLoop st
            (if s0.is_group_session || s0.parent_session_id.isNone then
              sid2 :: (st.db.sessions.filter
                (fun c => c.parent_session_id == some sid2)).map (fun c => c.id)
            else [sid2]) 0).1 sid2
            (fun x => { x with status := SessionStatus.STOPPED }) := by
      simp only [handle_stop_session, hg2]
    rw [hstep]
    have hstable := stopSessionsLoop_stable
      (if s0.is_group_session || s0.parent_session_id.isNone then
        sid2 :: (st.db.sessions.filter
          (fun c => c.parent_session_id == some sid2)).map (fun c => c.id)
      else [sid2]) st 0 hg hns
    by_cases h : sid = sid2
    · subst h
      rw [@getSession_update_self _ sid
        (fun x => { x with status := SessionStatus.STOPPED }) (fun x => rfl), hstable]
      rw [if_pos rfl]
      rfl
    · rw [getSession_updateSession_ne
        (fun x => { x with status := SessionStatus.STOPPED }) (fun x => rfl) h,
        if_neg h]
      exact hstable

/-- `update_entity`'s state is a restart loop run from a state with the
same session table. -/
theorem update_entity_state (st : St) (et : String) (eid : Nat)
    (pd : Option (List Nat)) (infd : Option String) :
    ∃ stX ids, (handle_update_entity st et eid pd infd).1
        = (restartSessionsLoop stX ids 0).1 ∧
      stX.db.sessions = st.db.sessions := by
  by_cases ha : et = "avatar"
  · cases hf : st.db.avatars.find? (fun a => a.id == eid) with
    | none =>
      refine ⟨st, [], ?_, rfl⟩
      simp only [handle_update_entity, if_pos ha, hf]
      rfl
    | some av =>
      refine ⟨{ st with
          db := { st.db with avatars := st.db.avatars.map (fun a =>
            if a.id == eid then
              { a with photo_data := pd.getD a.photo_data,
                       info_data := infd.getD a.info_data }
            else a) },
          avatar_cache := st.avatar_cache.filter (fun e => e.1 != eid) },
        (st.db.sessions.filter (fun s =>
          s.status == SessionStatus.RUNNING &&
            (s.avatar_id == some eid || s.destination_avatar_id == some eid))).map
          (fun s => s.id), ?_, rfl⟩
      simp only [handle_update_entity, if_pos ha, hf]
  · refine ⟨st, [], ?_, rfl⟩
    simp only [handle_update_entity, if_neg ha]
    rfl

/-- `update_entity` leaves a non-RUNNING row unchanged. -/
theorem update_entity_getSession (st : St) (et : String) (eid : Nat)
    (pd : Option (List Nat)) (infd : Option String) {sid : Nat} {s : SessionRec}
    (hg : getSession st sid = some s) (hns : ¬ s.status = SessionStatus.RUNNING) :
    getSession (handle_update_entity st et eid pd infd).1 sid = some s := by
  obtain ⟨stX, ids, hstep, hsess⟩ := update_entity_state st et eid pd infd
  rw [hstep]
  refine restartSessionsLoop_stable ids stX 0 ?_ hns
  unfold getSession at hg ⊢
  rw [hsess]
  exact hg

/-- `add_member_to_group` only appends sessions, so an existing row is
untouched. -/
theorem add_member_getSession (st : St) (hwf : Wf st) (hrefs : RefsOk st)
    (gt gn : String) (mid : Nat) {sid : Nat} {s : SessionRec}
    (hg : getSession st sid = some s) :
    getSession (handle_add_member_to_group st gt gn mid).1 sid = some s := by
  obtain ⟨tail, hsess, -, -⟩ := handle_add_member_shape st gt gn mid hwf hrefs
  exact getSession_append hsess hg

/-- `remove_member_from_group` stops only RUNNING children, so a
non-RUNNING row is untouched. -/
theorem remove_member_getSession (st : St) (gt gn : String) (mid : Nat)
    {sid : Nat} {s : SessionRec} (hg : getSession st sid = some s)
    (hns : ¬ s.status = SessionStatus.RUNNING) :
    getSession (handle_remove_member_from_group st gt gn mid).1 sid = some s := by
  by_cases h1 : gt = "ic"
  · cases hf : st.db.ic_groups.find? (fun g => g.name == gn) with
    | none =>
      have hstep : (handle_remove_member_from_group st gt gn mid).1 = st := by
        simp only [handle_remove_member_from_group, if_pos h1, hf]
      rw [hstep]
      exact hg
    | some g =>
      by_cases hm : (st.db.ic_group_members.find? (fun m =>
          m.group_id == g.id && m.ic_id == mid)).isNone = true
      · have hstep : (handle_remove_member_from_group st gt gn mid).1 = st := by
          simp only [handle_remove_member_from_group, if_pos h1, hf, if_pos hm]
        rw [hstep]
        exact hg
      · have hstep : getSession (handle_remove_member_from_group st gt gn mid).1 sid
            = getSession (stopCountLoop stopSingleSession st
                ((st.db.sessions.filter (fun x =>
                  parentHas st x (fun p => p.ic_group_id == some g.id) &&
                    x.ic_id == some mid)).map (fun x => x.id)) 0).1 sid := by
          simp only [handle_remove_member_from_group, if_pos h1, hf, if_neg hm]
          rfl
        rw [hstep]
        exact stopCountLoop_stable stopSingleSession stopSingle_stable _ _ _ hg hns
  · by_cases h2 : gt = "avatar"
    · cases hf : st.db.avatar_groups.find? (fun g => g.name == gn) with
      | none =>
        have hstep : (handle_remove_member_from_group st gt gn mid).1 = st := by
          simp only [handle_remove_member_from_group, if_neg h1, if_pos h2, hf]
        rw [hstep]
        exact hg
      | some g =>
        by_cases hm : (st.db.avatar_group_members.find? (fun m =>
            m.group_id == g.id && m.avatar_id == mid)).isNone = true
        · have hstep : (handle_remove_member_from_group st gt gn mid).1 = st := by
            simp only [handle_remove_member_from_group, if_neg h1, if_pos h2, hf,
              if_pos hm]
          rw [hstep]
          exact hg
        · have hstep : getSession (handle_remove_member_from_group st gt gn mid).1 sid
              = getSession (stopCountLoop stopSingleSession st
                  ((st.db.sessions.filter (fun x =>
                    parentHas st x (fun p => p.avatar_group_id == some g.id) &&
                      x.avatar_id == some mid)).map (fun x => x.id)) 0).1 sid := by
            simp only [handle_remove_member_from_group, if_neg h1, if_pos h2, hf,
              if_neg hm]
            rfl
          rw [hstep]
          exact stopCountLoop_stable stopSingleSession stopSingle_stable _ _ _ hg hns
    · by_cases h3 : gt = "request"
      · cases hf : st.db.request_groups.find? (fun g => g.name == gn) with
        | none =>
          have hstep : (handle_remove_member_from_group st gt gn mid).1 = st := by
            simp only [handle_remove_member_from_group, if_neg h1, if_neg h2,
              if_pos h3, hf]
          rw [hstep]
          exact hg
        | some g =>
          by_cases hm : (st.db.request_group_members.find? (fun m =>
              m.group_id == g.id && m.request_id == mid)).isNone = true
          · have hstep : (handle_remove_member_from_group st gt gn mid).1 = st := by
              simp only [handle_remove_member_from_group, if_neg h1, if_neg h2,
                if_pos h3, hf, if_pos hm]
            rw [hstep]
            exact hg
          · have hstep : getSession (handle_remove_member_from_group st gt gn mid).1 sid
                = getSession (stopCountLoop stopSingleSession st
                    ((st.db.sessions.filter (fun x =>
                      parentHas st x (fun p => p.request_group_id == some g.id) &&
                        x.request_id == some mid)).map (fun x => x.id)) 0).1 sid := by
              simp only [handle_remove_member_from_group, if_neg h1, if_neg h2,
                if_pos h3, hf, if_neg hm]
              rfl
            rw [hstep]
            exact stopCountLoop_stable stopSingleSession stopSingle_stable _ _ _ hg hns
      · have hstep : (handle_remove_member_from_group st gt gn mid).1 = st := by
          simp only [handle_remove_member_from_group, if_neg h1, if_neg h2, if_neg h3]
        rw [hstep]
        exact hg

/-- `view_running_on` is read-only. -/
theorem view_state (st : St) (ident : String) :
    (handle_view_running_on st ident).1 = st := by
  unfold handle_view_running_on
  split
  · dsimp only
    split
    · rfl
    · rfl
  · dsimp only
    split
    · rfl
    · rfl

/-- `fail_all_running_sessions` leaves a non-RUNNING row unchanged. -/
theorem fail_all_getSession (st : St) {sid : Nat} {s : SessionRec}
    (hg : getSession st sid = some s) (hns : ¬ s.status = SessionStatus.RUNNING) :
    getSession (handle_fail_all_running_sessions st).1 sid = some s := by
  unfold handle_fail_all_running_sessions
  dsimp only
  split
  · exact hg
  · exact stopCountLoop_stable failSingleSession failSingle_stable _ _ _ hg hns

/-- `remove_entity` either errors, no-ops, or (avatar branch) stops RUNNING
rows and then deletes some rows: a surviving non-RUNNING row is returned
exactly as it was. -/
theorem remove_entity_status (st : St) (hwf : Wf st) (et : String) (eid : Nat)
    {sid : Nat} {s : SessionRec} (hg : getSession st sid = some s)
    (hns : ¬ s.status = SessionStatus.RUNNING) {s' : SessionRec}
    (hs' : getSession (handle_remove_entity st et eid).1 sid = some s') :
    s' = s := by
  by_cases ha : et = "avatar"
  · cases hf : st.db.avatars.find? (fun a => a.id == eid) with
    | none =>
      have hstep : (handle_remove_entity st et eid).1 = st := by
        simp only [handle_remove_entity, if_pos ha, hf]
      rw [hstep, hg] at hs'
      exact (Option.some.inj hs').symm
    | some av =>
      have hst1 : getSession (stopCountLoop stopSingleSession st
          (((st.db.sessions.filter (fun x => x.avatar_id == some eid)).map
              (fun x => x.id)) ++
            ((st.db.sessions.filter
              (fun x => x.destination_avatar_id == some eid)).map (fun x => x.id)))
          0).1 sid = some s :=
        stopCountLoop_stable stopSingleSession stopSingle_stable _ _ _ hg hns
      have hnd1 : ((stopCountLoop stopSingleSession st
          (((st.db.sessions.filter (fun x => x.avatar_id == some eid)).map
              (fun x => x.id)) ++
            ((st.db.sessions.filter
              (fun x => x.destination_avatar_id == some eid)).map (fun x => x.id)))
          0).1.db.sessions.map (fun x => x.id)).Nodup := by
        rw [stopCountLoop_ids stopSingleSession ?hsh]
        · exact hwf.2
        case hsh =>
          intro st0 t
          obtain ⟨f, hfp, hfs, -, -, -, -⟩ := stopSingle_shape st0 t
          exact ⟨f, hfp.id_eq, hfs⟩
      have hstep : (handle_remove_entity st et eid).1.db.sessions
          = (stopCountLoop stopSingleSession st
              (((st.db.sessions.filter (fun x => x.avatar_id == some eid)).map
                  (fun x => x.id)) ++
                ((st.db.sessions.filter
                  (fun x => x.destination_avatar_id == some eid)).map
                  (fun x => x.id))) 0).1.db.sessions.filter (fun x =>
              !(refsAvatar eid x) &&
                !(match x.parent_session_id with
                  | some pid => (((stopCountLoop stopSingleSession st
                      (((st.db.sessions.filter
                          (fun y => y.avatar_id == some eid)).map (fun y => y.id)) ++
                        ((st.db.sessions.filter
                          (fun y => y.destination_avatar_id == some eid)).map
                          (fun y => y.id))) 0).1.db.sessions.filter
                      (refsAvatar eid)).map (fun y => y.id)).contains pid
                  | none => false)) := by
        simp only [handle_remove_entity, if_pos ha, hf]
      have hmem' : s' ∈ (handle_remove_entity st et eid).1.db.sessions ∧ s'.id = sid := by
        unfold getSession at hs'
        exact ⟨List.mem_of_find?_eq_some hs', by simpa using List.find?_some hs'⟩
      have hmem1 : s' ∈ (stopCountLoop stopSingleSession st
          (((st.db.sessions.filter (fun x => x.avatar_id == some eid)).map
              (fun x => x.id)) ++
            ((st.db.sessions.filter
              (fun x => x.destination_avatar_id == some eid)).map (fun x => x.id)))
          0).1.db.sessions := by
        have := hmem'.1
        rw [hstep] at this
        exact List.mem_of_mem_filter this
      have hmems : s ∈ (stopCountLoop stopSingleSession st
          (((st.db.sessions.filter (fun x => x.avatar_id == some eid)).map
              (fun x => x.id)) ++
            ((st.db.sessions.filter
              (fun x => x.destination_avatar_id == some eid)).map (fun x => x.id)))
          0).1.db.sessions ∧ s.id = sid := getSession_some_mem hst1
      exact List.inj_on_of_nodup_map hnd1 hmem1 hmems.1 (by rw [hmem'.2, hmems.2])
  · by_cases hi : et = "ic"
    · cases hf : st.db.ics.find? (fun ic => ic.id == eid) with
      | none =>
        have hstep : (handle_remove_entity st et eid).1 = st := by
          simp only [handle_remove_entity, if_neg ha, if_pos hi, hf]
        rw [hstep, hg] at hs'
        exact (Option.some.inj hs').symm
      | some ic =>
        have hstep : (handle_remove_entity st et eid).1 = st := by
          simp only [handle_remove_entity, if_neg ha, if_pos hi, hf]
        rw [hstep, hg] at hs'
        exact (Option.some.inj hs').symm
    · by_cases hr : et = "request"
      · cases hf : st.db.requests.find? (fun rq => rq.id == eid) with
        | none =>
          have hstep : (handle_remove_entity st et eid).1 = st := by
            simp only [handle_remove_entity, if_neg ha, if_neg hi, if_pos hr, hf]
          rw [hstep, hg] at hs'
          exact (Option.some.inj hs').symm
        | some rq =>
          have hstep : (handle_remove_entity st et eid).1 = st := by
            simp only [handle_remove_entity, if_neg ha, if_neg hi, if_pos hr, hf]
          rw [hstep, hg] at hs'
          exact (Option.some.inj hs').symm
      · have hstep : (handle_remove_entity st et eid).1 = st := by
          simp only [handle_remove_entity, if_neg ha, if_neg hi, if_neg hr]
        rw [hstep, hg] at hs'
        exact (Option.some.inj hs').symm

/-- `fail_sessions_on_target` with a resolvable group: any session bound to
the group by `avatar_group_id` comes out FAILED whatever its prior status,
and otherwise unchanged. -/
theorem fail_on_target_match (st : St) (aid : Option Nat) (ag : Option String)
    {gname : String} {g : AvatarGroup}
    (htr : truthyStr ag = some gname)
    (hfg : st.db.avatar_groups.find? (fun x => x.name == gname) = some g)
    {sid : Nat} {s : SessionRec} (hg : getSession st sid = some s)
    (hmatch : s.avatar_group_id = some g.id) :
    getSession (handle_fail_sessions_on_target st aid ag).1 sid
      = some { s with status := SessionStatus.FAILED } := by
  have hst1 : getSession
      ({ st with db := { st.db with sessions := st.db.sessions.map (fun s2 =>
          if s2.avatar_group_id == some g.id then
            { s2 with status := SessionStatus.FAILED } else s2) } } : St) sid
      = some { s with status := SessionStatus.FAILED } := by
    rw [getSession_map_pred _ st (fun s2 => s2.avatar_group_id == some g.id)
      (fun s2 => { s2 with status := SessionStatus.FAILED }) rfl (fun x => rfl) sid, hg]
    simp [hmatch]
  unfold handle_fail_sessions_on_target
  simp only [htr, hfg]
  split
  · exact hst1
  · exact stopCountLoop_stable failSingleSession failSingle_stable _ _ _ hst1 (by simp)

/-- `fail_sessions_on_target` leaves a non-RUNNING session unchanged when
it is not bound to the named group. -/
theorem fail_on_target_nomatch (st : St) (aid : Option Nat) (ag : Option String)
    {sid : Nat} {s : SessionRec} (hg : getSession st sid = some s)
    (hns : ¬ s.status = SessionStatus.RUNNING)
    (hno : ∀ gname g, truthyStr ag = some gname →
      st.db.avatar_groups.find? (fun x => x.name == gname) = some g →
      ¬ s.avatar_group_id = some g.id) :
    getSession (handle_fail_sessions_on_target st aid ag).1 sid = some s := by
  unfold handle_fail_sessions_on_target
  cases htr : truthyStr ag with
  | none =>
    simp only [htr]
    split
    · exact hg
    · exact stopCountLoop_stable failSingleSession failSingle_stable _ _ _ hg hns
  | some gname =>
    cases hfg : st.db.avatar_groups.find? (fun x => x.name == gname) with
    | none =>
      simp only [htr, hfg]
      exact hg
    | some g =>
      have hnm := hno gname g htr hfg
      have hst1 : getSession
          ({ st with db := { st.db with sessions := st.db.sessions.map (fun s2 =>
              if s2.avatar_group_id == some g.id then
                { s2 with status := SessionStatus.FAILED } else s2) } } : St) sid
          = some s := by
        rw [getSession_map_pred _ st (fun s2 => s2.avatar_group_id == some g.id)
          (fun s2 => { s2 with status := SessionStatus.FAILED }) rfl (fun x => rfl) sid,
          hg]
        simp [hnm]
      simp only [htr, hfg]
      split
      · exact hst1
      · exact stopCountLoop_stable failSingleSession failSingle_stable _ _ _ hst1 hns

/-- `redo_failed` maps a FAILED session to RESTARTED and leaves every other
session's row unchanged. -/
theorem redo_failed_getSession (st : St) (hwf : Wf st) {sid : Nat} {s : SessionRec}
    (hg : getSession st sid = some s) :
    getSession (handle_redo_failed_sessions st).1 sid
      = some (if s.status = SessionStatus.FAILED
          then { s with status := SessionStatus.RESTARTED } else s) := by
  have hnd : ((st.db.sessions.filter
      (fun x => x.status == SessionStatus.FAILED)).map (fun x => x.id)).Nodup := by
    have hsub : List.Sublist ((st.db.sessions.filter
        (fun x => x.status == SessionStatus.FAILED)).map (fun x => x.id))
        (st.db.sessions.map (fun x => x.id)) :=
      List.Sublist.map _ (List.filter_sublist _)
    exact hwf.2.sublist hsub
  obtain ⟨hmem, hid⟩ := getSession_some_mem hg
  unfold handle_redo_failed_sessions
  dsimp only
  split
  · next hemp =>
    have hnotf : ¬ s.status = SessionStatus.FAILED := by
      intro hf
      have hms : s ∈ st.db.sessions.filter (fun x => x.status == SessionStatus.FAILED) :=
        List.mem_filter.mpr ⟨hmem, by simp [hf]⟩
      have hmid : s.id ∈ (st.db.sessions.filter
          (fun x => x.status == SessionStatus.FAILED)).map (fun x => x.id) :=
        List.mem_map_of_mem _ hms
      rw [List.isEmpty_iff] at hemp
      rw [hemp] at hmid
      cases hmid
    rw [if_neg hnotf]
    exact hg
  · by_cases hf : s.status = SessionStatus.FAILED
    · have hmemid : sid ∈ (st.db.sessions.filter
          (fun x => x.status == SessionStatus.FAILED)).map (fun x => x.id) := by
        have hms : s ∈ st.db.sessions.filter
            (fun x => x.status == SessionStatus.FAILED) :=
          List.mem_filter.mpr ⟨hmem, by simp [hf]⟩
        rw [← hid]
        exact List.mem_map_of_mem _ hms
      rw [if_pos hf]
      exact redoLoop_restarts _ st 0 hwf.1 hmemid hnd hg
    · have hnmem : sid ∉ (st.db.sessions.filter
          (fun x => x.status == SessionStatus.FAILED)).map (fun x => x.id) := by
        intro hin
        obtain ⟨u, hu, huid⟩ := List.mem_map.mp hin
        have hu2 := List.mem_filter.mp hu
        have hueq : u = s :=
          List.inj_on_of_nodup_map hwf.2 hu2.1 hmem (by rw [huid, hid])
        rw [hueq] at hu2
        have : s.status = SessionStatus.FAILED := by simpa using hu2.2
        exact hf this
      rw [if_neg hf]
      exact redoLoop_stable _ st 0 hwf.1 hnmem hg

/-- `remove_group` keeps every session's status. -/
theorem remove_group_getSession_status (st : St) (gt gn : String) {sid : Nat}
    {s : SessionRec} (hg : getSession st sid = some s) :
    ∃ s2, getSession (handle_remove_group st gt gn).1 sid = some s2 ∧
      s2.status = s.status := by
  obtain ⟨p, f, hpf, hsess⟩ := remove_group_sessions_shape st gt gn
  refine ⟨if p s then f s else s, ?_, ?_⟩
  · rw [getSession_map_pred _ st p f hsess (fun x => (hpf x).1) sid, hg]
    rfl
  · by_cases h : p s <;> simp [h, (hpf s).2]

/-- C3 (amended): a session in a terminal status (COMPLETED, STOPPED,
FAILED or RESTARTED) is never mutated by a subsequent command, with
exactly three exceptions — `stop_session` on its id overwrites the status
with STOPPED; `fail_sessions_on_target` with a resolvable group name sets
every session bound to that group by `avatar_group_id` to FAILED
regardless of prior status; and `redo_failed` sets a FAILED session to
RESTARTED. -/
theorem terminal_status_is_stable (st : St) (hwf : Wf st) (hrefs : RefsOk st)
    (c : Command) (sid : Nat) (s s' : SessionRec)
    (hs : getSession st sid = some s)
    (ht : s.status.isTerminal = true)
    (hs' : getSession (step st c).1 sid = some s') :
    s'.status = s.status ∨
    (c = Command.stop_session sid ∧ s'.status = SessionStatus.STOPPED) ∨
    ((∃ a2 g2 gname g, c = Command.fail_sessions_on_target a2 g2 ∧
        truthyStr g2 = some gname ∧
        st.db.avatar_groups.find? (fun x => x.name == gname) = some g ∧
        s.avatar_group_id = some g.id) ∧
      s'.status = SessionStatus.FAILED) ∨
    (c = Command.redo_failed ∧ s.status = SessionStatus.FAILED ∧
      s'.status = SessionStatus.RESTARTED) := by
  have hns : ¬ s.status = SessionStatus.RUNNING := by
    cases hcs : s.status <;> simp_all [SessionStatus.isTerminal]
  cases c with
  | ping =>
    exact Or.inl (by rw [Option.some.inj (hs.symm.trans hs')])
  | start_ic a g i d =>
    have heq := start_ic_getSession st hwf.1 a g i d hs
    exact Or.inl (by rw [Option.some.inj (heq.symm.trans hs')])
  | start_request a ag r rg d =>
    have heq := start_request_getSession st hwf.1 a ag r rg d hs
    exact Or.inl (by rw [Option.some.inj (heq.symm.trans hs')])
  | start_link s2 d dg du =>
    have heq := start_link_getSession st hwf.1 s2 d dg du hs
    exact Or.inl (by rw [Option.some.inj (heq.symm.trans hs')])
  | start_group ag ig d =>
    have heq := start_group_getSession st hwf.1 ag ig d hs
    exact Or.inl (by rw [Option.some.inj (heq.symm.trans hs')])
  | stop_session sid2 =>
    have heq := stop_session_status st sid2 hs hns
    have hseq := Option.some.inj (heq.symm.trans hs')
    by_cases h : sid = sid2
    · rw [if_pos h] at hseq
      exact Or.inr (Or.inl ⟨by rw [h], by rw [← hseq]⟩)
    · rw [if_neg h] at hseq
      exact Or.inl (by rw [← hseq])
  | view_running_on ident =>
    rw [show (step st (Command.view_running_on ident)).1 = st from
      view_state st ident] at hs'
    exact Or.inl (by rw [Option.some.inj (hs.symm.trans hs')])
  | add_member_to_group t n m =>
    have heq := add_member_getSession st hwf hrefs t n m hs
    exact Or.inl (by rw [Option.some.inj (heq.symm.trans hs')])
  | remove_member_from_group t n m =>
    have heq := remove_member_getSession st t n m hs hns
    exact Or.inl (by rw [Option.some.inj (heq.symm.trans hs')])
  | remove_entity t i =>
    have hss := remove_entity_status st hwf t i hs hns hs'
    exact Or.inl (by rw [hss])
  | remove_group t n =>
    obtain ⟨s2, heq, hstat⟩ := remove_group_getSession_status st t n hs
    have hseq := Option.some.inj (heq.symm.trans hs')
    exact Or.inl (by rw [← hseq]; exact hstat)
  | redo_failed =>
    have heq := redo_failed_getSession st hwf hs
    have hseq := Option.some.inj (heq.symm.trans hs')
    by_cases hf : s.status = SessionStatus.FAILED
    · rw [if_pos hf] at hseq
      exact Or.inr (Or.inr (Or.inr ⟨rfl, hf, by rw [← hseq]⟩))
    · rw [if_neg hf] at hseq
      exact Or.inl (by rw [← hseq])
  | update_entity t i p inf =>
    have heq := update_entity_getSession st t i p inf hs hns
    exact Or.inl (by rw [Option.some.inj (heq.symm.trans hs')])
  | fail_sessions_on_target a2 g2 =>
    cases htr : truthyStr g2 with
    | none =>
      have heq := fail_on_target_nomatch st a2 g2 hs hns
        (by intro gname g h1 h2; rw [htr] at h1; cases h1)
      exact Or.inl (by rw [Option.some.inj (heq.symm.trans hs')])
    | some gname =>
      cases hfg : st.db.avatar_groups.find? (fun x => x.name == gname) with
      | none =>
        have heq := fail_on_target_nomatch st a2 g2 hs hns ?_
        · exact Or.inl (by rw [Option.some.inj (heq.symm.trans hs')])
        · intro gname2 g h1 h2
          have hgn : gname2 = gname := Option.some.inj (h1.symm.trans htr)
          rw [hgn, hfg] at h2
          cases h2
      | some g =>
        by_cases hmatch : s.avatar_group_id = some g.id
        · have heq := fail_on_target_match st a2 g2 htr hfg hs hmatch
          have hseq := Option.some.inj (heq.symm.trans hs')
          exact Or.inr (Or.inr (Or.inl
            ⟨⟨a2, g2, gname, g, rfl, htr, hfg, hmatch⟩, by rw [← hseq]⟩))
        · have heq := fail_on_target_nomatch st a2 g2 hs hns ?_
          · exact Or.inl (by rw [Option.some.inj (heq.symm.trans hs')])
          · intro gname2 g3 h1 h2
            have hgn : gname2 = gname := Option.some.inj (h1.symm.trans htr)
            rw [hgn, hfg] at h2
            have hgg : g3 = g := (Option.some.inj h2).symm
            rw [hgg]
            exact hmatch
  | fail_all_running =>
    have heq := fail_all_getSession st hs hns
    exact Or.inl (by rw [Option.some.inj (heq.symm.trans hs')])

/-- C3 counterexample fixture: a COMPLETED group parent bound to avatar
group G, with one RUNNING child leaf. -/
def c3parent : SessionRec :=
  { id := 1, is_group_session := true, description := "p",
    avatar_group_id := some 1, session_type := .GROUP_IC_SESSION,
    start_time := 0, status := .COMPLETED }

/-- The RUNNING child leaf of the C3 fixture. -/
def c3child : SessionRec :=
  { id := 2, parent_session_id := some 1, description := "c",
    avatar_id := some 1, ic_id := some 7, session_type := .IC_SESSION,
    start_time := 0, status := .RUNNING, worker_pid := some 50 }

/-- C3 counterexample state. -/
def stC3 : St :=
  { db := { avatars := [{ id := 1, name := "A1", photo_data := [], info_data := "" }],
            ics := [], requests := [],
            avatar_groups := [{ id := 1, name := "G" }],
            avatar_group_members := [{ group_id := 1, avatar_id := 1 }],
            ic_groups := [], ic_group_members := [],
            request_groups := [], request_group_members := [],
            sessions := [c3parent, c3child],
            next_session_id := 3 },
    avatar_cache := [], ic_cache := [], request_cache := [],
    active_workers := [(2, 50)], clock := 0, next_pid := 51 }

/-- C3 counterexample: `fail_sessions_on_target` on group G overwrites the
COMPLETED parent's terminal status with FAILED — a terminal-status
transition by an operation other than `redo_failed`. -/
theorem fail_on_target_flips_completed_parent :
    (getSession stC3 1).map (fun x => x.status) = some SessionStatus.COMPLETED ∧
    (getSession (step stC3 (Command.fail_sessions_on_target none (some "G"))).1 1).map
        (fun x => x.status) = some SessionStatus.FAILED := by
  decide

/-- C3 witness: the amended theorem applied to `ping` on the COMPLETED
session of `stC6`, landing in the unchanged-status disjunct. -/
theorem terminal_status_is_stable_witness :
    (c6rec .COMPLETED).status = (c6rec .COMPLETED).status ∨
    (Command.ping = Command.stop_session 1 ∧
      (c6rec .COMPLETED).status = SessionStatus.STOPPED) ∨
    ((∃ a2 g2 gname g, Command.ping = Command.fail_sessions_on_target a2 g2 ∧
        truthyStr g2 = some gname ∧
        stC6.db.avatar_groups.find? (fun x => x.name == gname) = some g ∧
        (c6rec .COMPLETED).avatar_group_id = some g.id) ∧
      (c6rec .COMPLETED).status = SessionStatus.FAILED) ∨
    (Command.ping = Command.redo_failed ∧
      (c6rec .COMPLETED).status = SessionStatus.FAILED ∧
      (c6rec .COMPLETED).status = SessionStatus.RESTARTED) :=
  terminal_status_is_stable stC6 (by decide) (by decide) Command.ping 1
    (c6rec .COMPLETED) (c6rec .COMPLETED) (by decide) (by decide) (by decide)

end Healer
